import Mathlib

/-!
# LucidConsole: bridging, queueing and connectivity core

A shallow embedding of the coordination logic of the LucidConsole firmware
(`main/display/oled_render.c`, `main/web/web_server.c`,
`main/wifi/wifi_manager.c`, `main/uart/uart_bridge.c`) together with theorems
about it.

Conventions of the embedding.

* File-scope C variables become fields of an explicit state record that every
  function takes and returns.
* Calls into the vendor SDK (FreeRTOS queues, the HTTP server, the UART driver,
  NVS, the WiFi driver) are not part of the firmware.  Their outcomes are
  inputs of the embedded functions, and the calls a function makes are
  returned as a trace where a theorem speaks about them.
* `uint32_t` / `uint8_t` values are natural numbers reduced explicitly modulo
  `2^32` / `2^8` wherever the C code performs arithmetic on them.
* A C string is the list of its characters before the terminating NUL; a
  pointer that may be `NULL` is an `Option`.
-/

namespace LucidConsole

/-! ## Common definitions -/

/-- The `esp_err_t` codes used by the firmware. -/
inductive esp_err_t where
  | ESP_OK
  | ESP_FAIL
  | ESP_ERR_NO_MEM
  | ESP_ERR_INVALID_ARG
  | ESP_ERR_INVALID_STATE
  | ESP_ERR_NOT_FOUND
  | ESP_ERR_NVS_NOT_FOUND
  | ESP_ERR_NVS_INVALID_LENGTH
  | ESP_ERR_TCPIP_ADAPTER_DHCP_ALREADY_STOPPED
  | ESP_ERR_OTHER (code : Nat)
  deriving DecidableEq, Repr

open esp_err_t

/-- Number of values of a `uint32_t`. -/
def UINT32_RANGE : Nat := 4294967296

/-- Number of values of a `uint8_t`. -/
def UINT8_RANGE : Nat := 256

/-- The C statement `x++` on a `uint32_t`. -/
def u32_incr (x : Nat) : Nat := (x + 1) % UINT32_RANGE

/-- The C statement `x += n` on a `uint32_t` with a positive `int` operand. -/
def u32_add (x n : Nat) : Nat := (x + n) % UINT32_RANGE

/-- The string left in `dst` by `strncpy(dst, src, n)` when `dst[n]` is NUL. -/
def strncpy (src : List Char) (n : Nat) : List Char := src.take n

/-! ## Render queue (`main/display/oled_render.c`) -/

def RENDER_QUEUE_SIZE : Nat := 16
def RENDER_MAX_TEXT_LEN : Nat := 21
def RENDER_MAX_LINES : Nat := 8

/-- Text line render command (`render_text_line_t`). -/
structure render_text_line_t where
  line : Nat
  text : List Char
  clear_line : Bool
  deriving DecidableEq, Repr

/-- Status update render command (`render_status_t`). -/
structure render_status_t where
  rx_count : Nat
  tx_count : Nat
  uptime_sec : Nat
  free_heap : Nat
  wifi_rssi : Int
  deriving DecidableEq, Repr

/-- Render command (`render_cmd_t`): the type tag together with the member of
the union that the tag selects. -/
inductive render_cmd_t where
  | RENDER_CMD_TEXT_LINE (text_line : render_text_line_t)
  | RENDER_CMD_CLEAR_SCREEN
  | RENDER_CMD_DISPLAY_POWER (display_on : Bool)
  | RENDER_CMD_STATUS_UPDATE (status : render_status_t)
  deriving DecidableEq, Repr

open render_cmd_t

/-- A FreeRTOS queue: its length `uxLength` fixed at creation and the items
waiting in it, oldest first. -/
structure Queue (α : Type) where
  uxLength : Nat
  items : List α
  deriving DecidableEq, Repr

/-- FreeRTOS `xQueueCreate(uxQueueLength, itemSize)` when the allocation
succeeds. -/
def xQueueCreate {α : Type} (uxQueueLength : Nat) : Queue α :=
  { uxLength := uxQueueLength, items := [] }

/-- FreeRTOS `xQueueSend(q, &item, 0)`: with a block time of zero the item is
copied to the back of the queue when there is room (`pdTRUE`), and the call
returns `errQUEUE_FULL` at once otherwise. -/
def xQueueSend {α : Type} (q : Queue α) (item : α) : Bool × Queue α :=
  if q.items.length < q.uxLength then (true, { q with items := q.items ++ [item] })
  else (false, q)

/-- FreeRTOS `xQueueReceive` when it does not time out: the oldest item. -/
def xQueueReceive {α : Type} (q : Queue α) : Option (α × Queue α) :=
  match q.items with
  | [] => none
  | x :: rest => some (x, { q with items := rest })

/-- FreeRTOS `uxQueueMessagesWaiting`. -/
def uxQueueMessagesWaiting {α : Type} (q : Queue α) : Nat := q.items.length

/-- File-scope state of `oled_render.c`: `render_queue` (`none` is `NULL`)
and `dropped_commands`. -/
structure RenderState where
  render_queue : Option (Queue render_cmd_t)
  dropped_commands : Nat
  deriving DecidableEq, Repr

/-- The state of `oled_render.c` at program start. -/
def RenderState.boot : RenderState := { render_queue := none, dropped_commands := 0 }

/-- Embedding of `oled_render_init`: `queue_ok` and `task_ok` are the outcomes
of `xQueueCreate` and `xTaskCreate`. -/
def oled_render_init (queue_ok task_ok : Bool) (s : RenderState) : esp_err_t × RenderState :=
  if !queue_ok then (ESP_ERR_NO_MEM, { s with render_queue := none })
  else if !task_ok then (ESP_ERR_NO_MEM, { s with render_queue := none })
  else (ESP_OK, { s with render_queue := some (xQueueCreate RENDER_QUEUE_SIZE) })

/-- The tail shared by the four enqueue functions:
`if (xQueueSend(render_queue, &cmd, 0) != pdTRUE) { dropped_commands++; return ESP_FAIL; } return ESP_OK;` -/
def render_post (s : RenderState) (q : Queue render_cmd_t) (cmd : render_cmd_t) :
    esp_err_t × RenderState :=
  match xQueueSend q cmd with
  | (true, q1) => (ESP_OK, { s with render_queue := some q1 })
  | (false, _) => (ESP_FAIL, { s with dropped_commands := u32_incr s.dropped_commands })

/-- Embedding of `oled_render_text_line`. -/
def oled_render_text_line (s : RenderState) (line : Nat) (text : Option (List Char))
    (clear_line : Bool) : esp_err_t × RenderState :=
  match s.render_queue, text with
  | some q, some t =>
    if line ≥ RENDER_MAX_LINES then (ESP_ERR_INVALID_ARG, s)
    else
      render_post s q (RENDER_CMD_TEXT_LINE
        { line := line, text := strncpy t RENDER_MAX_TEXT_LEN, clear_line := clear_line })
  | _, _ => (ESP_ERR_INVALID_ARG, s)

/-- Embedding of `oled_render_clear_screen`. -/
def oled_render_clear_screen (s : RenderState) : esp_err_t × RenderState :=
  match s.render_queue with
  | none => (ESP_ERR_INVALID_STATE, s)
  | some q => render_post s q RENDER_CMD_CLEAR_SCREEN

/-- Embedding of `oled_render_display_power`. -/
def oled_render_display_power (s : RenderState) (display_on : Bool) : esp_err_t × RenderState :=
  match s.render_queue with
  | none => (ESP_ERR_INVALID_STATE, s)
  | some q => render_post s q (RENDER_CMD_DISPLAY_POWER display_on)

/-- Embedding of `oled_render_status_update`. -/
def oled_render_status_update (s : RenderState) (status : Option render_status_t) :
    esp_err_t × RenderState :=
  match s.render_queue, status with
  | some q, some st => render_post s q (RENDER_CMD_STATUS_UPDATE st)
  | _, _ => (ESP_ERR_INVALID_ARG, s)

/-- Embedding of `oled_render_get_stats` with both out-pointers non-null:
`(queued_items, dropped_items)`. -/
def oled_render_get_stats (s : RenderState) : Nat × Nat :=
  ((match s.render_queue with
    | some q => uxQueueMessagesWaiting q
    | none => 0), s.dropped_commands)

/-- One call of the enqueue API, with its arguments. -/
inductive RenderCall where
  | text_line (line : Nat) (text : Option (List Char)) (clear_line : Bool)
  | clear_screen
  | display_power (display_on : Bool)
  | status_update (status : Option render_status_t)
  deriving DecidableEq, Repr

/-- Perform one call of the enqueue API. -/
def RenderCall.exec (s : RenderState) : RenderCall → esp_err_t × RenderState
  | .text_line line text clear_line => oled_render_text_line s line text clear_line
  | .clear_screen => oled_render_clear_screen s
  | .display_power display_on => oled_render_display_power s display_on
  | .status_update status => oled_render_status_update s status

/-- Perform a sequence of calls with no dequeue in between; the results are
returned in call order. -/
def render_run (s : RenderState) : List RenderCall → List esp_err_t × RenderState
  | [] => ([], s)
  | c :: cs =>
    let r := c.exec s
    let rs := render_run r.2 cs
    (r.1 :: rs.1, rs.2)

/-- A call whose arguments pass the argument checks of its function: a
non-null text and a line below `RENDER_MAX_LINES`, a non-null status. -/
def RenderCall.valid : RenderCall → Prop
  | .text_line line text _ => line < RENDER_MAX_LINES ∧ text ≠ none
  | .clear_screen => True
  | .display_power _ => True
  | .status_update status => status ≠ none

instance (c : RenderCall) : Decidable c.valid := by
  cases c <;> unfold RenderCall.valid <;> infer_instance

/-- The command a call submits: what the caller asked for, with the text of a
text line cut to the 21 characters a command can carry. -/
def RenderCall.cmd : RenderCall → render_cmd_t
  | .text_line line text clear_line =>
    RENDER_CMD_TEXT_LINE
      { line := line, text := (text.getD []).take 21, clear_line := clear_line }
  | .clear_screen => RENDER_CMD_CLEAR_SCREEN
  | .display_power display_on => RENDER_CMD_DISPLAY_POWER display_on
  | .status_update status =>
    RENDER_CMD_STATUS_UPDATE
      (status.getD { rx_count := 0, tx_count := 0, uptime_sec := 0, free_heap := 0, wifi_rssi := 0 })

/-! ## Broadcast fan-out (`main/web/web_server.c`) -/

def MAX_SSE_CLIENTS : Nat := 4

/-- Size of the local `b64_buf` of `web_server_broadcast_uart_data`. -/
def B64_BUF_SIZE : Nat := 512

/-- Size of the local `sse_msg` of `web_server_broadcast_uart_data`. -/
def SSE_MSG_SIZE : Nat := 600

/-- Largest `size_t` of the 32-bit target (`BASE64_SIZE_T_MAX` of mbedTLS). -/
def BASE64_SIZE_T_MAX : Nat := 4294967295

/-- The Base64 alphabet of mbedTLS (`base64_enc_map`). -/
def base64_enc_map : List Char :=
  "ABCDEFGHIJKLMNOPQRSTUVWXYZabcdefghijklmnopqrstuvwxyz0123456789+/".toList

/-- Entry `i` of `base64_enc_map`. -/
def base64_enc (i : Nat) : Char := base64_enc_map.getD (i % 64) 'A'

/-- The characters written by the encoding loop of `mbedtls_base64_encode`:
three input bytes give four characters, a trailing group of one or two bytes
is padded with `=`. -/
def base64_encode_chars : List Nat → List Char
  | c1 :: c2 :: c3 :: rest =>
    base64_enc (c1 / 4) :: base64_enc ((c1 % 4) * 16 + c2 / 16) ::
      base64_enc ((c2 % 16) * 4 + c3 / 64) :: base64_enc (c3 % 64) ::
      base64_encode_chars rest
  | [c1, c2] =>
    [base64_enc (c1 / 4), base64_enc ((c1 % 4) * 16 + c2 / 16),
      base64_enc ((c2 % 16) * 4), '=']
  | [c1] => [base64_enc (c1 / 4), base64_enc ((c1 % 4) * 16), '=', '=']
  | [] => []

/-- The number of bytes `mbedtls_base64_encode` needs in `dst` for `slen`
input bytes: four characters per started group of three, plus the NUL. -/
def base64_required (slen : Nat) : Nat :=
  (slen / 3 + (if slen % 3 ≠ 0 then 1 else 0)) * 4 + 1

/-- mbedTLS `mbedtls_base64_encode(dst, dlen, &olen, src, slen)` with a
non-null `dst`: `none` is `MBEDTLS_ERR_BASE64_BUFFER_TOO_SMALL`, `some cs` is
return value 0 with the `olen` characters `cs` written to `dst`. -/
def mbedtls_base64_encode (dlen : Nat) (src : List Nat) : Option (List Char) :=
  if src.length = 0 then some []
  else if src.length / 3 + (if src.length % 3 ≠ 0 then 1 else 0) > (BASE64_SIZE_T_MAX - 1) / 4 then
    none
  else if dlen < base64_required src.length then none
  else some (base64_encode_chars src)

/-- The text produced by the format
`"data: {\"uart_b64\":\"%.*s\",\"len\":%d}\n\n"` for the encoded characters
and the payload length. -/
def sse_format (b64 : List Char) (len : Nat) : List Char :=
  "data: \x7b\"uart_b64\":\"".toList ++ b64 ++ "\",\"len\":".toList ++
    Nat.toDigits 10 len ++ "\x7d\n\n".toList

/-- The string left in `sse_msg` by `snprintf(sse_msg, sizeof(sse_msg), ...)`:
at most `SSE_MSG_SIZE - 1` characters are kept. -/
def sse_message (b64 : List Char) (len : Nat) : List Char :=
  (sse_format b64 len).take (SSE_MSG_SIZE - 1)

/-- File-scope state of the SSE part of `web_server.c`: whether `sse_mutex`
has been created, and the array `sse_clients` (`none` is a `NULL` slot, a
number is the address of a request). -/
structure WebState where
  sse_mutex : Bool
  sse_clients : List (Option Nat)
  deriving DecidableEq, Repr

/-- The state of `web_server.c` at program start. -/
def WebState.boot : WebState :=
  { sse_mutex := false, sse_clients := List.replicate MAX_SSE_CLIENTS none }

/-- Slot `i` of a subscriber table. -/
def slot (clients : List (Option Nat)) (i : Nat) : Option Nat := clients.getD i none

/-- One call of `httpd_resp_send_chunk` made on behalf of a slot. -/
structure SendCall where
  slot_index : Nat
  req : Nat
  msg : List Char
  deriving DecidableEq, Repr

/-- The slot scan of `api_uart_stream_handler`:
`for (i = 0; i < MAX_SSE_CLIENTS; i++) if (sse_clients[i] == NULL) { sse_clients[i] = req; client_id = i; break; }`
with `n` iterations left at index `i`; the result is `client_id`. -/
def sse_slot_scan (req : Nat) (clients : List (Option Nat)) : Nat → Nat → Int × List (Option Nat)
  | 0, _ => (-1, clients)
  | n + 1, i =>
    if slot clients i = none then ((i : Int), clients.set i (some req))
    else sse_slot_scan req clients n (i + 1)

/-- The subscribe step of `api_uart_stream_handler`: `client_id` starts at -1
and the table is scanned only when the mutex exists. -/
def sse_subscribe (st : WebState) (req : Nat) : Int × WebState :=
  if st.sse_mutex then
    let r := sse_slot_scan req st.sse_clients MAX_SSE_CLIENTS 0
    (r.1, { st with sse_clients := r.2 })
  else (-1, st)

/-- Embedding of `api_uart_stream_handler` up to the capacity test that follows
the subscribe step: `some ESP_FAIL` when the handler returns there, `none`
when it goes on to serve the connection. -/
def api_uart_stream_handler (st : WebState) (req : Nat) : Option esp_err_t × WebState :=
  let r := sse_subscribe st req
  if r.1 = -1 then (some ESP_FAIL, r.2) else (none, r.2)

/-- The send loop of `web_server_broadcast_uart_data` with `n` iterations left
at index `i`; `send i req msg` is the result of the `httpd_resp_send_chunk`
call made for slot `i`.  The calls made are returned in order. -/
def sse_broadcast_loop (send : Nat → Nat → List Char → esp_err_t) (msg : List Char) :
    Nat → Nat → List (Option Nat) → List SendCall × List (Option Nat)
  | 0, _, clients => ([], clients)
  | n + 1, i, clients =>
    match slot clients i with
    | none => sse_broadcast_loop send msg n (i + 1) clients
    | some req =>
      let clients1 := if send i req msg ≠ ESP_OK then clients.set i none else clients
      let r := sse_broadcast_loop send msg n (i + 1) clients1
      ({ slot_index := i, req := req, msg := msg } :: r.1, r.2)

/-- Embedding of `web_server_broadcast_uart_data(data, len)`: `data` is the
buffer (`none` for `NULL`) and `len` the length of the list. -/
def web_server_broadcast_uart_data (send : Nat → Nat → List Char → esp_err_t) (st : WebState)
    (data : Option (List Nat)) : List SendCall × WebState :=
  match data with
  | none => ([], st)
  | some bytes =>
    if !st.sse_mutex || bytes.length = 0 then ([], st)
    else
      match mbedtls_base64_encode B64_BUF_SIZE bytes with
      | none => ([], st)
      | some b64 =>
        let r := sse_broadcast_loop send (sse_message b64 bytes.length) MAX_SSE_CLIENTS 0
          st.sse_clients
        (r.1, { st with sse_clients := r.2 })

/-- The sends a broadcast of `msg` owes to a table: one per occupied slot, in
slot order. -/
def expected_sends (msg : List Char) (clients : List (Option Nat)) : List SendCall :=
  (List.range MAX_SSE_CLIENTS).filterMap fun i =>
    (slot clients i).map fun req => { slot_index := i, req := req, msg := msg }

/-! ## Connectivity state machine (`main/wifi/wifi_manager.c`) -/

/-- WiFi connection status (`lucid_wifi_state_t`). -/
inductive lucid_wifi_state_t where
  | LUCID_WIFI_STATE_INIT
  | LUCID_WIFI_STATE_AP_MODE
  | LUCID_WIFI_STATE_STA_CONNECTING
  | LUCID_WIFI_STATE_STA_CONNECTED
  | LUCID_WIFI_STATE_STA_DISCONNECTED
  deriving DecidableEq, Repr

open lucid_wifi_state_t

/-- WiFi status information (`lucid_wifi_status_t`). -/
structure lucid_wifi_status_t where
  state : lucid_wifi_state_t
  ssid : List Char
  ip_address : List Char
  rssi : Int
  sta_count : Nat
  provisioned : Bool
  deriving DecidableEq, Repr

/-- File-scope state of `wifi_manager.c`. -/
structure WifiState where
  current_status : lucid_wifi_status_t
  wifi_initialized : Bool
  deriving DecidableEq, Repr

/-- The state of `wifi_manager.c` at program start (`current_status = {0}`). -/
def WifiState.boot : WifiState :=
  { current_status :=
      { state := LUCID_WIFI_STATE_INIT, ssid := [], ip_address := [], rssi := 0,
        sta_count := 0, provisioned := false },
    wifi_initialized := false }

def LUCIDUART_AP_SSID_LEAD : List Char := "LUCIDUART_".toList

def LUCIDUART_AP_IP : List Char := "10.10.10.1".toList
def LUCIDUART_AP_GATEWAY : List Char := "10.10.10.1".toList

/-- The address sentinel `"0.0.0.0"`. -/
def IP_NONE : List Char := "0.0.0.0".toList

/-- An event delivered to `wifi_event_handler`: the pair of `event_base` and
`event_id`, with the part of `event_data` that the handler reads. -/
inductive wifi_event_t where
  | WIFI_EVENT_AP_START
  | WIFI_EVENT_AP_STACONNECTED
  | WIFI_EVENT_AP_STADISCONNECTED
  | WIFI_EVENT_STA_START
  | WIFI_EVENT_STA_CONNECTED (ssid : List Char)
  | WIFI_EVENT_STA_DISCONNECTED (reason : Nat)
  | WIFI_EVENT_OTHER (event_id : Nat)
  | IP_EVENT_STA_GOT_IP (a b c d : Nat)
  | IP_EVENT_AP_STAIPASSIGNED (a b c d : Nat)
  | IP_EVENT_OTHER (event_id : Nat)
  | OTHER_BASE (event_id : Nat)
  deriving DecidableEq, Repr

open wifi_event_t

/-- A call into the WiFi driver made by the event handler. -/
inductive WifiCall where
  | esp_wifi_connect
  deriving DecidableEq, Repr

/-- The text of `snprintf(buf, 16, IPSTR, IP2STR(&ip))`. -/
def ip4_str (a b c d : Nat) : List Char :=
  (Nat.toDigits 10 a ++ '.' :: Nat.toDigits 10 b ++ '.' :: Nat.toDigits 10 c ++
    '.' :: Nat.toDigits 10 d).take 15

/-- Embedding of `wifi_event_handler`.  `ap_info` is the outcome of
`esp_wifi_sta_get_ap_info` (`some rssi` for `ESP_OK`); the result carries the
driver calls the handler made. -/
def wifi_event_handler (ap_info : Option Int) (s : WifiState) (e : wifi_event_t) :
    WifiState × List WifiCall :=
  let cs := s.current_status
  match e with
  | WIFI_EVENT_AP_START =>
    ({ s with current_status := { cs with state := LUCID_WIFI_STATE_AP_MODE } }, [])
  | WIFI_EVENT_AP_STACONNECTED =>
    ({ s with current_status := { cs with sta_count := (cs.sta_count + 1) % UINT8_RANGE } }, [])
  | WIFI_EVENT_AP_STADISCONNECTED =>
    if cs.sta_count > 0 then
      ({ s with current_status := { cs with sta_count := cs.sta_count - 1 } }, [])
    else (s, [])
  | WIFI_EVENT_STA_START =>
    ({ s with current_status := { cs with state := LUCID_WIFI_STATE_STA_CONNECTING } },
      [WifiCall.esp_wifi_connect])
  | WIFI_EVENT_STA_CONNECTED ssid =>
    ({ s with current_status := { cs with ssid := strncpy ssid 32, rssi := 0 } }, [])
  | WIFI_EVENT_STA_DISCONNECTED _ =>
    ({ s with current_status :=
        { cs with state := LUCID_WIFI_STATE_STA_DISCONNECTED, ip_address := IP_NONE } },
      [WifiCall.esp_wifi_connect])
  | WIFI_EVENT_OTHER _ => (s, [])
  | IP_EVENT_STA_GOT_IP a b c d =>
    let cs1 := { cs with ip_address := ip4_str a b c d, state := LUCID_WIFI_STATE_STA_CONNECTED }
    match ap_info with
    | some rssi => ({ s with current_status := { cs1 with rssi := rssi } }, [])
    | none => ({ s with current_status := cs1 }, [])
  | IP_EVENT_AP_STAIPASSIGNED _ _ _ _ => (s, [])
  | IP_EVENT_OTHER _ => (s, [])
  | OTHER_BASE _ => (s, [])

/-- Outcomes of the SDK calls made by the WiFi manager: the default event
loop, the WiFi driver, the TCP/IP adapter and the credential store (NVS
namespace `wifi_config`, keys `ssid` and `password`). -/
structure WifiEnv where
  event_loop_create : esp_err_t
  wifi_init : esp_err_t
  register_wifi_any : esp_err_t
  register_got_ip : esp_err_t
  register_staipassigned : esp_err_t
  dhcps_stop : esp_err_t
  set_ip_info : esp_err_t
  dhcps_start : esp_err_t
  nvs_open : esp_err_t
  nvs_ssid : Option (List Char)
  nvs_password : Option (List Char)
  get_mac : esp_err_t
  mac : List Nat
  set_mode : esp_err_t
  set_config : esp_err_t
  start : esp_err_t
  stop : esp_err_t
  deriving DecidableEq, Repr

/-- An upper-case hexadecimal digit. -/
def hex_digit (n : Nat) : Char := "0123456789ABCDEF".toList.getD (n % 16) '0'

/-- The text of `"%02X"` for a byte. -/
def hex_byte (b : Nat) : List Char := [hex_digit (b / 16), hex_digit b]

/-- Embedding of `wifi_manager_get_mac4` with a non-null buffer. -/
def wifi_manager_get_mac4 (env : WifiEnv) : esp_err_t × List Char :=
  if env.get_mac ≠ ESP_OK then (env.get_mac, [])
  else (ESP_OK, (hex_byte (env.mac.getD 4 0) ++ hex_byte (env.mac.getD 5 0)).take 4)

/-- Embedding of `wifi_manager_start_ap`.  `none` is the abort of
`ESP_ERROR_CHECK` on a failed driver call. -/
def wifi_manager_start_ap (env : WifiEnv) (s : WifiState) : Option (esp_err_t × WifiState) :=
  let m := wifi_manager_get_mac4 env
  if m.1 ≠ ESP_OK then some (m.1, s)
  else
    let ap_ssid := (LUCIDUART_AP_SSID_LEAD ++ m.2).take 31
    if env.set_mode ≠ ESP_OK then none
    else if env.set_config ≠ ESP_OK then none
    else if env.start ≠ ESP_OK then none
    else
      some (ESP_OK,
        { s with current_status :=
            { s.current_status with
              ssid := strncpy ap_ssid 32, ip_address := LUCIDUART_AP_IP, sta_count := 0,
              state := LUCID_WIFI_STATE_AP_MODE } })

/-- Embedding of the static `configure_ap_netif`. -/
def configure_ap_netif (env : WifiEnv) : esp_err_t :=
  if env.dhcps_stop ≠ ESP_OK ∧ env.dhcps_stop ≠ ESP_ERR_TCPIP_ADAPTER_DHCP_ALREADY_STOPPED then
    env.dhcps_stop
  else if env.set_ip_info ≠ ESP_OK then env.set_ip_info
  else if env.dhcps_start ≠ ESP_OK then env.dhcps_start
  else ESP_OK

/-- NVS `nvs_get_str(handle, key, out, &length)`: with `out = NULL`
(`buf = none`) only the required size, the length of the value plus its NUL,
is reported; otherwise the value is copied when it fits in `length` bytes. -/
def nvs_get_str (stored : Option (List Char)) (buf : Option Nat) : esp_err_t × List Char × Nat :=
  match stored with
  | none => (ESP_ERR_NVS_NOT_FOUND, [], 0)
  | some v =>
    match buf with
    | none => (ESP_OK, [], v.length + 1)
    | some length =>
      if v.length + 1 > length then (ESP_ERR_NVS_INVALID_LENGTH, [], v.length + 1)
      else (ESP_OK, v, v.length + 1)

/-- Embedding of `wifi_manager_has_credentials`. -/
def wifi_manager_has_credentials (env : WifiEnv) : Bool :=
  if env.nvs_open ≠ ESP_OK then false
  else
    let r := nvs_get_str env.nvs_ssid none
    decide (r.1 = ESP_OK ∧ r.2.2 > 0)

/-- The "Load from NVS" branch of `wifi_manager_connect_sta`: the result code
and the SSID read into `wifi_config.sta.ssid` (32 bytes); the password goes
into `wifi_config.sta.password` (64 bytes). -/
def nvs_load_credentials (env : WifiEnv) : esp_err_t × List Char :=
  if env.nvs_open ≠ ESP_OK then (ESP_ERR_NOT_FOUND, [])
  else
    let r := nvs_get_str env.nvs_ssid (some 32)
    if r.1 ≠ ESP_OK then (r.1, [])
    else
      let rp := nvs_get_str env.nvs_password (some 64)
      if rp.1 ≠ ESP_OK then (rp.1, []) else (ESP_OK, r.2.1)

/-- Embedding of `wifi_manager_connect_sta(ssid, password)`.  `none` is the
abort of `ESP_ERROR_CHECK` on a failed driver call. -/
def wifi_manager_connect_sta (env : WifiEnv) (s : WifiState)
    (ssid password : Option (List Char)) : Option (esp_err_t × WifiState) :=
  let loaded : esp_err_t × List Char :=
    match ssid, password with
    | some sv, some _ => (ESP_OK, strncpy sv 31)
    | _, _ => nvs_load_credentials env
  if loaded.1 ≠ ESP_OK then some (loaded.1, s)
  else if env.set_mode ≠ ESP_OK then none
  else if env.set_config ≠ ESP_OK then none
  else if env.start ≠ ESP_OK then none
  else
    some (ESP_OK,
      { s with current_status :=
          { s.current_status with
            state := LUCID_WIFI_STATE_STA_CONNECTING, ssid := strncpy loaded.2 32,
            ip_address := IP_NONE } })

/-- Embedding of `wifi_manager_reset_to_ap`: a failed `esp_wifi_stop` is only
logged. -/
def wifi_manager_reset_to_ap (env : WifiEnv) (s : WifiState) : Option (esp_err_t × WifiState) :=
  wifi_manager_start_ap env s

/-- Embedding of `wifi_manager_get_status` with a non-null `status`: the
snapshot copy. -/
def wifi_manager_get_status (s : WifiState) : esp_err_t × lucid_wifi_status_t :=
  (ESP_OK, s.current_status)

/-- Embedding of `wifi_manager_init`.  `none` is the abort of
`ESP_ERROR_CHECK`. -/
def wifi_manager_init (env : WifiEnv) (s : WifiState) : Option (esp_err_t × WifiState) :=
  if s.wifi_initialized then some (ESP_OK, s)
  else if env.event_loop_create ≠ ESP_OK then none
  else if env.wifi_init ≠ ESP_OK then none
  else if env.register_wifi_any ≠ ESP_OK then none
  else if env.register_got_ip ≠ ESP_OK then none
  else if env.register_staipassigned ≠ ESP_OK then none
  else if configure_ap_netif env ≠ ESP_OK then some (configure_ap_netif env, s)
  else
    let s1 : WifiState :=
      { current_status :=
          { s.current_status with
            state := LUCID_WIFI_STATE_INIT, provisioned := wifi_manager_has_credentials env,
            ip_address := IP_NONE, rssi := -100, sta_count := 0 },
        wifi_initialized := true }
    if s1.current_status.provisioned then
      match wifi_manager_connect_sta env s1 none none with
      | none => none
      | some (ret, s2) =>
        if ret ≠ ESP_OK then
          match wifi_manager_start_ap env s2 with
          | none => none
          | some (_, s3) => some (ESP_OK, s3)
        else some (ESP_OK, s2)
    else
      match wifi_manager_start_ap env s1 with
      | none => none
      | some (_, s2) => some (ESP_OK, s2)

/-! ## Serial bridge (`main/uart/uart_bridge.c`) -/

def LUCIDUART_RX_BUF_SIZE : Nat := 1024
def LUCIDUART_DEFAULT_BAUD : Nat := 115200

/-- Bridge statistics (`uart_bridge_stats_t`). -/
structure uart_bridge_stats_t where
  rx_bytes : Nat
  tx_bytes : Nat
  rx_errors : Nat
  tx_errors : Nat
  bridge_uptime : Nat
  bridge_active : Bool
  current_baud : Nat
  connected_clients : Nat
  deriving DecidableEq, Repr

/-- Bridge configuration (`uart_bridge_config_t`). -/
structure uart_bridge_config_t where
  baud_rate : Nat
  data_bits : Nat
  parity : Nat
  stop_bits : Nat
  echo_enabled : Bool
  timestamp_enabled : Bool
  deriving DecidableEq, Repr

/-- The configuration used by `uart_bridge_init(NULL)`: 115200 baud, 8 data
bits (`UART_DATA_8_BITS = 3`), no parity, one stop bit (`UART_STOP_BITS_1 = 1`). -/
def default_config : uart_bridge_config_t :=
  { baud_rate := LUCIDUART_DEFAULT_BAUD, data_bits := 3, parity := 0, stop_bits := 1,
    echo_enabled := false, timestamp_enabled := false }

/-- `memset(&bridge_stats, 0, sizeof(bridge_stats))`. -/
def zero_stats : uart_bridge_stats_t :=
  { rx_bytes := 0, tx_bytes := 0, rx_errors := 0, tx_errors := 0, bridge_uptime := 0,
    bridge_active := false, current_baud := 0, connected_clients := 0 }

/-- File-scope state of `uart_bridge.c`; `rx_data_callback` holds the address
of the registered function, `uptime_counter` is the static local of the event
task. -/
structure BridgeState where
  bridge_initialized : Bool
  bridge_active : Bool
  current_config : uart_bridge_config_t
  bridge_stats : uart_bridge_stats_t
  uart_rx_task_handle : Bool
  uart_event_queue : Bool
  rx_data_callback : Option Nat
  uptime_counter : Nat
  deriving DecidableEq, Repr

/-- The state of `uart_bridge.c` at program start. -/
def BridgeState.boot : BridgeState :=
  { bridge_initialized := false, bridge_active := false,
    current_config :=
      { baud_rate := 0, data_bits := 0, parity := 0, stop_bits := 0, echo_enabled := false,
        timestamp_enabled := false },
    bridge_stats := zero_stats, uart_rx_task_handle := false, uart_event_queue := false,
    rx_data_callback := none, uptime_counter := 0 }

/-- The UART driver event types the bridge loop distinguishes. -/
inductive uart_event_type_t where
  | UART_DATA
  | UART_FIFO_OVF
  | UART_BUFFER_FULL
  | UART_PARITY_ERR
  | UART_FRAME_ERR
  | UART_EVENT_OTHER (n : Nat)
  deriving DecidableEq, Repr

open uart_event_type_t

/-- What passes between the bridge and its surroundings, in order: events
received from the driver queue, transport reads and writes with the value
they returned, sink invocations, recovery actions and task creation. -/
inductive UartAct where
  | event (type : uart_event_type_t)
  | uart_read_bytes (length : Nat) (ret : Int)
  | uart_write_bytes (length : Nat) (ret : Int)
  | rx_data_callback (fn : Nat) (data : List Nat)
  | uart_flush_input
  | xQueueReset
  | xTaskCreate (created : Bool)
  deriving DecidableEq, Repr

/-- The uptime bookkeeping at the end of a loop iteration:
`if (++uptime_counter >= 10) { bridge_stats.bridge_uptime++; uptime_counter = 0; }`. -/
def uptime_tick (s : BridgeState) : BridgeState :=
  if u32_incr s.uptime_counter ≥ 10 then
    { s with
      bridge_stats := { s.bridge_stats with bridge_uptime := u32_incr s.bridge_stats.bridge_uptime },
      uptime_counter := 0 }
  else { s with uptime_counter := u32_incr s.uptime_counter }

/-- The `switch (event.type)` of `uart_event_task`.  `buffered_size` is the
value reported by `uart_get_buffered_data_len`, `read_ret` the value returned
by `uart_read_bytes` and `rx_buffer` the buffer after the read. -/
def uart_event_dispatch (s : BridgeState) (type : uart_event_type_t) (buffered_size : Nat)
    (read_ret : Int) (rx_buffer : List Nat) : BridgeState × List UartAct :=
  match type with
  | UART_DATA =>
    if buffered_size > 0 then
      let bytes_to_read :=
        if buffered_size < LUCIDUART_RX_BUF_SIZE then buffered_size else LUCIDUART_RX_BUF_SIZE
      if read_ret > 0 then
        let s1 := { s with
          bridge_stats :=
            { s.bridge_stats with rx_bytes := u32_add s.bridge_stats.rx_bytes read_ret.toNat } }
        match s.rx_data_callback with
        | some fn =>
          (s1, [UartAct.uart_read_bytes bytes_to_read read_ret,
            UartAct.rx_data_callback fn (rx_buffer.take read_ret.toNat)])
        | none => (s1, [UartAct.uart_read_bytes bytes_to_read read_ret])
      else (s, [UartAct.uart_read_bytes bytes_to_read read_ret])
    else (s, [])
  | UART_FIFO_OVF =>
    ({ s with bridge_stats := { s.bridge_stats with rx_errors := u32_incr s.bridge_stats.rx_errors } },
      [UartAct.uart_flush_input, UartAct.xQueueReset])
  | UART_BUFFER_FULL =>
    ({ s with bridge_stats := { s.bridge_stats with rx_errors := u32_incr s.bridge_stats.rx_errors } },
      [UartAct.uart_flush_input, UartAct.xQueueReset])
  | UART_PARITY_ERR =>
    ({ s with bridge_stats := { s.bridge_stats with rx_errors := u32_incr s.bridge_stats.rx_errors } },
      [])
  | UART_FRAME_ERR =>
    ({ s with bridge_stats := { s.bridge_stats with rx_errors := u32_incr s.bridge_stats.rx_errors } },
      [])
  | UART_EVENT_OTHER _ => (s, [])

/-- One iteration of the `while (bridge_active)` loop of `uart_event_task`:
`event` is what `xQueueReceive` delivered within its 100 ms (`none` on
timeout).  When `bridge_active` is false the loop has ended and nothing
happens. -/
def uart_event_task_step (s : BridgeState) (event : Option uart_event_type_t)
    (buffered_size : Nat) (read_ret : Int) (rx_buffer : List Nat) : BridgeState × List UartAct :=
  if !s.bridge_active then (s, [])
  else
    match event with
    | some type =>
      let r := uart_event_dispatch s type buffered_size read_ret rx_buffer
      (uptime_tick r.1, UartAct.event type :: r.2)
    | none => (uptime_tick s, [])

/-- The prologue of `uart_event_task`: `bridge_stats.bridge_uptime = 0`. -/
def uart_event_task_entry (s : BridgeState) : BridgeState :=
  { s with bridge_stats := { s.bridge_stats with bridge_uptime := 0 } }

/-- Embedding of `uart_bridge_init(config)`; `install_ret` and `param_ret` are
the results of `uart_driver_install` and `uart_param_config`. -/
def uart_bridge_init (s : BridgeState) (config : Option uart_bridge_config_t)
    (install_ret param_ret : esp_err_t) : esp_err_t × BridgeState :=
  if s.bridge_initialized then (ESP_OK, s)
  else
    let s1 := { s with current_config := config.getD default_config }
    if install_ret ≠ ESP_OK then (install_ret, s1)
    else
      let s2 := { s1 with uart_event_queue := true }
      if param_ret ≠ ESP_OK then (param_ret, s2)
      else
        (ESP_OK,
          { s2 with
            bridge_stats := { zero_stats with current_baud := s2.current_config.baud_rate },
            bridge_initialized := true })

/-- Embedding of `uart_bridge_start`; `task_created` is the outcome of
`xTaskCreate`. -/
def uart_bridge_start (s : BridgeState) (task_created : Bool) :
    esp_err_t × BridgeState × List UartAct :=
  if !s.bridge_initialized then (ESP_ERR_INVALID_STATE, s, [])
  else if s.bridge_active then (ESP_OK, s, [])
  else
    let s1 := { s with
      bridge_active := true, bridge_stats := { s.bridge_stats with bridge_active := true } }
    if !task_created then
      (ESP_FAIL,
        { s1 with
          bridge_active := false, bridge_stats := { s1.bridge_stats with bridge_active := false } },
        [UartAct.xTaskCreate false])
    else (ESP_OK, { s1 with uart_rx_task_handle := true }, [UartAct.xTaskCreate true])

/-- Embedding of `uart_bridge_stop`. -/
def uart_bridge_stop (s : BridgeState) : esp_err_t × BridgeState :=
  if !s.bridge_active then (ESP_OK, s)
  else
    (ESP_OK,
      { s with
        bridge_active := false, bridge_stats := { s.bridge_stats with bridge_active := false },
        uart_rx_task_handle := false })

/-- Embedding of `uart_bridge_deinit`. -/
def uart_bridge_deinit (s : BridgeState) : esp_err_t × BridgeState :=
  if !s.bridge_initialized then (ESP_OK, s)
  else
    (ESP_OK,
      { (uart_bridge_stop s).2 with
        uart_event_queue := false, rx_data_callback := none, bridge_initialized := false })

/-- Embedding of `uart_bridge_send(data, length)`; `write_ret` is the value
returned by `uart_write_bytes` when it is called. -/
def uart_bridge_send (s : BridgeState) (data : Option (List Nat)) (length : Nat)
    (write_ret : Int) : Int × BridgeState × List UartAct :=
  if !s.bridge_active || data.isNone || length = 0 then (-1, s, [])
  else if write_ret > 0 then
    (write_ret,
      { s with
        bridge_stats :=
          { s.bridge_stats with tx_bytes := u32_add s.bridge_stats.tx_bytes write_ret.toNat } },
      [UartAct.uart_write_bytes length write_ret])
  else
    (write_ret,
      { s with
        bridge_stats := { s.bridge_stats with tx_errors := u32_incr s.bridge_stats.tx_errors } },
      [UartAct.uart_write_bytes length write_ret])

/-- Embedding of `uart_bridge_set_rx_callback`. -/
def uart_bridge_set_rx_callback (s : BridgeState) (callback : Option Nat) :
    esp_err_t × BridgeState :=
  (ESP_OK, { s with rx_data_callback := callback })

/-- Embedding of `uart_bridge_get_stats` with a non-null `stats`. -/
def uart_bridge_get_stats (s : BridgeState) : esp_err_t × uart_bridge_stats_t :=
  (ESP_OK, s.bridge_stats)

/-- Embedding of `uart_bridge_reset_stats`. -/
def uart_bridge_reset_stats (s : BridgeState) : esp_err_t × BridgeState :=
  (ESP_OK,
    { s with
      bridge_stats :=
        { s.bridge_stats with
          rx_bytes := 0, tx_bytes := 0, rx_errors := 0, tx_errors := 0, bridge_uptime := 0 } })

/-- Embedding of `uart_bridge_update_config(config)`. -/
def uart_bridge_update_config (s : BridgeState) (config : Option uart_bridge_config_t)
    (param_ret : esp_err_t) (task_created : Bool) : esp_err_t × BridgeState × List UartAct :=
  match config with
  | none => (ESP_ERR_INVALID_ARG, s, [])
  | some cfg =>
    let was_active := s.bridge_active
    let s1 := if was_active then (uart_bridge_stop s).2 else s
    let s2 := { s1 with
      current_config := cfg, bridge_stats := { s1.bridge_stats with current_baud := cfg.baud_rate } }
    if param_ret ≠ ESP_OK then (param_ret, s2, [])
    else if was_active then uart_bridge_start s2 task_created
    else (ESP_OK, s2, [])

/-- Embedding of `uart_bridge_is_active`. -/
def uart_bridge_is_active (s : BridgeState) : Bool := s.bridge_active

/-- Embedding of `uart_bridge_gpio_control`: only pin configuration. -/
def uart_bridge_gpio_control (s : BridgeState) (_tx_enable _rx_enable : Bool) :
    esp_err_t × BridgeState :=
  (ESP_OK, s)

/-- Embedding of `uart_bridge_get_rx_count`. -/
def uart_bridge_get_rx_count (s : BridgeState) : Nat := s.bridge_stats.rx_bytes

/-- Embedding of `uart_bridge_get_tx_count`. -/
def uart_bridge_get_tx_count (s : BridgeState) : Nat := s.bridge_stats.tx_bytes

/-- A bridge operation or loop event, with the outcomes of the SDK calls it
makes. -/
inductive BridgeOp where
  | init (config : Option uart_bridge_config_t) (install_ret param_ret : esp_err_t)
  | reset_stats
  | start (task_created : Bool)
  | stop
  | deinit
  | send (data : Option (List Nat)) (length : Nat) (write_ret : Int)
  | set_rx_callback (callback : Option Nat)
  | get_stats
  | update_config (config : Option uart_bridge_config_t) (param_ret : esp_err_t)
      (task_created : Bool)
  | gpio_control (tx_enable rx_enable : Bool)
  | task_entry
  | task_step (event : Option uart_event_type_t) (buffered_size : Nat) (read_ret : Int)
      (rx_buffer : List Nat)
  deriving DecidableEq, Repr

/-- The explicit resets of the statistics: `uart_bridge_reset_stats` and
`uart_bridge_init`. -/
def BridgeOp.is_reset : BridgeOp → Bool
  | .init _ _ _ => true
  | .reset_stats => true
  | _ => false

/-- Perform one operation: the new state and what passed between the bridge
and its surroundings. -/
def BridgeOp.exec (s : BridgeState) : BridgeOp → BridgeState × List UartAct
  | .init config install_ret param_ret => ((uart_bridge_init s config install_ret param_ret).2, [])
  | .reset_stats => ((uart_bridge_reset_stats s).2, [])
  | .start task_created => (uart_bridge_start s task_created).2
  | .stop => ((uart_bridge_stop s).2, [])
  | .deinit => ((uart_bridge_deinit s).2, [])
  | .send data length write_ret => (uart_bridge_send s data length write_ret).2
  | .set_rx_callback callback => ((uart_bridge_set_rx_callback s callback).2, [])
  | .get_stats => (s, [])
  | .update_config config param_ret task_created =>
    (uart_bridge_update_config s config param_ret task_created).2
  | .gpio_control tx_enable rx_enable => ((uart_bridge_gpio_control s tx_enable rx_enable).2, [])
  | .task_entry => (uart_event_task_entry s, [])
  | .task_step event buffered_size read_ret rx_buffer =>
    uart_event_task_step s event buffered_size read_ret rx_buffer

/-- Perform a sequence of operations; the traces are concatenated. -/
def bridge_run (s : BridgeState) : List BridgeOp → BridgeState × List UartAct
  | [] => (s, [])
  | op :: ops =>
    let r := op.exec s
    let rs := bridge_run r.1 ops
    (rs.1, r.2 ++ rs.2)

/-- The byte count reported by a transport read: the positive values returned
by `uart_read_bytes`. -/
def UartAct.rx_reported : UartAct → Nat
  | .uart_read_bytes _ ret => ret.toNat
  | _ => 0

/-- The byte count reported by a transport write: the positive values returned
by `uart_write_bytes`. -/
def UartAct.tx_reported : UartAct → Nat
  | .uart_write_bytes _ ret => ret.toNat
  | _ => 0

/-- Whether the item is one of the four receive error events. -/
def UartAct.rx_error_event : UartAct → Nat
  | .event UART_FIFO_OVF => 1
  | .event UART_BUFFER_FULL => 1
  | .event UART_PARITY_ERR => 1
  | .event UART_FRAME_ERR => 1
  | _ => 0

/-- Whether the item is a transport write that reported failure (nothing
written). -/
def UartAct.tx_error_event : UartAct → Nat
  | .uart_write_bytes _ ret => if ret ≤ 0 then 1 else 0
  | _ => 0

/-- Sum of the byte counts returned by the transport reads of a trace. -/
def rx_total (t : List UartAct) : Nat := (t.map UartAct.rx_reported).sum

/-- Sum of the byte counts returned by the transport writes of a trace. -/
def tx_total (t : List UartAct) : Nat := (t.map UartAct.tx_reported).sum

/-- Number of receive error events in a trace. -/
def rx_error_total (t : List UartAct) : Nat := (t.map UartAct.rx_error_event).sum

/-- Number of failed transport writes in a trace. -/
def tx_error_total (t : List UartAct) : Nat := (t.map UartAct.tx_error_event).sum

/-- The four counters hold `uint32_t` values. -/
def stats_in_range (st : uart_bridge_stats_t) : Prop :=
  st.rx_bytes < UINT32_RANGE ∧ st.tx_bytes < UINT32_RANGE ∧
    st.rx_errors < UINT32_RANGE ∧ st.tx_errors < UINT32_RANGE

instance (st : uart_bridge_stats_t) : Decidable (stats_in_range st) := by
  unfold stats_in_range
  infer_instance

/-- The counters of `s1` are those of `s` advanced, in `uint32_t` arithmetic,
by what the trace `t` reports. -/
def counters_advance (s s1 : BridgeState) (t : List UartAct) : Prop :=
  s1.bridge_stats.rx_bytes = (s.bridge_stats.rx_bytes + rx_total t) % UINT32_RANGE ∧
  s1.bridge_stats.tx_bytes = (s.bridge_stats.tx_bytes + tx_total t) % UINT32_RANGE ∧
  s1.bridge_stats.rx_errors = (s.bridge_stats.rx_errors + rx_error_total t) % UINT32_RANGE ∧
  s1.bridge_stats.tx_errors = (s.bridge_stats.tx_errors + tx_error_total t) % UINT32_RANGE

/-- The bridge after `uart_bridge_init(NULL)` and `uart_bridge_start()` have
succeeded on a freshly booted device. -/
def bridge_started : BridgeState :=
  (bridge_run BridgeState.boot
    [BridgeOp.init none ESP_OK ESP_OK, BridgeOp.start true, BridgeOp.task_entry]).1

/-- A data event with a full receive buffer: 1024 bytes buffered, 1024 bytes
read. -/
def full_read_event : BridgeOp :=
  BridgeOp.task_step (some UART_DATA) 1024 1024 (List.replicate 1024 65)

/-! ## Status snapshot (`web_server_get_system_status`) -/

/-- A `const char*` that `web_server_get_system_status` sets to the address
of an array inside its local `lucid_wifi_status_t wifi_status`.  The local is
in the stack frame of the call, so the array stops existing when the function
returns. -/
inductive frame_ptr where
  | wifi_status_ssid
  | wifi_status_ip_address
  deriving DecidableEq, Repr

/-- System status for API responses (`web_system_status_t`).  The fields
`firmware_version`, `chip_model` and `wifi_mode` point to string literals and
are given by their text; `ssid` and `ip_address` point into the frame of
`web_server_get_system_status`. -/
structure web_system_status_t where
  uptime_sec : Nat
  free_heap : Nat
  firmware_version : List Char
  chip_model : List Char
  wifi_mode : List Char
  ssid : frame_ptr
  ip_address : frame_ptr
  rssi : Int
  client_count : Nat
  uart_rx_count : Nat
  uart_tx_count : Nat
  uart_baud_rate : Nat
  uart_bridge_active : Bool
  deriving DecidableEq, Repr

/-- Embedding of `web_server_get_system_status` with a non-null `status`.
`uart_rx_callback` and `uart_tx_callback` are the registered counter functions
(`none` when unset), evaluated on the bridge state; `ticks`, `tick_period_ms`
and `free_heap` are the values of `xTaskGetTickCount()`, `portTICK_PERIOD_MS`
and `esp_get_free_heap_size()`.  The assignments
`status->ssid = wifi_status.ssid; status->ip_address = wifi_status.ip_address;`
store the addresses of the arrays of the local `wifi_status`. -/
def web_server_get_system_status (wifi : WifiState) (bridge : BridgeState)
    (uart_rx_callback uart_tx_callback : Option (BridgeState → Nat))
    (ticks tick_period_ms free_heap : Nat) : esp_err_t × web_system_status_t :=
  let wifi_status := (wifi_manager_get_status wifi).2
  (ESP_OK,
    { uptime_sec := (ticks * tick_period_ms) % UINT32_RANGE / 1000,
      free_heap := free_heap,
      firmware_version := "1.0.0".toList,
      chip_model := "ESP8266EX".toList,
      wifi_mode :=
        match wifi_status.state with
        | LUCID_WIFI_STATE_AP_MODE => "AP".toList
        | LUCID_WIFI_STATE_STA_CONNECTED => "STA".toList
        | LUCID_WIFI_STATE_STA_CONNECTING => "Connecting".toList
        | _ => "Unknown".toList,
      ssid := frame_ptr.wifi_status_ssid,
      ip_address := frame_ptr.wifi_status_ip_address,
      rssi := wifi_status.rssi,
      client_count := wifi_status.sta_count,
      uart_rx_count :=
        match uart_rx_callback with
        | some f => f bridge
        | none => 0,
      uart_tx_count :=
        match uart_tx_callback with
        | some f => f bridge
        | none => 0,
      uart_baud_rate := 115200,
      uart_bridge_active := true })

/-- What the two arrays of the local `wifi_status` hold while
`web_server_get_system_status` runs: the copy made by
`wifi_manager_get_status`. -/
def wifi_status_frame (wifi : WifiState) : frame_ptr → List Char
  | frame_ptr.wifi_status_ssid => (wifi_manager_get_status wifi).2.ssid
  | frame_ptr.wifi_status_ip_address => (wifi_manager_get_status wifi).2.ip_address

/-- The values `api_status_handler` puts into the JSON object of
`GET /api/status`, in the order of the `cJSON_AddItemToObject` calls. -/
structure status_json where
  uptime_sec : Nat
  free_heap : Nat
  firmware_version : List Char
  chip_model : List Char
  wifi_mode : List Char
  ssid : List Char
  ip_address : List Char
  rssi : Int
  client_count : Nat
  uart_rx_count : Nat
  uart_tx_count : Nat
  uart_baud_rate : Nat
  uart_bridge_active : Bool
  deriving DecidableEq, Repr

/-- Embedding of `api_status_handler`: `none` is the `httpd_resp_send_500`
path.  `cJSON_CreateString(status.ssid)` and
`cJSON_CreateString(status.ip_address)` read through the two frame pointers
after `web_server_get_system_status` has returned and `cJSON_CreateObject`,
`cJSON_CreateNumber` and `cJSON_CreateString` have run on the same stack;
`stack p` is the string the memory at `p` holds at that read, which the
program does not determine. -/
def api_status_handler (wifi : WifiState) (bridge : BridgeState)
    (uart_rx_callback uart_tx_callback : Option (BridgeState → Nat))
    (ticks tick_period_ms free_heap : Nat) (stack : frame_ptr → List Char) :
    esp_err_t × Option status_json :=
  let r := web_server_get_system_status wifi bridge uart_rx_callback uart_tx_callback ticks
    tick_period_ms free_heap
  if r.1 ≠ ESP_OK then (ESP_FAIL, none)
  else
    (ESP_OK,
      some
        { uptime_sec := r.2.uptime_sec,
          free_heap := r.2.free_heap,
          firmware_version := r.2.firmware_version,
          chip_model := r.2.chip_model,
          wifi_mode := r.2.wifi_mode,
          ssid := stack r.2.ssid,
          ip_address := stack r.2.ip_address,
          rssi := r.2.rssi,
          client_count := r.2.client_count,
          uart_rx_count := r.2.uart_rx_count,
          uart_tx_count := r.2.uart_tx_count,
          uart_baud_rate := r.2.uart_baud_rate,
          uart_bridge_active := r.2.uart_bridge_active })

/-- Stack contents at the reads of `api_status_handler` after the frame has
been reused: neither array holds its string any more. -/
def stack_reused : frame_ptr → List Char := fun _ => []

/-! ## Display task (`ui_task` of `main/display/oled_render.c`) -/

/-- The drawing primitive the display task invokes for a command, with its
arguments. -/
inductive UiCall where
  | render_text_line_impl (line : Nat) (text : List Char) (clear_line : Bool)
  | oled_clear_screen
  | oled_display_power (display_on : Bool)
  | render_status_impl (status : render_status_t)
  deriving DecidableEq, Repr

/-- The `switch (cmd.type)` of `ui_task`. -/
def ui_dispatch : render_cmd_t → UiCall
  | RENDER_CMD_TEXT_LINE tl => UiCall.render_text_line_impl tl.line tl.text tl.clear_line
  | RENDER_CMD_CLEAR_SCREEN => UiCall.oled_clear_screen
  | RENDER_CMD_DISPLAY_POWER display_on => UiCall.oled_display_power display_on
  | RENDER_CMD_STATUS_UPDATE status => UiCall.render_status_impl status

/-- One iteration of the `while (true)` loop of `ui_task`: `xQueueReceive`
takes the oldest command, if there is one, and the command is dispatched;
`none` is the receive timing out on an empty queue. -/
def ui_task_step (s : RenderState) : Option (render_cmd_t × UiCall) × RenderState :=
  match s.render_queue with
  | none => (none, s)
  | some q =>
    match xQueueReceive q with
    | none => (none, s)
    | some (cmd, q1) => (some (cmd, ui_dispatch cmd), { s with render_queue := some q1 })

/-- The commands received and the primitives invoked by `n` iterations of the
display task, in order. -/
def ui_task_run : Nat → RenderState → List (render_cmd_t × UiCall) × RenderState
  | 0, s => ([], s)
  | n + 1, s =>
    let r := ui_task_step s
    let rs := ui_task_run n r.2
    (match r.1 with
      | some c => c :: rs.1
      | none => rs.1, rs.2)

/-! ## Bridge lifecycle invariant -/

/-- What holds of the bridge flags in every state the API can produce: an
active bridge is initialised, and the copy of the active flag in the
statistics agrees with `bridge_active`. -/
def bridge_inv (s : BridgeState) : Prop :=
  (s.bridge_active = true → s.bridge_initialized = true) ∧
    s.bridge_stats.bridge_active = s.bridge_active

instance (s : BridgeState) : Decidable (bridge_inv s) := by
  unfold bridge_inv
  infer_instance

/-- A configuration with 9600 baud. -/
def config_9600 : uart_bridge_config_t := { default_config with baud_rate := 9600 }

/-! ## Credential store and connect request (`wifi_manager_save_credentials`, `api_wifi_connect_handler`) -/

/-- Outcomes of the NVS calls made by `wifi_manager_save_credentials`:
`nvs_open(NVS_READWRITE)`, the two `nvs_set_str` and `nvs_commit`. -/
structure NvsWriteEnv where
  nvs_open : esp_err_t
  set_ssid : esp_err_t
  set_password : esp_err_t
  commit : esp_err_t
  deriving DecidableEq, Repr

/-- The values held under the keys `ssid` and `password` of the NVS namespace
`wifi_config`. -/
structure CredentialStore where
  ssid : Option (List Char)
  password : Option (List Char)
  deriving DecidableEq, Repr

/-- Embedding of `wifi_manager_save_credentials(ssid, password)`: the result,
the manager state and the store.  A value is in the store once its
`nvs_set_str` returned `ESP_OK`. -/
def wifi_manager_save_credentials (w : NvsWriteEnv) (s : WifiState) (store : CredentialStore)
    (ssid password : Option (List Char)) : esp_err_t × WifiState × CredentialStore :=
  match ssid, password with
  | some sv, some pv =>
    if w.nvs_open ≠ ESP_OK then (w.nvs_open, s, store)
    else if w.set_ssid ≠ ESP_OK then (w.set_ssid, s, store)
    else if w.set_password ≠ ESP_OK then (w.set_password, s, { store with ssid := some sv })
    else
      (w.commit, { s with current_status := { s.current_status with provisioned := true } },
        { ssid := some sv, password := some pv })
  | _, _ => (ESP_ERR_INVALID_ARG, s, store)

/-- What `api_wifi_connect_handler` gets from the HTTP server and the JSON
parser: the result of `httpd_req_recv`, whether `cJSON_Parse` succeeded, and
the items `ssid` and `password` when they are strings. -/
structure ConnectRequest where
  recv_ret : Int
  json_ok : Bool
  ssid : Option (List Char)
  password : Option (List Char)
  deriving DecidableEq, Repr

/-- A call from the connect handler into the WiFi manager, with its result. -/
inductive ManagerCall where
  | wifi_manager_save_credentials (ssid password : List Char) (ret : esp_err_t)
  | wifi_manager_connect_sta (ssid password : List Char) (ret : esp_err_t)
  deriving DecidableEq, Repr

/-- What a run of `api_wifi_connect_handler` leaves behind: its return value,
the `status` field of the JSON response (`none` for a 500 response), the
manager state, the store, and the manager calls in the order they were made. -/
structure ConnectOutcome where
  ret : esp_err_t
  response : Option (List Char)
  wifi : WifiState
  store : CredentialStore
  calls : List ManagerCall
  deriving DecidableEq, Repr

/-- Embedding of `api_wifi_connect_handler`.  `none` is the abort of
`ESP_ERROR_CHECK` inside `wifi_manager_connect_sta`. -/
def api_wifi_connect_handler (env : WifiEnv) (w : NvsWriteEnv) (s : WifiState)
    (store : CredentialStore) (req : ConnectRequest) : Option ConnectOutcome :=
  if req.recv_ret ≤ 0 then
    some { ret := ESP_FAIL, response := none, wifi := s, store := store, calls := [] }
  else if !req.json_ok then
    some { ret := ESP_FAIL, response := none, wifi := s, store := store, calls := [] }
  else
    match req.ssid with
    | none => some { ret := ESP_FAIL, response := none, wifi := s, store := store, calls := [] }
    | some ssid =>
      let password := req.password.getD []
      let saved := wifi_manager_save_credentials w s store (some ssid) (some password)
      match wifi_manager_connect_sta env saved.2.1 (some ssid) (some password) with
      | none => none
      | some (connect_result, s2) =>
        some
          { ret := ESP_OK,
            response :=
              some (if connect_result = ESP_OK then "success".toList else "error".toList),
            wifi := s2, store := saved.2.2,
            calls :=
              [ManagerCall.wifi_manager_save_credentials ssid password saved.1,
                ManagerCall.wifi_manager_connect_sta ssid password connect_result] }

/-- An NVS that accepts every call. -/
def nvs_ok : NvsWriteEnv :=
  { nvs_open := ESP_OK, set_ssid := ESP_OK, set_password := ESP_OK, commit := ESP_OK }

/-- An empty credential store. -/
def store_empty : CredentialStore := { ssid := none, password := none }

/-- A parsed connect request for the network `home` with password
`secret12`. -/
def connect_request_home : ConnectRequest :=
  { recv_ret := 41, json_ok := true, ssid := some "home".toList,
    password := some "secret12".toList }

/-- The bridge after `uart_bridge_init` with the 9600 baud configuration, not
started. -/
def bridge_9600_idle : BridgeState :=
  (bridge_run BridgeState.boot [BridgeOp.init (some config_9600) ESP_OK ESP_OK]).1

/-! ## HTTP server start (`web_server_init`) -/

/-- Embedding of `web_server_init` as far as the SSE state is concerned.
`server` tells whether the server handle is set, `mutex_created` whether
`xSemaphoreCreateMutex` succeeds and `start_ret` is the result of
`httpd_start`.  The result is the return value, the new server flag and the
new state; the URI handlers, `api_uart_stream_handler` among them, are
registered exactly when the call sets the server handle. -/
def web_server_init (server : Bool) (st : WebState) (mutex_created : Bool)
    (start_ret : esp_err_t) : esp_err_t × Bool × WebState :=
  if server then (ESP_OK, server, st)
  else
    let st1 := if !st.sse_mutex then { st with sse_mutex := mutex_created } else st
    if !st1.sse_mutex then (ESP_FAIL, server, st1)
    else if start_ret ≠ ESP_OK then (start_ret, server, st1)
    else (ESP_OK, true, st1)

/-- The state of `web_server.c` once `web_server_init` has started the server
on a freshly booted device. -/
def web_started : WebState := (web_server_init false WebState.boot true ESP_OK).2.2

/-! ## Character drawing (`draw_char`, `render_text_line_impl` of `main/display/oled_render.c`) -/

def OLED_WIDTH : Nat := 128
def OLED_PAGES : Nat := 8

/-- The table `font_6x8[95][6]`: one row of six column bytes per character
from `' '` (32) to `'~'` (126), in the order of the source. -/
def font_6x8 : List (List Nat) := [
  [0x00, 0x00, 0x00, 0x00, 0x00, 0x00],
  [0x00, 0x00, 0x4F, 0x00, 0x00, 0x00],
  [0x00, 0x07, 0x00, 0x07, 0x00, 0x00],
  [0x14, 0x7F, 0x14, 0x7F, 0x14, 0x00],
  [0x24, 0x2A, 0x7F, 0x2A, 0x12, 0x00],
  [0x23, 0x13, 0x08, 0x64, 0x62, 0x00],
  [0x36, 0x49, 0x55, 0x22, 0x50, 0x00],
  [0x00, 0x05, 0x03, 0x00, 0x00, 0x00],
  [0x00, 0x1C, 0x22, 0x41, 0x00, 0x00],
  [0x00, 0x41, 0x22, 0x1C, 0x00, 0x00],
  [0x14, 0x08, 0x3E, 0x08, 0x14, 0x00],
  [0x08, 0x08, 0x3E, 0x08, 0x08, 0x00],
  [0x00, 0x50, 0x30, 0x00, 0x00, 0x00],
  [0x08, 0x08, 0x08, 0x08, 0x08, 0x00],
  [0x00, 0x60, 0x60, 0x00, 0x00, 0x00],
  [0x20, 0x10, 0x08, 0x04, 0x02, 0x00],
  [0x3E, 0x51, 0x49, 0x45, 0x3E, 0x00],
  [0x00, 0x42, 0x7F, 0x40, 0x00, 0x00],
  [0x42, 0x61, 0x51, 0x49, 0x46, 0x00],
  [0x21, 0x41, 0x45, 0x4B, 0x31, 0x00],
  [0x18, 0x14, 0x12, 0x7F, 0x10, 0x00],
  [0x27, 0x45, 0x45, 0x45, 0x39, 0x00],
  [0x3C, 0x4A, 0x49, 0x49, 0x30, 0x00],
  [0x01, 0x71, 0x09, 0x05, 0x03, 0x00],
  [0x36, 0x49, 0x49, 0x49, 0x36, 0x00],
  [0x06, 0x49, 0x49, 0x29, 0x1E, 0x00],
  [0x00, 0x36, 0x36, 0x00, 0x00, 0x00],
  [0x00, 0x56, 0x36, 0x00, 0x00, 0x00],
  [0x08, 0x14, 0x22, 0x41, 0x00, 0x00],
  [0x14, 0x14, 0x14, 0x14, 0x14, 0x00],
  [0x00, 0x41, 0x22, 0x14, 0x08, 0x00],
  [0x02, 0x01, 0x51, 0x09, 0x06, 0x00],
  [0x32, 0x49, 0x59, 0x51, 0x3E, 0x00],
  [0x7E, 0x11, 0x11, 0x11, 0x7E, 0x00],
  [0x7F, 0x49, 0x49, 0x49, 0x36, 0x00],
  [0x3E, 0x41, 0x41, 0x41, 0x22, 0x00],
  [0x7F, 0x41, 0x41, 0x22, 0x1C, 0x00],
  [0x7F, 0x49, 0x49, 0x49, 0x41, 0x00],
  [0x7F, 0x09, 0x09, 0x09, 0x01, 0x00],
  [0x3E, 0x41, 0x49, 0x49, 0x7A, 0x00],
  [0x7F, 0x08, 0x08, 0x08, 0x7F, 0x00],
  [0x00, 0x41, 0x7F, 0x41, 0x00, 0x00],
  [0x20, 0x40, 0x41, 0x3F, 0x01, 0x00],
  [0x7F, 0x08, 0x14, 0x22, 0x41, 0x00],
  [0x7F, 0x40, 0x40, 0x40, 0x40, 0x00],
  [0x7F, 0x02, 0x04, 0x02, 0x7F, 0x00],
  [0x7F, 0x04, 0x08, 0x10, 0x7F, 0x00],
  [0x3E, 0x41, 0x41, 0x41, 0x3E, 0x00],
  [0x7F, 0x09, 0x09, 0x09, 0x06, 0x00],
  [0x3E, 0x41, 0x51, 0x21, 0x5E, 0x00],
  [0x7F, 0x09, 0x19, 0x29, 0x46, 0x00],
  [0x46, 0x49, 0x49, 0x49, 0x31, 0x00],
  [0x01, 0x01, 0x7F, 0x01, 0x01, 0x00],
  [0x3F, 0x40, 0x40, 0x40, 0x3F, 0x00],
  [0x1F, 0x20, 0x40, 0x20, 0x1F, 0x00],
  [0x3F, 0x40, 0x38, 0x40, 0x3F, 0x00],
  [0x63, 0x14, 0x08, 0x14, 0x63, 0x00],
  [0x07, 0x08, 0x70, 0x08, 0x07, 0x00],
  [0x61, 0x51, 0x49, 0x45, 0x43, 0x00],
  [0x00, 0x7F, 0x41, 0x41, 0x00, 0x00],
  [0x02, 0x04, 0x08, 0x10, 0x20, 0x00],
  [0x00, 0x41, 0x41, 0x7F, 0x00, 0x00],
  [0x04, 0x02, 0x01, 0x02, 0x04, 0x00],
  [0x40, 0x40, 0x40, 0x40, 0x40, 0x00],
  [0x00, 0x01, 0x02, 0x04, 0x00, 0x00],
  [0x20, 0x54, 0x54, 0x54, 0x78, 0x00],
  [0x7F, 0x48, 0x44, 0x44, 0x38, 0x00],
  [0x38, 0x44, 0x44, 0x44, 0x20, 0x00],
  [0x38, 0x44, 0x44, 0x48, 0x7F, 0x00],
  [0x38, 0x54, 0x54, 0x54, 0x18, 0x00],
  [0x08, 0x7E, 0x09, 0x01, 0x02, 0x00],
  [0x0C, 0x52, 0x52, 0x52, 0x3E, 0x00],
  [0x7F, 0x08, 0x04, 0x04, 0x78, 0x00],
  [0x00, 0x44, 0x7D, 0x40, 0x00, 0x00],
  [0x20, 0x40, 0x44, 0x3D, 0x00, 0x00],
  [0x7F, 0x10, 0x28, 0x44, 0x00, 0x00],
  [0x00, 0x41, 0x7F, 0x40, 0x00, 0x00],
  [0x7C, 0x04, 0x18, 0x04, 0x78, 0x00],
  [0x7C, 0x08, 0x04, 0x04, 0x78, 0x00],
  [0x38, 0x44, 0x44, 0x44, 0x38, 0x00],
  [0x7C, 0x14, 0x14, 0x14, 0x08, 0x00],
  [0x08, 0x14, 0x14, 0x08, 0x7C, 0x00],
  [0x7C, 0x08, 0x04, 0x04, 0x08, 0x00],
  [0x48, 0x54, 0x54, 0x54, 0x20, 0x00],
  [0x04, 0x3F, 0x44, 0x40, 0x20, 0x00],
  [0x3C, 0x40, 0x40, 0x20, 0x7C, 0x00],
  [0x1C, 0x20, 0x40, 0x20, 0x1C, 0x00],
  [0x3C, 0x40, 0x30, 0x40, 0x3C, 0x00],
  [0x44, 0x28, 0x10, 0x28, 0x44, 0x00],
  [0x0C, 0x50, 0x50, 0x50, 0x3C, 0x00],
  [0x44, 0x64, 0x54, 0x4C, 0x44, 0x00],
  [0x00, 0x08, 0x36, 0x41, 0x00, 0x00],
  [0x00, 0x00, 0x7F, 0x00, 0x00, 0x00],
  [0x00, 0x41, 0x36, 0x08, 0x00, 0x00],
  [0x10, 0x08, 0x08, 0x10, 0x08, 0x00]]

/-- Entry `font_6x8[row][i]`. -/
def font_at (row i : Nat) : Nat := (font_6x8.getD row []).getD i 0

/-- A byte handed to the display: the argument of a call of
`oled_send_command` or of `oled_send_data` (`main/display/oled_init.c`). -/
inductive OledByte where
  | command (cmd : Nat)
  | data (data_byte : Nat)
  deriving DecidableEq, Repr

/-- The display transport as the render code sees it: `ret_of k` is the value
returned by call number `k` of `oled_send_command` / `oled_send_data` (an error
when the bus lock times out or the I2C transfer fails) and `calls` are the
calls made so far, in order. -/
structure OledBus where
  ret_of : Nat → esp_err_t
  calls : List OledByte

/-- Embedding of `oled_send_command(uint8_t cmd)`. -/
def oled_send_command (bus : OledBus) (cmd : Nat) : esp_err_t × OledBus :=
  (bus.ret_of bus.calls.length,
    { bus with calls := bus.calls ++ [OledByte.command (cmd % UINT8_RANGE)] })

/-- Embedding of `oled_send_data(uint8_t data_byte)`. -/
def oled_send_data (bus : OledBus) (data_byte : Nat) : esp_err_t × OledBus :=
  (bus.ret_of bus.calls.length,
    { bus with calls := bus.calls ++ [OledByte.data (data_byte % UINT8_RANGE)] })

/-- The statement `if (ret == ESP_OK) ret = oled_send_command(cmd);`. -/
def command_if_ok (r : esp_err_t × OledBus) (cmd : Nat) : esp_err_t × OledBus :=
  if r.1 = ESP_OK then oled_send_command r.2 cmd else r

/-- The index computed by `draw_char`:
`uint8_t char_index = (c < 32 || c > 126) ? 0 : (c - 32);` for the value `c`
of the `char` argument (negative where `char` is signed, up to 255 where it
is unsigned). -/
def char_index (c : Int) : Nat :=
  if c < 32 ∨ c > 126 then 0 else ((c - 32) % 256).toNat

/-- The loop `for (i = 0; i < 6 && ret == ESP_OK; i++) ret = oled_send_data(font_6x8[char_index][i]);`
of `draw_char` with `n` iterations left at index `i`. -/
def draw_char_data (index : Nat) : Nat → Nat → esp_err_t × OledBus → esp_err_t × OledBus
  | 0, _, r => r
  | n + 1, i, r =>
    if r.1 = ESP_OK then draw_char_data index n (i + 1) (oled_send_data r.2 (font_at index i))
    else r

/-- Embedding of `draw_char(uint8_t x, uint8_t y, char c)`. -/
def draw_char (bus : OledBus) (x y : Nat) (c : Int) : esp_err_t × OledBus :=
  if x ≥ OLED_WIDTH ∨ y ≥ OLED_PAGES then (ESP_ERR_INVALID_ARG, bus)
  else
    let r := oled_send_command bus 0x20
    let r := command_if_ok r 0x00
    let r := command_if_ok r 0x21
    let r := command_if_ok r x
    let r := command_if_ok r (x + 5)
    let r := command_if_ok r 0x22
    let r := command_if_ok r y
    let r := command_if_ok r y
    draw_char_data (char_index c) 6 0 r

/-- The arguments of one call of `draw_char`. -/
structure DrawCharCall where
  x : Nat
  y : Nat
  c : Int
  deriving DecidableEq, Repr

/-- The loop `for (i = 0; i < OLED_WIDTH && ret == ESP_OK; i++) ret = oled_send_data(0x00);`
of `render_text_line_impl` with `n` iterations left. -/
def clear_line_data : Nat → esp_err_t × OledBus → esp_err_t × OledBus
  | 0, r => r
  | n + 1, r => if r.1 = ESP_OK then clear_line_data n (oled_send_data r.2 0x00) else r

/-- The loop `for (i = 0; i < text_len && ret == ESP_OK; i++) ret = draw_char(i * 6, line, text[i]);`
of `render_text_line_impl` with `n` iterations left at index `i`; the third
component collects the calls of `draw_char` made.  The first argument of
`draw_char` is a `uint8_t`. -/
def render_text_chars (line : Nat) (text : List Int) :
    Nat → Nat → esp_err_t × OledBus × List DrawCharCall →
      esp_err_t × OledBus × List DrawCharCall
  | 0, _, r => r
  | n + 1, i, r =>
    if r.1 = ESP_OK then
      let d := draw_char r.2.1 ((i * 6) % UINT8_RANGE) line (text.getD i 0)
      render_text_chars line text n (i + 1)
        (d.1, d.2, r.2.2 ++ [{ x := (i * 6) % UINT8_RANGE, y := line, c := text.getD i 0 }])
    else r

/-- Embedding of `render_text_line_impl(line, text, clear_line)`: `text` is
`none` for `NULL` and otherwise the characters before the terminating NUL. -/
def render_text_line_impl (bus : OledBus) (line : Nat) (text : Option (List Int))
    (clear_line : Bool) : esp_err_t × OledBus × List DrawCharCall :=
  match text with
  | none => (ESP_ERR_INVALID_ARG, bus, [])
  | some t =>
    if line ≥ RENDER_MAX_LINES then (ESP_ERR_INVALID_ARG, bus, [])
    else
      let r :=
        if clear_line then
          let r := oled_send_command bus 0x21
          let r := command_if_ok r 0
          let r := command_if_ok r 127
          let r := command_if_ok r 0x22
          let r := command_if_ok r line
          let r := command_if_ok r line
          clear_line_data OLED_WIDTH r
        else (ESP_OK, bus)
      let text_len := if t.length > RENDER_MAX_TEXT_LEN then RENDER_MAX_TEXT_LEN else t.length
      render_text_chars line t text_len 0 (r.1, r.2, [])

/-- One guarded call of the display transport. -/
def send_if_ok (r : esp_err_t × OledBus) (b : OledByte) : esp_err_t × OledBus :=
  if r.1 = ESP_OK then
    (r.2.ret_of r.2.calls.length, { r.2 with calls := r.2.calls ++ [b] })
  else r

/-- A sequence of guarded calls of the display transport: it ends at the
first call that does not return `ESP_OK`. -/
def oled_send_seq (r : esp_err_t × OledBus) (bytes : List OledByte) : esp_err_t × OledBus :=
  bytes.foldl send_if_ok r

/-- The calls a complete `draw_char(x, y, c)` makes: horizontal addressing
mode, the column window `[x, x + 5]`, the page window `[y, y]` and the six
column bytes of the glyph. -/
def char_bytes (x y : Nat) (c : Int) : List OledByte :=
  [OledByte.command 0x20, OledByte.command 0x00, OledByte.command 0x21, OledByte.command x,
    OledByte.command (x + 5), OledByte.command 0x22, OledByte.command y, OledByte.command y,
    OledByte.data (font_at (char_index c) 0), OledByte.data (font_at (char_index c) 1),
    OledByte.data (font_at (char_index c) 2), OledByte.data (font_at (char_index c) 3),
    OledByte.data (font_at (char_index c) 4), OledByte.data (font_at (char_index c) 5)]

/-- The calls a complete clearing of a line makes: the column window
`[0, 127]`, the page window `[line, line]` and 128 zero bytes. -/
def clear_bytes (line : Nat) : List OledByte :=
  [OledByte.command 0x21, OledByte.command 0, OledByte.command 127, OledByte.command 0x22,
    OledByte.command line, OledByte.command line] ++ List.replicate OLED_WIDTH (OledByte.data 0)

/-- The calls of `draw_char` a complete rendering of `text` makes: character
`i` of the first `RENDER_MAX_TEXT_LEN` at column `6 * i`. -/
def text_draws (line : Nat) (text : List Int) : List DrawCharCall :=
  (List.range (min text.length RENDER_MAX_TEXT_LEN)).map fun i =>
    { x := 6 * i, y := line, c := text.getD i 0 }

/-- The transport calls a complete `render_text_line_impl` makes. -/
def line_bytes (line : Nat) (text : List Int) (clear_line : Bool) : List OledByte :=
  (if clear_line then clear_bytes line else []) ++
    (text_draws line text).flatMap fun d => char_bytes d.x d.y d.c

/-- A display transport on which every call succeeds. -/
def bus_ok : OledBus := { ret_of := fun _ => ESP_OK, calls := [] }

/-- A display transport on which every call fails. -/
def bus_failing : OledBus := { ret_of := fun _ => ESP_FAIL, calls := [] }

/-! ## Example environments -/

/-- A device whose SDK calls all succeed, with MAC `5C:CF:7F:12:AB:0D` and an
empty credential store (the namespace does not exist yet). -/
def env_unprovisioned : WifiEnv :=
  { event_loop_create := ESP_OK, wifi_init := ESP_OK, register_wifi_any := ESP_OK,
    register_got_ip := ESP_OK, register_staipassigned := ESP_OK, dhcps_stop := ESP_OK,
    set_ip_info := ESP_OK, dhcps_start := ESP_OK, nvs_open := ESP_ERR_NVS_NOT_FOUND,
    nvs_ssid := none, nvs_password := none, get_mac := ESP_OK,
    mac := [92, 207, 127, 18, 171, 13], set_mode := ESP_OK, set_config := ESP_OK,
    start := ESP_OK, stop := ESP_OK }

/-- The same device with the credentials `home` / `secret12` stored. -/
def env_home : WifiEnv :=
  { env_unprovisioned with
    nvs_open := ESP_OK, nvs_ssid := some "home".toList, nvs_password := some "secret12".toList }

/-- The same device with a stored SSID of 32 characters, the longest an
802.11 network name can be. -/
def env_long_ssid : WifiEnv :=
  { env_unprovisioned with
    nvs_open := ESP_OK, nvs_ssid := some (List.replicate 32 'a'),
    nvs_password := some "secret12".toList }

/-! # Theorems -/

/-! ### Render queue: lemmas -/

theorem render_post_room (s : RenderState) (q : Queue render_cmd_t) (cmd : render_cmd_t)
    (h : q.items.length < q.uxLength) :
    render_post s q cmd
      = (ESP_OK, { s with render_queue := some { q with items := q.items ++ [cmd] } }) := by
  simp [render_post, xQueueSend, h]

theorem render_post_full (s : RenderState) (q : Queue render_cmd_t) (cmd : render_cmd_t)
    (h : ¬ q.items.length < q.uxLength) :
    render_post s q cmd
      = (ESP_FAIL, { s with dropped_commands := u32_incr s.dropped_commands }) := by
  simp [render_post, xQueueSend, h]

theorem render_exec_valid (s : RenderState) (q : Queue render_cmd_t) (c : RenderCall)
    (hq : s.render_queue = some q) (hv : c.valid) :
    c.exec s = render_post s q c.cmd := by
  cases c with
  | text_line line text clear_line =>
    obtain ⟨hl, ht⟩ := hv
    cases text with
    | none => exact absurd rfl ht
    | some t =>
      have hl2 : ¬ line ≥ RENDER_MAX_LINES := Nat.not_le.mpr hl
      simp [RenderCall.exec, oled_render_text_line, hq, hl2, RenderCall.cmd, strncpy,
        RENDER_MAX_TEXT_LEN]
  | clear_screen => simp [RenderCall.exec, oled_render_clear_screen, hq, RenderCall.cmd]
  | display_power display_on =>
    simp [RenderCall.exec, oled_render_display_power, hq, RenderCall.cmd]
  | status_update status =>
    cases status with
    | none => exact absurd rfl hv
    | some st => simp [RenderCall.exec, oled_render_status_update, hq, RenderCall.cmd]

theorem render_run_cons (s : RenderState) (c : RenderCall) (cs : List RenderCall) :
    render_run s (c :: cs)
      = ((c.exec s).1 :: (render_run (c.exec s).2 cs).1, (render_run (c.exec s).2 cs).2) := rfl

theorem u32_incr_lt (x : Nat) : u32_incr x < UINT32_RANGE :=
  Nat.mod_lt _ (by decide)

/-- The effect of a run of valid calls on a queue that is not drained, from
any fill level. -/
theorem render_run_valid (cs : List RenderCall) :
    ∀ (s : RenderState) (q : Queue render_cmd_t), s.render_queue = some q →
      s.dropped_commands < UINT32_RANGE →
      (∀ c ∈ cs, c.valid) →
      (render_run s cs).2.render_queue
          = some { q with items := q.items ++
              (cs.take (q.uxLength - q.items.length)).map RenderCall.cmd } ∧
      (render_run s cs).1
          = List.replicate (min cs.length (q.uxLength - q.items.length)) ESP_OK ++
            List.replicate (cs.length - (q.uxLength - q.items.length)) ESP_FAIL ∧
      (render_run s cs).2.dropped_commands
          = (s.dropped_commands + (cs.length - (q.uxLength - q.items.length)))
              % UINT32_RANGE := by
  induction cs with
  | nil =>
    intro s q hq hd _
    refine ⟨?_, ?_, ?_⟩
    · simp [render_run, hq]
    · simp [render_run]
    · simp [render_run, Nat.mod_eq_of_lt hd]
  | cons c cs ih =>
    intro s q hq hd hv
    have hc : c.valid := hv c (List.mem_cons_self _ _)
    have hcs : ∀ c1 ∈ cs, c1.valid := fun c1 h1 => hv c1 (List.mem_cons_of_mem _ h1)
    have hex := render_exec_valid s q c hq hc
    rw [render_run_cons]
    by_cases hroom : q.items.length < q.uxLength
    · rw [render_post_room s q c.cmd hroom] at hex
      obtain ⟨h1, h2, h3⟩ := ih (c.exec s).2 { q with items := q.items ++ [c.cmd] }
        (by rw [hex]) (by rw [hex]; exact hd) hcs
      have hk : q.uxLength - q.items.length = (q.uxLength - (q.items.length + 1)) + 1 := by
        omega
      rw [hex] at h1 h2 h3 ⊢
      simp only [List.length_append, List.length_singleton] at h1 h2 h3
      refine ⟨?_, ?_, ?_⟩
      · simp only [h1]
        rw [hk]
        simp [List.take_succ_cons]
      · simp only [h2, List.length_cons]
        rw [hk, Nat.add_sub_add_right, Nat.add_min_add_right, List.replicate_succ]
        rfl
      · simp only [h3, List.length_cons]
        rw [hk, Nat.add_sub_add_right]
    · rw [render_post_full s q c.cmd hroom] at hex
      obtain ⟨h1, h2, h3⟩ := ih (c.exec s).2 q (by rw [hex]; exact hq)
        (by rw [hex]; exact u32_incr_lt _) hcs
      have hk : q.uxLength - q.items.length = 0 := by omega
      rw [hex] at h1 h2 h3 ⊢
      simp only [hk, Nat.sub_zero, Nat.min_zero, List.replicate_zero, List.nil_append,
        List.take_zero, List.map_nil] at h1 h2 h3
      refine ⟨?_, ?_, ?_⟩
      · simp only [h1, hk]
        simp
      · simp only [h2, hk, List.length_cons]
        simp [List.replicate_succ]
      · rw [h3]
        simp only [hk, List.length_cons, u32_incr, UINT32_RANGE]
        omega

/-- C1. Render queue overflow.  Starting from the queue that a successful
`oled_render_init` creates (capacity `RENDER_QUEUE_SIZE = 16`, empty) and with
no dequeue in between, after any sequence of `n` valid enqueue calls the queue
holds exactly the commands of the first `min n 16` calls in submission order,
those calls returned `ESP_OK` and every later call returned `ESP_FAIL`, and the
`uint32_t` counter `dropped_commands` has been incremented exactly
`n - 16` times (truncated subtraction): it has grown by `max (n - 16) 0`. -/
theorem render_queue_overflow (s0 : RenderState) (cs : List RenderCall)
    (hinit : s0.render_queue = some (xQueueCreate RENDER_QUEUE_SIZE))
    (hdrop : s0.dropped_commands < UINT32_RANGE)
    (hvalid : ∀ c ∈ cs, c.valid) :
    (render_run s0 cs).2.render_queue
        = some { uxLength := 16, items := (cs.take 16).map RenderCall.cmd } ∧
    (render_run s0 cs).1
        = List.replicate (min cs.length 16) ESP_OK ++
          List.replicate (cs.length - 16) ESP_FAIL ∧
    (oled_render_get_stats (render_run s0 cs).2).1 = min cs.length 16 ∧
    (render_run s0 cs).2.dropped_commands
        = (s0.dropped_commands + (cs.length - 16)) % 4294967296 ∧
    (s0.dropped_commands + (cs.length - 16) < 4294967296 →
      (render_run s0 cs).2.dropped_commands = s0.dropped_commands + (cs.length - 16)) := by
  obtain ⟨h1, h2, h3⟩ := render_run_valid cs s0 (xQueueCreate RENDER_QUEUE_SIZE) hinit hdrop hvalid
  simp only [xQueueCreate, RENDER_QUEUE_SIZE, List.length_nil, Nat.sub_zero, List.nil_append,
    UINT32_RANGE] at h1 h2 h3
  refine ⟨h1, h2, ?_, h3, ?_⟩
  · simp [oled_render_get_stats, h1, uxQueueMessagesWaiting, Nat.min_comm]
  · intro hlt
    rw [h3, Nat.mod_eq_of_lt hlt]

/-- Scenario 1: twenty `TextLine` submissions with the consumer stalled; the
first sixteen are accepted, the last four are dropped and the counter is 4. -/
theorem render_queue_overflow_witness :
    (render_run (oled_render_init true true RenderState.boot).2
        (List.replicate 20 (RenderCall.text_line 2 (some ['H', 'E', 'L', 'L', 'O']) true))).1
      = List.replicate 16 ESP_OK ++ List.replicate 4 ESP_FAIL ∧
    oled_render_get_stats (render_run (oled_render_init true true RenderState.boot).2
        (List.replicate 20 (RenderCall.text_line 2 (some ['H', 'E', 'L', 'L', 'O']) true))).2
      = (16, 4) := by
  have h := render_queue_overflow (oled_render_init true true RenderState.boot).2
    (List.replicate 20 (RenderCall.text_line 2 (some ['H', 'E', 'L', 'L', 'O']) true))
    rfl (by decide)
    (by
      intro c hc
      rw [List.eq_of_mem_replicate hc]
      exact ⟨by decide, by simp⟩)
  obtain ⟨_, h2, h3, h4, _⟩ := h
  refine ⟨h2, ?_⟩
  exact Prod.ext h3 h4

/-! ### Subscriber table: lemmas -/

theorem slot_set_ne (clients : List (Option Nat)) (i j : Nat) (v : Option Nat) (h : i ≠ j) :
    slot (clients.set i v) j = slot clients j := by
  simp [slot, List.getD_eq_getElem?_getD, List.getElem?_set_ne h]

theorem slot_set_none_self (clients : List (Option Nat)) (i : Nat) :
    slot (clients.set i none) i = none := by
  simp only [slot, List.getD_eq_getElem?_getD, List.getElem?_set, if_true]
  split <;> rfl

/-- The sends owed to the slots `i, i+1, ..., i+n-1` of a table. -/
theorem sse_broadcast_loop_spec (send : Nat → Nat → List Char → esp_err_t) (msg : List Char)
    (n : Nat) :
    ∀ (i : Nat) (clients : List (Option Nat)),
      (sse_broadcast_loop send msg n i clients).1
          = (List.range' i n).filterMap (fun j =>
              (slot clients j).map fun req => { slot_index := j, req := req, msg := msg }) ∧
      (sse_broadcast_loop send msg n i clients).2.length = clients.length ∧
      (∀ j, (j < i ∨ i + n ≤ j) →
        slot (sse_broadcast_loop send msg n i clients).2 j = slot clients j) ∧
      (∀ j, i ≤ j → j < i + n →
        slot (sse_broadcast_loop send msg n i clients).2 j
          = match slot clients j with
            | some req => if send j req msg = ESP_OK then some req else none
            | none => none) := by
  induction n with
  | zero =>
    intro i clients
    refine ⟨by simp [sse_broadcast_loop], by simp [sse_broadcast_loop], ?_, ?_⟩
    · intro j _
      simp [sse_broadcast_loop]
    · intro j h1 h2
      omega
  | succ n ih =>
    intro i clients
    rw [List.range'_succ, List.filterMap_cons]
    cases hs : slot clients i with
    | none =>
      obtain ⟨h1, h2, h3, h4⟩ := ih (i + 1) clients
      have hloop : sse_broadcast_loop send msg (n + 1) i clients
          = sse_broadcast_loop send msg n (i + 1) clients := by
        simp [sse_broadcast_loop, hs]
      rw [hloop]
      refine ⟨by simpa using h1, h2, ?_, ?_⟩
      · intro j hj
        exact h3 j (by omega)
      · intro j hj1 hj2
        by_cases hji : j = i
        · subst hji
          rw [h3 j (by omega), hs]
        · exact h4 j (by omega) (by omega)
    | some req =>
      have hloop : sse_broadcast_loop send msg (n + 1) i clients
          = ({ slot_index := i, req := req, msg := msg } ::
              (sse_broadcast_loop send msg n (i + 1)
                (if send i req msg ≠ ESP_OK then clients.set i none else clients)).1,
             (sse_broadcast_loop send msg n (i + 1)
                (if send i req msg ≠ ESP_OK then clients.set i none else clients)).2) := by
        simp [sse_broadcast_loop, hs]
      rw [hloop]
      obtain ⟨h1, h2, h3, h4⟩ := ih (i + 1)
        (if send i req msg ≠ ESP_OK then clients.set i none else clients)
      have hrest : ∀ j, i ≠ j →
          slot (if send i req msg ≠ ESP_OK then clients.set i none else clients) j
            = slot clients j := by
        intro j hj
        split
        · exact slot_set_ne clients i j none hj
        · rfl
      refine ⟨?_, ?_, ?_, ?_⟩
      · simp only [Option.map_some']
        rw [h1]
        congr 1
        apply List.filterMap_congr
        intro j hj
        rw [hrest j (by have := (List.mem_range'_1.mp hj).1; omega)]
      · rw [h2]
        split <;> simp
      · intro j hj
        rw [h3 j (by omega), hrest j (by omega)]
      · intro j hj1 hj2
        by_cases hji : j = i
        · subst hji
          rw [h3 j (by omega), hs]
          by_cases hsend : send j req msg = ESP_OK
          · simp [hsend, hs]
          · simp [hsend, slot_set_none_self]
        · rw [h4 j (by omega) (by omega), hrest j (fun h => hji h.symm)]

theorem expected_sends_empty (msg : List Char) (clients : List (Option Nat))
    (h : ∀ i, slot clients i = none) : expected_sends msg clients = [] := by
  simp [expected_sends, h]

/-- What a broadcast that reaches the send loop does to the table. -/
theorem broadcast_encoded (send : Nat → Nat → List Char → esp_err_t) (st : WebState)
    (bytes : List Nat) (b64 : List Char)
    (hreach : st.sse_mutex = false → ∀ i, slot st.sse_clients i = none)
    (hne : bytes ≠ [])
    (henc : mbedtls_base64_encode B64_BUF_SIZE bytes = some b64) :
    (web_server_broadcast_uart_data send st (some bytes)).1
        = expected_sends (sse_message b64 bytes.length) st.sse_clients ∧
    (web_server_broadcast_uart_data send st (some bytes)).2.sse_mutex = st.sse_mutex ∧
    (web_server_broadcast_uart_data send st (some bytes)).2.sse_clients.length
        = st.sse_clients.length ∧
    (∀ i, i < MAX_SSE_CLIENTS →
      slot (web_server_broadcast_uart_data send st (some bytes)).2.sse_clients i
        = match slot st.sse_clients i with
          | some req =>
            if send i req (sse_message b64 bytes.length) = ESP_OK then some req else none
          | none => none) ∧
    (∀ i, MAX_SSE_CLIENTS ≤ i →
      slot (web_server_broadcast_uart_data send st (some bytes)).2.sse_clients i
        = slot st.sse_clients i) := by
  have hlen : bytes.length ≠ 0 := fun h => hne (List.length_eq_zero.mp h)
  cases hm : st.sse_mutex with
  | false =>
    have hall := hreach hm
    have hrun : web_server_broadcast_uart_data send st (some bytes) = ([], st) := by
      simp [web_server_broadcast_uart_data, hm]
    rw [hrun, expected_sends_empty _ _ hall]
    refine ⟨rfl, hm, rfl, ?_, fun i _ => rfl⟩
    intro i _
    simp [hall i]
  | true =>
    have hrun : web_server_broadcast_uart_data send st (some bytes)
        = ((sse_broadcast_loop send (sse_message b64 bytes.length) MAX_SSE_CLIENTS 0
              st.sse_clients).1,
           { st with sse_clients :=
              (sse_broadcast_loop send (sse_message b64 bytes.length) MAX_SSE_CLIENTS 0
                st.sse_clients).2 }) := by
      simp [web_server_broadcast_uart_data, hm, hlen, henc]
    obtain ⟨h1, h2, h3, h4⟩ :=
      sse_broadcast_loop_spec send (sse_message b64 bytes.length) MAX_SSE_CLIENTS 0
        st.sse_clients
    rw [hrun]
    refine ⟨?_, hm, h2, ?_, ?_⟩
    · rw [h1, expected_sends, List.range_eq_range']
    · intro i hi
      exact h4 i (Nat.zero_le _) (by omega)
    · intro i hi
      exact h3 i (Or.inr (by omega))

theorem base64_too_small (bytes : List Nat) (h : 382 ≤ bytes.length) :
    mbedtls_base64_encode B64_BUF_SIZE bytes = none := by
  have h0 : bytes.length ≠ 0 := by omega
  have hreq : B64_BUF_SIZE < base64_required bytes.length := by
    simp only [B64_BUF_SIZE, base64_required]
    split <;> omega
  simp only [mbedtls_base64_encode, h0, if_false, hreq, if_true, ite_self]

theorem sse_slot_scan_full (req : Nat) (clients : List (Option Nat)) (n : Nat) :
    ∀ i, (∀ j, i ≤ j → j < i + n → slot clients j ≠ none) →
      sse_slot_scan req clients n i = (-1, clients) := by
  induction n with
  | zero =>
    intro i _
    rfl
  | succ n ih =>
    intro i h
    have hi : slot clients i ≠ none := h i (Nat.le_refl _) (by omega)
    simp only [sse_slot_scan, hi, if_false]
    exact ih (i + 1) (fun j h1 h2 => h j (by omega) (by omega))

/-- C2. Broadcast self-healing.  For every subscriber table of a state the
server can be in (slots are only ever filled once `sse_mutex` exists) and every
non-empty payload whose Base64 encoding succeeds,
`web_server_broadcast_uart_data` makes exactly one `httpd_resp_send_chunk` call
per occupied slot, in slot order, all with the same encoded message; it clears
exactly the occupied slots whose send did not return `ESP_OK` and leaves every
other slot as it was.  In particular, when the send fails for exactly one
occupied slot `j`, slot `j` alone is cleared. -/
theorem broadcast_self_healing (send : Nat → Nat → List Char → esp_err_t) (st : WebState)
    (bytes : List Nat) (b64 : List Char)
    (hreach : st.sse_mutex = false → ∀ i, slot st.sse_clients i = none)
    (hne : bytes ≠ [])
    (henc : mbedtls_base64_encode B64_BUF_SIZE bytes = some b64) :
    (web_server_broadcast_uart_data send st (some bytes)).1
        = expected_sends (sse_message b64 bytes.length) st.sse_clients ∧
    (web_server_broadcast_uart_data send st (some bytes)).2.sse_clients.length
        = st.sse_clients.length ∧
    (∀ i, i < MAX_SSE_CLIENTS →
      slot (web_server_broadcast_uart_data send st (some bytes)).2.sse_clients i
        = match slot st.sse_clients i with
          | some req =>
            if send i req (sse_message b64 bytes.length) = ESP_OK then some req else none
          | none => none) ∧
    (∀ i, MAX_SSE_CLIENTS ≤ i →
      slot (web_server_broadcast_uart_data send st (some bytes)).2.sse_clients i
        = slot st.sse_clients i) ∧
    (∀ j req, j < MAX_SSE_CLIENTS → slot st.sse_clients j = some req →
      send j req (sse_message b64 bytes.length) ≠ ESP_OK →
      (∀ i r, i ≠ j → slot st.sse_clients i = some r →
        send i r (sse_message b64 bytes.length) = ESP_OK) →
      ∀ i, slot (web_server_broadcast_uart_data send st (some bytes)).2.sse_clients i
        = if i = j then none else slot st.sse_clients i) := by
  obtain ⟨h1, _, h3, h4, h5⟩ := broadcast_encoded send st bytes b64 hreach hne henc
  refine ⟨h1, h3, h4, h5, ?_⟩
  intro j req hj hslot hfail hothers i
  by_cases hi : i < MAX_SSE_CLIENTS
  · rw [h4 i hi]
    by_cases hij : i = j
    · subst hij
      simp [hslot, hfail]
    · simp only [hij, if_false]
      cases hsi : slot st.sse_clients i with
      | none => rfl
      | some r => simp [hothers i r hij hsi]
  · have hij : i ≠ j := by omega
    rw [h5 i (by omega)]
    simp [hij]

/-- Four subscribers of which the one in slot 2 is dead: a broadcast of the
three bytes `Man` sends to all of them, clears slot 2 and keeps the others. -/
theorem broadcast_self_healing_witness :
    (web_server_broadcast_uart_data (fun i _ _ => if i = 2 then ESP_FAIL else ESP_OK)
        { sse_mutex := true, sse_clients := [some 11, some 12, some 13, some 14] }
        (some [77, 97, 110])).1
      = expected_sends (sse_message ['T', 'W', 'F', 'u'] 3) [some 11, some 12, some 13, some 14] ∧
    ∀ i, slot (web_server_broadcast_uart_data (fun i _ _ => if i = 2 then ESP_FAIL else ESP_OK)
        { sse_mutex := true, sse_clients := [some 11, some 12, some 13, some 14] }
        (some [77, 97, 110])).2.sse_clients i
      = if i = 2 then none else slot [some 11, some 12, some 13, some 14] i := by
  have h := broadcast_self_healing (fun i _ _ => if i = 2 then ESP_FAIL else ESP_OK)
    { sse_mutex := true, sse_clients := [some 11, some 12, some 13, some 14] }
    [77, 97, 110] ['T', 'W', 'F', 'u']
    (fun hm => absurd hm (by decide)) (by decide) (by decide)
  obtain ⟨h1, _, _, _, h5⟩ := h
  refine ⟨h1, ?_⟩
  exact h5 2 13 (by decide) (by decide) (by decide)
    (fun i r hi _ => by simp [hi])

/-- C3. A chunk of 382 bytes or more, which the bridge loop does hand to its
sink (it drains up to `LUCIDUART_RX_BUF_SIZE = 1024` bytes at a time), is not
broadcast: its Base64 encoding needs at least 513 bytes, the 512-byte `b64_buf`
is too small, and `web_server_broadcast_uart_data` returns without a single
send and without touching the table, whatever slots are occupied. -/
theorem broadcast_large_chunk_not_sent (send : Nat → Nat → List Char → esp_err_t)
    (st : WebState) (bytes : List Nat) (h : 382 ≤ bytes.length) :
    web_server_broadcast_uart_data send st (some bytes) = ([], st) := by
  simp only [web_server_broadcast_uart_data, base64_too_small bytes h]
  split <;> rfl

/-- A data event with 382 buffered bytes makes the bridge loop invoke its sink
with a 382-byte chunk, and the broadcast of that chunk to a table with an
occupied slot sends nothing. -/
theorem broadcast_large_chunk_not_sent_witness :
    (uart_event_dispatch { BridgeState.boot with rx_data_callback := some 1 } UART_DATA 382 382
        (List.replicate 382 65)).2
      = [UartAct.uart_read_bytes 382 382,
          UartAct.rx_data_callback 1 ((List.replicate 382 65).take 382)] ∧
    web_server_broadcast_uart_data (fun _ _ _ => ESP_OK)
        { sse_mutex := true, sse_clients := [some 11, none, none, none] }
        (some (List.replicate 382 65))
      = ([], { sse_mutex := true, sse_clients := [some 11, none, none, none] }) :=
  ⟨rfl,
   broadcast_large_chunk_not_sent (fun _ _ _ => ESP_OK)
    { sse_mutex := true, sse_clients := [some 11, none, none, none] }
    (List.replicate 382 65) (by rw [List.length_replicate])⟩

/-- C4. Subscribe beyond capacity.  When all `MAX_SSE_CLIENTS = 4` slots are
occupied the subscribe step yields slot id `-1`, `api_uart_stream_handler`
returns `ESP_FAIL`, and the state, in particular every entry of the table, is
unchanged. -/
theorem subscribe_beyond_capacity (st : WebState) (req : Nat)
    (hfull : ∀ i, i < MAX_SSE_CLIENTS → slot st.sse_clients i ≠ none) :
    sse_subscribe st req = (-1, st) ∧
    api_uart_stream_handler st req = (some ESP_FAIL, st) := by
  have hsub : sse_subscribe st req = (-1, st) := by
    obtain ⟨mutex, clients⟩ := st
    cases mutex with
    | false => simp [sse_subscribe]
    | true =>
      have hscan := sse_slot_scan_full req clients MAX_SSE_CLIENTS 0
        (fun j _ h2 => hfull j (by omega))
      simp [sse_subscribe, hscan]
  refine ⟨hsub, ?_⟩
  simp [api_uart_stream_handler, hsub]

/-- Scenario 4: four subscribers registered, a fifth subscribe fails and the
four remain. -/
theorem subscribe_beyond_capacity_witness :
    api_uart_stream_handler
        { sse_mutex := true, sse_clients := [some 11, some 12, some 13, some 14] } 15
      = (some ESP_FAIL,
          { sse_mutex := true, sse_clients := [some 11, some 12, some 13, some 14] }) :=
  (subscribe_beyond_capacity
    { sse_mutex := true, sse_clients := [some 11, some 12, some 13, some 14] } 15
    (by decide)).2

/-! ### Connectivity state machine -/

/-- C5, as stated, fails: a station connected to `home` receives a
`WIFI_EVENT_STA_DISCONNECTED`; when the handler returns the recorded state is
`STA_DISCONNECTED`, not `STA_CONNECTING`. -/
theorem reconnect_state_counterexample :
    (wifi_event_handler (some (-60))
        { current_status :=
            { state := LUCID_WIFI_STATE_STA_CONNECTED, ssid := "home".toList,
              ip_address := "192.168.1.7".toList, rssi := -60, sta_count := 0,
              provisioned := true },
          wifi_initialized := true }
        (WIFI_EVENT_STA_DISCONNECTED 8)).1.current_status.state
      = LUCID_WIFI_STATE_STA_DISCONNECTED ∧
    ¬ (wifi_event_handler (some (-60))
        { current_status :=
            { state := LUCID_WIFI_STATE_STA_CONNECTED, ssid := "home".toList,
              ip_address := "192.168.1.7".toList, rssi := -60, sta_count := 0,
              provisioned := true },
          wifi_initialized := true }
        (WIFI_EVENT_STA_DISCONNECTED 8)).1.current_status.state
      = LUCID_WIFI_STATE_STA_CONNECTING := by
  decide

/-- C5, amended.  When a `WIFI_EVENT_STA_DISCONNECTED` is handled in state
`STA_CONNECTED`, the recorded state becomes `STA_DISCONNECTED` and is still
`STA_DISCONNECTED` when the handler returns; with no external request the
handler itself issues exactly one reconnect request (`esp_wifi_connect`), but
it does not record `STA_CONNECTING`.  The state leaves `STA_DISCONNECTED` on a
later event: an address-acquired event takes it to `STA_CONNECTED`. -/
theorem disconnect_requests_reconnect (ap_info ap_info1 : Option Int) (s : WifiState)
    (reason a b c d : Nat)
    (h : s.current_status.state = LUCID_WIFI_STATE_STA_CONNECTED) :
    (wifi_event_handler ap_info s (WIFI_EVENT_STA_DISCONNECTED reason)).1.current_status.state
      = LUCID_WIFI_STATE_STA_DISCONNECTED ∧
    (wifi_event_handler ap_info s (WIFI_EVENT_STA_DISCONNECTED reason)).1.current_status.state
      ≠ s.current_status.state ∧
    (wifi_event_handler ap_info s (WIFI_EVENT_STA_DISCONNECTED reason)).2
      = [WifiCall.esp_wifi_connect] ∧
    (wifi_event_handler ap_info1
        (wifi_event_handler ap_info s (WIFI_EVENT_STA_DISCONNECTED reason)).1
        (IP_EVENT_STA_GOT_IP a b c d)).1.current_status.state
      = LUCID_WIFI_STATE_STA_CONNECTED := by
  refine ⟨rfl, ?_, rfl, ?_⟩
  · rw [h]
    simp [wifi_event_handler]
  · cases ap_info1 <;> rfl

/-- Scenario 3 on the code: connected to `home`, a disconnect event fires. -/
theorem disconnect_requests_reconnect_witness :
    (wifi_event_handler none
        { current_status :=
            { state := LUCID_WIFI_STATE_STA_CONNECTED, ssid := "home".toList,
              ip_address := "192.168.1.7".toList, rssi := -60, sta_count := 0,
              provisioned := true },
          wifi_initialized := true }
        (WIFI_EVENT_STA_DISCONNECTED 8)).1.current_status.state
      = LUCID_WIFI_STATE_STA_DISCONNECTED ∧
    (wifi_event_handler none
        { current_status :=
            { state := LUCID_WIFI_STATE_STA_CONNECTED, ssid := "home".toList,
              ip_address := "192.168.1.7".toList, rssi := -60, sta_count := 0,
              provisioned := true },
          wifi_initialized := true }
        (WIFI_EVENT_STA_DISCONNECTED 8)).2
      = [WifiCall.esp_wifi_connect] :=
  have h := disconnect_requests_reconnect none none
    { current_status :=
        { state := LUCID_WIFI_STATE_STA_CONNECTED, ssid := "home".toList,
          ip_address := "192.168.1.7".toList, rssi := -60, sta_count := 0,
          provisioned := true },
      wifi_initialized := true }
    8 192 168 1 7 rfl
  ⟨h.1, h.2.2.1⟩

/-- C6, as stated, fails: in `AP_MODE` a `WIFI_EVENT_STA_DISCONNECTED` is not
ignored; it moves the state to `STA_DISCONNECTED` and overwrites the address.
In `INIT` an `IP_EVENT_STA_GOT_IP` moves the state to `STA_CONNECTED`. -/
theorem event_guard_counterexample :
    (wifi_event_handler none
        { current_status :=
            { state := LUCID_WIFI_STATE_AP_MODE, ssid := "LUCIDUART_AB0D".toList,
              ip_address := "10.10.10.1".toList, rssi := -100, sta_count := 1,
              provisioned := false },
          wifi_initialized := true }
        (WIFI_EVENT_STA_DISCONNECTED 8)).1.current_status
      = { state := LUCID_WIFI_STATE_STA_DISCONNECTED, ssid := "LUCIDUART_AB0D".toList,
          ip_address := "0.0.0.0".toList, rssi := -100, sta_count := 1,
          provisioned := false } ∧
    (wifi_event_handler none WifiState.boot
        (IP_EVENT_STA_GOT_IP 192 168 1 7)).1.current_status.state
      = LUCID_WIFI_STATE_STA_CONNECTED := by
  decide

/-- C6, amended.  `wifi_event_handler` does not test the current state.  The
address-acquired event sets the state to `STA_CONNECTED` and the disconnected
event sets it to `STA_DISCONNECTED` (with the address sentinel) from every
state, so in particular along the defined edges; both leave `ssid`,
`sta_count` and `provisioned` unchanged, and the disconnected event leaves
`rssi` unchanged.  Events the handler has no case for, and the
client-address-assigned event, leave the whole state unchanged. -/
theorem handler_is_unguarded (ap_info : Option Int) (s : WifiState) (reason a b c d n : Nat) :
    ((wifi_event_handler ap_info s (IP_EVENT_STA_GOT_IP a b c d)).1.current_status.state
        = LUCID_WIFI_STATE_STA_CONNECTED ∧
      (wifi_event_handler ap_info s (IP_EVENT_STA_GOT_IP a b c d)).1.current_status.ssid
        = s.current_status.ssid ∧
      (wifi_event_handler ap_info s (IP_EVENT_STA_GOT_IP a b c d)).1.current_status.sta_count
        = s.current_status.sta_count ∧
      (wifi_event_handler ap_info s (IP_EVENT_STA_GOT_IP a b c d)).1.current_status.provisioned
        = s.current_status.provisioned) ∧
    ((wifi_event_handler ap_info s (WIFI_EVENT_STA_DISCONNECTED reason)).1.current_status
        = { s.current_status with
            state := LUCID_WIFI_STATE_STA_DISCONNECTED, ip_address := "0.0.0.0".toList }) ∧
    (wifi_event_handler ap_info s (WIFI_EVENT_OTHER n)).1 = s ∧
    (wifi_event_handler ap_info s (IP_EVENT_AP_STAIPASSIGNED a b c d)).1 = s ∧
    (wifi_event_handler ap_info s (IP_EVENT_OTHER n)).1 = s ∧
    (wifi_event_handler ap_info s (OTHER_BASE n)).1 = s := by
  refine ⟨?_, rfl, rfl, rfl, rfl, rfl⟩
  cases ap_info <;> exact ⟨rfl, rfl, rfl, rfl⟩

/-- C7, as stated, fails: with a stored 32-character SSID
`wifi_manager_has_credentials` is true, but the SSID with its NUL does not fit
the 32-byte `wifi_config.sta.ssid`, loading fails, and initialisation falls
back to the access point: the state is `AP_MODE`, not `STA_CONNECTING`. -/
theorem init_with_credentials_counterexample :
    wifi_manager_has_credentials env_long_ssid = true ∧
    (wifi_manager_init env_long_ssid WifiState.boot).map
        (fun r => (r.1, r.2.current_status.state))
      = some (ESP_OK, LUCID_WIFI_STATE_AP_MODE) := by
  decide

theorem init_reaches_start (env : WifiEnv) (s : WifiState)
    (hfresh : s.wifi_initialized = false)
    (hloop : env.event_loop_create = ESP_OK) (hwifi : env.wifi_init = ESP_OK)
    (hreg : env.register_wifi_any = ESP_OK ∧ env.register_got_ip = ESP_OK ∧
      env.register_staipassigned = ESP_OK)
    (hcfg : configure_ap_netif env = ESP_OK) :
    wifi_manager_init env s
      = if wifi_manager_has_credentials env then
          match wifi_manager_connect_sta env
              { current_status :=
                  { s.current_status with
                    state := LUCID_WIFI_STATE_INIT,
                    provisioned := wifi_manager_has_credentials env,
                    ip_address := IP_NONE, rssi := -100, sta_count := 0 },
                wifi_initialized := true } none none with
          | none => none
          | some (ret, s2) =>
            if ret ≠ ESP_OK then
              match wifi_manager_start_ap env s2 with
              | none => none
              | some (_, s3) => some (ESP_OK, s3)
            else some (ESP_OK, s2)
        else
          match wifi_manager_start_ap env
              { current_status :=
                  { s.current_status with
                    state := LUCID_WIFI_STATE_INIT,
                    provisioned := wifi_manager_has_credentials env,
                    ip_address := IP_NONE, rssi := -100, sta_count := 0 },
                wifi_initialized := true } with
          | none => none
          | some (_, s2) => some (ESP_OK, s2) := by
  obtain ⟨hr1, hr2, hr3⟩ := hreg
  simp [wifi_manager_init, hfresh, hloop, hwifi, hr1, hr2, hr3, hcfg]

theorem start_ap_ok (env : WifiEnv) (s : WifiState)
    (hmac : env.get_mac = ESP_OK)
    (hdrv : env.set_mode = ESP_OK ∧ env.set_config = ESP_OK ∧ env.start = ESP_OK) :
    wifi_manager_start_ap env s
      = some (ESP_OK,
          { s with current_status :=
              { s.current_status with
                ssid := strncpy ((LUCIDUART_AP_SSID_LEAD ++ (wifi_manager_get_mac4 env).2).take 31) 32,
                ip_address := LUCIDUART_AP_IP, sta_count := 0,
                state := LUCID_WIFI_STATE_AP_MODE } }) := by
  obtain ⟨h1, h2, h3⟩ := hdrv
  simp [wifi_manager_start_ap, wifi_manager_get_mac4, hmac, h1, h2, h3]

theorem connect_sta_stored (env : WifiEnv) (s : WifiState)
    (hdrv : env.set_mode = ESP_OK ∧ env.set_config = ESP_OK ∧ env.start = ESP_OK) :
    wifi_manager_connect_sta env s none none
      = if (nvs_load_credentials env).1 ≠ ESP_OK then some ((nvs_load_credentials env).1, s)
        else
          some (ESP_OK,
            { s with current_status :=
                { s.current_status with
                  state := LUCID_WIFI_STATE_STA_CONNECTING,
                  ssid := strncpy (nvs_load_credentials env).2 32, ip_address := IP_NONE } }) := by
  obtain ⟨h1, h2, h3⟩ := hdrv
  simp [wifi_manager_connect_sta, h1, h2, h3]

/-- C7, amended.  On a first `wifi_manager_init` whose set-up steps succeed
(event loop, driver, handler registration, AP network interface, driver
mode/config/start calls): if stored credentials exist and can be loaded by
`wifi_manager_connect_sta(NULL, NULL)`, initialisation leaves the state in
`STA_CONNECTING`; if they exist but loading them fails, it falls back to
`wifi_manager_start_ap`; without stored credentials it calls
`wifi_manager_start_ap`; in both of these cases the state is left in `AP_MODE`
when the access point start succeeds (the MAC can be read). -/
theorem init_transition (env : WifiEnv) (s : WifiState)
    (hfresh : s.wifi_initialized = false)
    (hloop : env.event_loop_create = ESP_OK) (hwifi : env.wifi_init = ESP_OK)
    (hreg : env.register_wifi_any = ESP_OK ∧ env.register_got_ip = ESP_OK ∧
      env.register_staipassigned = ESP_OK)
    (hcfg : configure_ap_netif env = ESP_OK)
    (hdrv : env.set_mode = ESP_OK ∧ env.set_config = ESP_OK ∧ env.start = ESP_OK) :
    (wifi_manager_has_credentials env = true → (nvs_load_credentials env).1 = ESP_OK →
      ∃ s1, wifi_manager_init env s = some (ESP_OK, s1) ∧
        s1.current_status.state = LUCID_WIFI_STATE_STA_CONNECTING) ∧
    (wifi_manager_has_credentials env = true → (nvs_load_credentials env).1 ≠ ESP_OK →
      env.get_mac = ESP_OK →
      ∃ s1, wifi_manager_init env s = some (ESP_OK, s1) ∧
        s1.current_status.state = LUCID_WIFI_STATE_AP_MODE) ∧
    (wifi_manager_has_credentials env = false → env.get_mac = ESP_OK →
      ∃ s1, wifi_manager_init env s = some (ESP_OK, s1) ∧
        s1.current_status.state = LUCID_WIFI_STATE_AP_MODE) := by
  have hinit := init_reaches_start env s hfresh hloop hwifi hreg hcfg
  refine ⟨?_, ?_, ?_⟩
  · intro hc hl
    rw [hinit, connect_sta_stored env _ hdrv]
    simp [hc, hl]
  · intro hc hl hmac
    rw [hinit, connect_sta_stored env _ hdrv]
    simp [hc, hl, start_ap_ok env _ hmac hdrv]
  · intro hc hmac
    rw [hinit]
    simp [hc, start_ap_ok env _ hmac hdrv]

/-- Stored credentials `home` / `secret12`: initialisation ends in
`STA_CONNECTING`. -/
theorem init_transition_witness :
    ∃ s1, wifi_manager_init env_home WifiState.boot = some (ESP_OK, s1) ∧
      s1.current_status.state = LUCID_WIFI_STATE_STA_CONNECTING :=
  (init_transition env_home WifiState.boot rfl rfl rfl ⟨rfl, rfl, rfl⟩ (by decide)
    ⟨rfl, rfl, rfl⟩).1 (by decide) (by decide)

/-- C8. No stored credentials at init.  On a first `wifi_manager_init` whose
set-up steps succeed, when `wifi_manager_has_credentials` is false and starting
the access point succeeds, the status snapshot of `wifi_manager_get_status`
has `state = AP_MODE`, `ip_address = "10.10.10.1"` (the configured gateway
`LUCIDUART_AP_GATEWAY`) and `sta_count = 0`, and `web_server_get_system_status`
reports `wifi_mode = "AP"` and `client_count = 0`.  Its `ip_address` however is
the address of the array of its own local `wifi_status`: the array holds
`"10.10.10.1"` while the function runs, and what `api_status_handler` reports
as `ip_address` is whatever the stack holds at that address when it reads it
after the return, `"10.10.10.1"` only if the dead frame is still intact. -/
theorem init_without_credentials (env : WifiEnv) (s : WifiState) (bridge : BridgeState)
    (rx_cb tx_cb : Option (BridgeState → Nat)) (ticks tick_period_ms free_heap : Nat)
    (hfresh : s.wifi_initialized = false)
    (hloop : env.event_loop_create = ESP_OK) (hwifi : env.wifi_init = ESP_OK)
    (hreg : env.register_wifi_any = ESP_OK ∧ env.register_got_ip = ESP_OK ∧
      env.register_staipassigned = ESP_OK)
    (hcfg : configure_ap_netif env = ESP_OK)
    (hcred : wifi_manager_has_credentials env = false)
    (hmac : env.get_mac = ESP_OK)
    (hdrv : env.set_mode = ESP_OK ∧ env.set_config = ESP_OK ∧ env.start = ESP_OK) :
    ∃ s1, wifi_manager_init env s = some (ESP_OK, s1) ∧
      (wifi_manager_get_status s1).2.state = LUCID_WIFI_STATE_AP_MODE ∧
      (wifi_manager_get_status s1).2.ip_address = "10.10.10.1".toList ∧
      (wifi_manager_get_status s1).2.ip_address = LUCIDUART_AP_GATEWAY ∧
      (wifi_manager_get_status s1).2.sta_count = 0 ∧
      (web_server_get_system_status s1 bridge rx_cb tx_cb ticks tick_period_ms free_heap).1
        = ESP_OK ∧
      (web_server_get_system_status s1 bridge rx_cb tx_cb ticks tick_period_ms
        free_heap).2.wifi_mode = "AP".toList ∧
      (web_server_get_system_status s1 bridge rx_cb tx_cb ticks tick_period_ms
        free_heap).2.client_count = 0 ∧
      (web_server_get_system_status s1 bridge rx_cb tx_cb ticks tick_period_ms
        free_heap).2.ip_address = frame_ptr.wifi_status_ip_address ∧
      wifi_status_frame s1 frame_ptr.wifi_status_ip_address = "10.10.10.1".toList ∧
      (∀ stack : frame_ptr → List Char,
        ∃ j, api_status_handler s1 bridge rx_cb tx_cb ticks tick_period_ms free_heap stack
            = (ESP_OK, some j) ∧
          j.wifi_mode = "AP".toList ∧
          j.client_count = 0 ∧
          j.ip_address = stack frame_ptr.wifi_status_ip_address ∧
          (stack = wifi_status_frame s1 → j.ip_address = "10.10.10.1".toList)) := by
  have hinit := init_reaches_start env s hfresh hloop hwifi hreg hcfg
  rw [hinit]
  simp only [hcred, start_ap_ok env _ hmac hdrv]
  refine ⟨_, rfl, rfl, rfl, rfl, rfl, rfl, rfl, rfl, rfl, rfl, ?_⟩
  intro stack
  refine ⟨_, rfl, rfl, rfl, rfl, ?_⟩
  intro hstack
  rw [hstack]
  rfl

/-- Scenario 2: a device with an empty credential store boots into the access
point `LUCIDUART_AB0D` at `10.10.10.1`; `GET /api/status` reports mode `AP`,
and once the dead frame has been reused the reported `ip_address` is not
`10.10.10.1`. -/
theorem init_without_credentials_witness :
    ∃ s1, wifi_manager_init env_unprovisioned WifiState.boot = some (ESP_OK, s1) ∧
      (wifi_manager_get_status s1).2.state = LUCID_WIFI_STATE_AP_MODE ∧
      (wifi_manager_get_status s1).2.ip_address = "10.10.10.1".toList ∧
      (web_server_get_system_status s1 BridgeState.boot none none 0 10 40000).2.wifi_mode
        = "AP".toList ∧
      ∃ j, api_status_handler s1 BridgeState.boot none none 0 10 40000 stack_reused
          = (ESP_OK, some j) ∧
        j.wifi_mode = "AP".toList ∧
        j.ip_address = stack_reused frame_ptr.wifi_status_ip_address ∧
        j.ip_address ≠ "10.10.10.1".toList := by
  obtain ⟨s1, h1, h2, h3, _, _, _, h7, _, _, _, h11⟩ :=
    init_without_credentials env_unprovisioned WifiState.boot BridgeState.boot none none 0 10
      40000 rfl rfl rfl ⟨rfl, rfl, rfl⟩ (by decide) (by decide) rfl ⟨rfl, rfl, rfl⟩
  obtain ⟨j, hj, hmode, _, hip, _⟩ := h11 stack_reused
  refine ⟨s1, h1, h2, h3, h7, j, hj, hmode, hip, ?_⟩
  rw [hip]
  decide

/-! ### Serial bridge -/

theorem u32_add_lt (x n : Nat) : u32_add x n < UINT32_RANGE :=
  Nat.mod_lt _ (by decide)

theorem uptime_tick_stats (s : BridgeState) :
    (uptime_tick s).bridge_stats.rx_bytes = s.bridge_stats.rx_bytes ∧
    (uptime_tick s).bridge_stats.tx_bytes = s.bridge_stats.tx_bytes ∧
    (uptime_tick s).bridge_stats.rx_errors = s.bridge_stats.rx_errors ∧
    (uptime_tick s).bridge_stats.tx_errors = s.bridge_stats.tx_errors ∧
    (uptime_tick s).bridge_active = s.bridge_active ∧
    (uptime_tick s).rx_data_callback = s.rx_data_callback := by
  unfold uptime_tick
  split <;> exact ⟨rfl, rfl, rfl, rfl, rfl, rfl⟩

theorem counters_advance_same (s s1 : BridgeState) (t : List UartAct)
    (hin : stats_in_range s.bridge_stats)
    (h1 : s1.bridge_stats.rx_bytes = s.bridge_stats.rx_bytes)
    (h2 : s1.bridge_stats.tx_bytes = s.bridge_stats.tx_bytes)
    (h3 : s1.bridge_stats.rx_errors = s.bridge_stats.rx_errors)
    (h4 : s1.bridge_stats.tx_errors = s.bridge_stats.tx_errors)
    (t1 : rx_total t = 0) (t2 : tx_total t = 0) (t3 : rx_error_total t = 0)
    (t4 : tx_error_total t = 0) :
    counters_advance s s1 t := by
  obtain ⟨i1, i2, i3, i4⟩ := hin
  unfold counters_advance
  rw [h1, h2, h3, h4, t1, t2, t3, t4]
  simp only [Nat.add_zero]
  exact ⟨(Nat.mod_eq_of_lt i1).symm, (Nat.mod_eq_of_lt i2).symm, (Nat.mod_eq_of_lt i3).symm,
    (Nat.mod_eq_of_lt i4).symm⟩

theorem counters_advance_trans (s s1 s2 : BridgeState) (t1 t2 : List UartAct)
    (h1 : counters_advance s s1 t1) (h2 : counters_advance s1 s2 t2) :
    counters_advance s s2 (t1 ++ t2) := by
  obtain ⟨a1, a2, a3, a4⟩ := h1
  obtain ⟨b1, b2, b3, b4⟩ := h2
  unfold counters_advance
  simp only [rx_total, tx_total, rx_error_total, tx_error_total, List.map_append,
    List.sum_append, UINT32_RANGE] at *
  refine ⟨?_, ?_, ?_, ?_⟩
  · rw [b1, a1]; omega
  · rw [b2, a2]; omega
  · rw [b3, a3]; omega
  · rw [b4, a4]; omega

theorem counters_advance_in_range (s s1 : BridgeState) (t : List UartAct)
    (h : counters_advance s s1 t) : stats_in_range s1.bridge_stats := by
  obtain ⟨a1, a2, a3, a4⟩ := h
  unfold stats_in_range
  rw [a1, a2, a3, a4]
  exact ⟨Nat.mod_lt _ (by decide), Nat.mod_lt _ (by decide), Nat.mod_lt _ (by decide),
    Nat.mod_lt _ (by decide)⟩

theorem start_counters (s : BridgeState) (task_created : Bool)
    (hin : stats_in_range s.bridge_stats) :
    counters_advance s (uart_bridge_start s task_created).2.1
      (uart_bridge_start s task_created).2.2 := by
  unfold uart_bridge_start
  split
  · exact counters_advance_same s _ _ hin rfl rfl rfl rfl rfl rfl rfl rfl
  · split
    · exact counters_advance_same s _ _ hin rfl rfl rfl rfl rfl rfl rfl rfl
    · split <;> exact counters_advance_same s _ _ hin rfl rfl rfl rfl rfl rfl rfl rfl

theorem stop_stats (s : BridgeState) :
    (uart_bridge_stop s).2.bridge_stats.rx_bytes = s.bridge_stats.rx_bytes ∧
    (uart_bridge_stop s).2.bridge_stats.tx_bytes = s.bridge_stats.tx_bytes ∧
    (uart_bridge_stop s).2.bridge_stats.rx_errors = s.bridge_stats.rx_errors ∧
    (uart_bridge_stop s).2.bridge_stats.tx_errors = s.bridge_stats.tx_errors := by
  unfold uart_bridge_stop
  split <;> exact ⟨rfl, rfl, rfl, rfl⟩

theorem send_counters (s : BridgeState) (data : Option (List Nat)) (length : Nat)
    (write_ret : Int) (hin : stats_in_range s.bridge_stats) :
    counters_advance s (uart_bridge_send s data length write_ret).2.1
      (uart_bridge_send s data length write_ret).2.2 := by
  obtain ⟨i1, i2, i3, i4⟩ := hin
  unfold uart_bridge_send
  split
  · exact counters_advance_same s _ _ ⟨i1, i2, i3, i4⟩ rfl rfl rfl rfl rfl rfl rfl rfl
  · split
    · rename_i hpos
      have hnp : ¬ write_ret ≤ 0 := by omega
      simp [counters_advance, rx_total, tx_total, rx_error_total, tx_error_total,
        UartAct.rx_reported, UartAct.tx_reported, UartAct.rx_error_event,
        UartAct.tx_error_event, u32_add, hnp, Nat.mod_eq_of_lt i1, Nat.mod_eq_of_lt i3,
        Nat.mod_eq_of_lt i4]
    · rename_i hnp
      have hle : write_ret ≤ 0 := by omega
      have htn : write_ret.toNat = 0 := by omega
      simp [counters_advance, rx_total, tx_total, rx_error_total, tx_error_total,
        UartAct.rx_reported, UartAct.tx_reported, UartAct.rx_error_event,
        UartAct.tx_error_event, u32_incr, hle, htn, Nat.mod_eq_of_lt i1, Nat.mod_eq_of_lt i2,
        Nat.mod_eq_of_lt i3]

theorem dispatch_counters (s : BridgeState) (type : uart_event_type_t) (buffered_size : Nat)
    (read_ret : Int) (rx_buffer : List Nat) (hin : stats_in_range s.bridge_stats) :
    counters_advance s (uart_event_dispatch s type buffered_size read_ret rx_buffer).1
      (UartAct.event type ::
        (uart_event_dispatch s type buffered_size read_ret rx_buffer).2) := by
  obtain ⟨i1, i2, i3, i4⟩ := hin
  cases type with
  | UART_DATA =>
    unfold uart_event_dispatch
    simp only
    split
    · split
      · cases hcb : s.rx_data_callback <;>
          simp [counters_advance, rx_total, tx_total, rx_error_total, tx_error_total,
            UartAct.rx_reported, UartAct.tx_reported, UartAct.rx_error_event,
            UartAct.tx_error_event, u32_add, Nat.mod_eq_of_lt i2, Nat.mod_eq_of_lt i3,
            Nat.mod_eq_of_lt i4]
      · rename_i hnp
        have htn : read_ret.toNat = 0 := by omega
        simp [counters_advance, rx_total, tx_total, rx_error_total, tx_error_total,
          UartAct.rx_reported, UartAct.tx_reported, UartAct.rx_error_event,
          UartAct.tx_error_event, htn, Nat.mod_eq_of_lt i1, Nat.mod_eq_of_lt i2,
          Nat.mod_eq_of_lt i3, Nat.mod_eq_of_lt i4]
    · simp [counters_advance, rx_total, tx_total, rx_error_total, tx_error_total,
        UartAct.rx_reported, UartAct.tx_reported, UartAct.rx_error_event,
        UartAct.tx_error_event, Nat.mod_eq_of_lt i1, Nat.mod_eq_of_lt i2,
        Nat.mod_eq_of_lt i3, Nat.mod_eq_of_lt i4]
  | UART_FIFO_OVF =>
    simp [uart_event_dispatch, counters_advance, rx_total, tx_total, rx_error_total,
      tx_error_total, UartAct.rx_reported, UartAct.tx_reported, UartAct.rx_error_event,
      UartAct.tx_error_event, u32_incr, Nat.mod_eq_of_lt i1, Nat.mod_eq_of_lt i2,
      Nat.mod_eq_of_lt i4, Nat.add_comm]
  | UART_BUFFER_FULL =>
    simp [uart_event_dispatch, counters_advance, rx_total, tx_total, rx_error_total,
      tx_error_total, UartAct.rx_reported, UartAct.tx_reported, UartAct.rx_error_event,
      UartAct.tx_error_event, u32_incr, Nat.mod_eq_of_lt i1, Nat.mod_eq_of_lt i2,
      Nat.mod_eq_of_lt i4, Nat.add_comm]
  | UART_PARITY_ERR =>
    simp [uart_event_dispatch, counters_advance, rx_total, tx_total, rx_error_total,
      tx_error_total, UartAct.rx_reported, UartAct.tx_reported, UartAct.rx_error_event,
      UartAct.tx_error_event, u32_incr, Nat.mod_eq_of_lt i1, Nat.mod_eq_of_lt i2,
      Nat.mod_eq_of_lt i4, Nat.add_comm]
  | UART_FRAME_ERR =>
    simp [uart_event_dispatch, counters_advance, rx_total, tx_total, rx_error_total,
      tx_error_total, UartAct.rx_reported, UartAct.tx_reported, UartAct.rx_error_event,
      UartAct.tx_error_event, u32_incr, Nat.mod_eq_of_lt i1, Nat.mod_eq_of_lt i2,
      Nat.mod_eq_of_lt i4, Nat.add_comm]
  | UART_EVENT_OTHER n =>
    simp [uart_event_dispatch, counters_advance, rx_total, tx_total, rx_error_total,
      tx_error_total, UartAct.rx_reported, UartAct.tx_reported, UartAct.rx_error_event,
      UartAct.tx_error_event, Nat.mod_eq_of_lt i1, Nat.mod_eq_of_lt i2,
      Nat.mod_eq_of_lt i3, Nat.mod_eq_of_lt i4]

theorem task_step_counters (s : BridgeState) (event : Option uart_event_type_t)
    (buffered_size : Nat) (read_ret : Int) (rx_buffer : List Nat)
    (hin : stats_in_range s.bridge_stats) :
    counters_advance s (uart_event_task_step s event buffered_size read_ret rx_buffer).1
      (uart_event_task_step s event buffered_size read_ret rx_buffer).2 := by
  unfold uart_event_task_step
  split
  · exact counters_advance_same s _ _ hin rfl rfl rfl rfl rfl rfl rfl rfl
  · cases event with
    | none =>
      obtain ⟨u1, u2, u3, u4, _, _⟩ := uptime_tick_stats s
      exact counters_advance_same s _ _ hin u1 u2 u3 u4 rfl rfl rfl rfl
    | some type =>
      have hd := dispatch_counters s type buffered_size read_ret rx_buffer hin
      obtain ⟨u1, u2, u3, u4, _, _⟩ :=
        uptime_tick_stats (uart_event_dispatch s type buffered_size read_ret rx_buffer).1
      unfold counters_advance at hd ⊢
      simp only [u1, u2, u3, u4]
      exact hd

theorem update_config_counters (s : BridgeState) (config : Option uart_bridge_config_t)
    (param_ret : esp_err_t) (task_created : Bool) (hin : stats_in_range s.bridge_stats) :
    counters_advance s (uart_bridge_update_config s config param_ret task_created).2.1
      (uart_bridge_update_config s config param_ret task_created).2.2 := by
  obtain ⟨p1, p2, p3, p4⟩ := stop_stats s
  cases config with
  | none => exact counters_advance_same s _ _ hin rfl rfl rfl rfl rfl rfl rfl rfl
  | some cfg =>
    simp only [uart_bridge_update_config]
    split
    · split <;> exact counters_advance_same s _ _ hin (by first | assumption | rfl)
        (by first | assumption | rfl) (by first | assumption | rfl)
        (by first | assumption | rfl) rfl rfl rfl rfl
    · split
      · have hs2 : counters_advance s
            { (uart_bridge_stop s).2 with
              current_config := cfg,
              bridge_stats :=
                { (uart_bridge_stop s).2.bridge_stats with current_baud := cfg.baud_rate } }
            [] :=
          counters_advance_same s _ _ hin p1 p2 p3 p4 rfl rfl rfl rfl
        have hstart := start_counters
          { (uart_bridge_stop s).2 with
            current_config := cfg,
            bridge_stats :=
              { (uart_bridge_stop s).2.bridge_stats with current_baud := cfg.baud_rate } }
          task_created (counters_advance_in_range _ _ _ hs2)
        exact counters_advance_trans _ _ _ _ _ hs2 hstart
      · exact counters_advance_same s _ _ hin rfl rfl rfl rfl rfl rfl rfl rfl

theorem exec_counters (s : BridgeState) (op : BridgeOp) (hr : op.is_reset = false)
    (hin : stats_in_range s.bridge_stats) :
    counters_advance s (op.exec s).1 (op.exec s).2 := by
  cases op with
  | init config install_ret param_ret => exact absurd hr (by simp [BridgeOp.is_reset])
  | reset_stats => exact absurd hr (by simp [BridgeOp.is_reset])
  | start task_created => exact start_counters s task_created hin
  | stop =>
    obtain ⟨p1, p2, p3, p4⟩ := stop_stats s
    exact counters_advance_same s _ _ hin p1 p2 p3 p4 rfl rfl rfl rfl
  | deinit =>
    obtain ⟨p1, p2, p3, p4⟩ := stop_stats s
    simp only [BridgeOp.exec, uart_bridge_deinit]
    split <;> exact counters_advance_same s _ _ hin (by first | assumption | rfl)
      (by first | assumption | rfl) (by first | assumption | rfl)
      (by first | assumption | rfl) rfl rfl rfl rfl
  | send data length write_ret => exact send_counters s data length write_ret hin
  | set_rx_callback callback =>
    exact counters_advance_same s _ _ hin rfl rfl rfl rfl rfl rfl rfl rfl
  | get_stats => exact counters_advance_same s _ _ hin rfl rfl rfl rfl rfl rfl rfl rfl
  | update_config config param_ret task_created =>
    exact update_config_counters s config param_ret task_created hin
  | gpio_control tx_enable rx_enable =>
    exact counters_advance_same s _ _ hin rfl rfl rfl rfl rfl rfl rfl rfl
  | task_entry => exact counters_advance_same s _ _ hin rfl rfl rfl rfl rfl rfl rfl rfl
  | task_step event buffered_size read_ret rx_buffer =>
    exact task_step_counters s event buffered_size read_ret rx_buffer hin

/-- Over a run without explicit reset each counter is the `uint32_t` sum of
its start value and what the transport reported. -/
theorem bridge_run_counters (ops : List BridgeOp) :
    ∀ s : BridgeState, stats_in_range s.bridge_stats →
      (∀ op ∈ ops, op.is_reset = false) →
      counters_advance s (bridge_run s ops).1 (bridge_run s ops).2 := by
  induction ops with
  | nil =>
    intro s hin _
    exact counters_advance_same s _ _ hin rfl rfl rfl rfl rfl rfl rfl rfl
  | cons op ops ih =>
    intro s hin hops
    have h1 := exec_counters s op (hops op (List.mem_cons_self _ _)) hin
    have h2 := ih (op.exec s).1 (counters_advance_in_range _ _ _ h1)
      (fun o ho => hops o (List.mem_cons_of_mem _ ho))
    exact counters_advance_trans _ _ _ _ _ h1 h2

theorem bridge_run_append (ops1 ops2 : List BridgeOp) :
    ∀ s : BridgeState,
      bridge_run s (ops1 ++ ops2)
        = ((bridge_run (bridge_run s ops1).1 ops2).1,
           (bridge_run s ops1).2 ++ (bridge_run (bridge_run s ops1).1 ops2).2) := by
  induction ops1 with
  | nil =>
    intro s
    simp [bridge_run]
  | cons op ops1 ih =>
    intro s
    simp [bridge_run, ih]

theorem data_dispatch_state (s : BridgeState) (buffered_size : Nat) (read_ret : Int)
    (rx_buffer : List Nat) (hb : buffered_size > 0) (hr : read_ret > 0) :
    (uart_event_dispatch s UART_DATA buffered_size read_ret rx_buffer).1
      = { s with bridge_stats :=
            { s.bridge_stats with
              rx_bytes := u32_add s.bridge_stats.rx_bytes read_ret.toNat } } := by
  cases hcb : s.rx_data_callback <;> simp [uart_event_dispatch, hcb, hb, hr]

theorem full_read_exec (s : BridgeState) (hact : s.bridge_active = true) :
    (full_read_event.exec s).1.bridge_stats.rx_bytes = u32_add s.bridge_stats.rx_bytes 1024 ∧
    (full_read_event.exec s).1.bridge_active = true := by
  have hd := data_dispatch_state s 1024 1024 (List.replicate 1024 65) (by decide) (by decide)
  obtain ⟨u1, _, _, _, u5, _⟩ :=
    uptime_tick_stats (uart_event_dispatch s UART_DATA 1024 1024 (List.replicate 1024 65)).1
  have hx : (full_read_event.exec s).1
      = uptime_tick (uart_event_dispatch s UART_DATA 1024 1024 (List.replicate 1024 65)).1 := by
    simp only [full_read_event, BridgeOp.exec, uart_event_task_step, hact, Bool.not_true,
      Bool.false_eq_true, if_false]
  rw [hx, u1, u5, hd]
  exact ⟨rfl, hact⟩

theorem full_reads_rx (n : Nat) :
    ∀ s : BridgeState, s.bridge_active = true → s.bridge_stats.rx_bytes < UINT32_RANGE →
      (bridge_run s (List.replicate n full_read_event)).1.bridge_stats.rx_bytes
        = (s.bridge_stats.rx_bytes + 1024 * n) % UINT32_RANGE := by
  induction n with
  | zero =>
    intro s _ hlt
    simp [bridge_run, Nat.mod_eq_of_lt hlt]
  | succ n ih =>
    intro s hact hlt
    obtain ⟨h1, h2⟩ := full_read_exec s hact
    have h := ih (full_read_event.exec s).1 h2 (by rw [h1]; exact u32_add_lt _ _)
    simp only [List.replicate_succ, bridge_run]
    rw [h, h1]
    simp only [u32_add, UINT32_RANGE]
    omega

/-- C9, as stated, fails: the counters are `uint32_t`.  After
`uart_bridge_init` and `uart_bridge_start`, 4194303 data events of 1024 bytes
each bring `rx_bytes` to 4294966272; one more such event, with no reset in
between, wraps it to 0, so the counter has decreased and no longer equals the
sum of the bytes read. -/
theorem bridge_counters_wrap_counterexample :
    (bridge_run bridge_started (List.replicate 4194303 full_read_event)).1.bridge_stats.rx_bytes
      = 4294966272 ∧
    (bridge_run bridge_started (List.replicate 4194304 full_read_event)).1.bridge_stats.rx_bytes
      = 0 ∧
    full_read_event.is_reset = false := by
  refine ⟨?_, ?_, rfl⟩
  · rw [full_reads_rx 4194303 bridge_started rfl (by decide)]
    decide
  · rw [full_reads_rx 4194304 bridge_started rfl (by decide)]
    decide

theorem mod_sum_mono (x a b m : Nat) (h : x + (a + b) < m) :
    (x + a) % m ≤ (x + (a + b)) % m ∧ (x + (a + b)) % m = x + (a + b) := by
  rw [Nat.mod_eq_of_lt h, Nat.mod_eq_of_lt (by omega)]
  exact ⟨by omega, rfl⟩

/-- C9, amended.  Over every sequence of bridge operations and loop events
that contains no explicit reset (`uart_bridge_reset_stats`, `uart_bridge_init`)
each of `rx_bytes`, `tx_bytes`, `rx_errors`, `tx_errors` equals, modulo `2^32`,
its start value plus the sum of the byte counts returned by the transport
reads / writes, respectively the number of reported receive error events /
failed writes.  As long as that sum stays below `2^32` the counter equals it
exactly and is monotonically non-decreasing: its value after any prefix of the
sequence is at most its value after the whole sequence. -/
theorem bridge_counters_modular (s : BridgeState) (ops1 ops2 : List BridgeOp)
    (hin : stats_in_range s.bridge_stats)
    (hops : ∀ op ∈ ops1 ++ ops2, op.is_reset = false) :
    ((bridge_run s (ops1 ++ ops2)).1.bridge_stats.rx_bytes
        = (s.bridge_stats.rx_bytes + rx_total (bridge_run s (ops1 ++ ops2)).2) % 4294967296 ∧
      (bridge_run s (ops1 ++ ops2)).1.bridge_stats.tx_bytes
        = (s.bridge_stats.tx_bytes + tx_total (bridge_run s (ops1 ++ ops2)).2) % 4294967296 ∧
      (bridge_run s (ops1 ++ ops2)).1.bridge_stats.rx_errors
        = (s.bridge_stats.rx_errors + rx_error_total (bridge_run s (ops1 ++ ops2)).2)
            % 4294967296 ∧
      (bridge_run s (ops1 ++ ops2)).1.bridge_stats.tx_errors
        = (s.bridge_stats.tx_errors + tx_error_total (bridge_run s (ops1 ++ ops2)).2)
            % 4294967296) ∧
    (s.bridge_stats.rx_bytes + rx_total (bridge_run s (ops1 ++ ops2)).2 < 4294967296 →
      (bridge_run s ops1).1.bridge_stats.rx_bytes
          ≤ (bridge_run s (ops1 ++ ops2)).1.bridge_stats.rx_bytes ∧
        (bridge_run s (ops1 ++ ops2)).1.bridge_stats.rx_bytes
          = s.bridge_stats.rx_bytes + rx_total (bridge_run s (ops1 ++ ops2)).2) ∧
    (s.bridge_stats.tx_bytes + tx_total (bridge_run s (ops1 ++ ops2)).2 < 4294967296 →
      (bridge_run s ops1).1.bridge_stats.tx_bytes
          ≤ (bridge_run s (ops1 ++ ops2)).1.bridge_stats.tx_bytes ∧
        (bridge_run s (ops1 ++ ops2)).1.bridge_stats.tx_bytes
          = s.bridge_stats.tx_bytes + tx_total (bridge_run s (ops1 ++ ops2)).2) ∧
    (s.bridge_stats.rx_errors + rx_error_total (bridge_run s (ops1 ++ ops2)).2 < 4294967296 →
      (bridge_run s ops1).1.bridge_stats.rx_errors
          ≤ (bridge_run s (ops1 ++ ops2)).1.bridge_stats.rx_errors ∧
        (bridge_run s (ops1 ++ ops2)).1.bridge_stats.rx_errors
          = s.bridge_stats.rx_errors + rx_error_total (bridge_run s (ops1 ++ ops2)).2) ∧
    (s.bridge_stats.tx_errors + tx_error_total (bridge_run s (ops1 ++ ops2)).2 < 4294967296 →
      (bridge_run s ops1).1.bridge_stats.tx_errors
          ≤ (bridge_run s (ops1 ++ ops2)).1.bridge_stats.tx_errors ∧
        (bridge_run s (ops1 ++ ops2)).1.bridge_stats.tx_errors
          = s.bridge_stats.tx_errors + tx_error_total (bridge_run s (ops1 ++ ops2)).2) := by
  have hall := bridge_run_counters (ops1 ++ ops2) s hin hops
  have hpre := bridge_run_counters ops1 s hin
    (fun op h => hops op (List.mem_append_left _ h))
  have happ := bridge_run_append ops1 ops2 s
  have htr : (bridge_run s (ops1 ++ ops2)).2
      = (bridge_run s ops1).2 ++ (bridge_run (bridge_run s ops1).1 ops2).2 := by
    rw [happ]
  obtain ⟨a1, a2, a3, a4⟩ := hall
  obtain ⟨b1, b2, b3, b4⟩ := hpre
  simp only [UINT32_RANGE] at a1 a2 a3 a4 b1 b2 b3 b4
  refine ⟨⟨a1, a2, a3, a4⟩, ?_, ?_, ?_, ?_⟩
  · intro hlt
    rw [a1, b1]
    simp only [htr, rx_total, List.map_append, List.sum_append] at hlt ⊢
    exact mod_sum_mono _ _ _ _ hlt
  · intro hlt
    rw [a2, b2]
    simp only [htr, tx_total, List.map_append, List.sum_append] at hlt ⊢
    exact mod_sum_mono _ _ _ _ hlt
  · intro hlt
    rw [a3, b3]
    simp only [htr, rx_error_total, List.map_append, List.sum_append] at hlt ⊢
    exact mod_sum_mono _ _ _ _ hlt
  · intro hlt
    rw [a4, b4]
    simp only [htr, tx_error_total, List.map_append, List.sum_append] at hlt ⊢
    exact mod_sum_mono _ _ _ _ hlt

/-- A short session on a started bridge: five bytes read and three written,
then a FIFO overflow and a failed write; the counters are 5, 3, 1 and 1 and
none of them has decreased along the way. -/
theorem bridge_counters_modular_witness :
    (bridge_run bridge_started
        ([BridgeOp.task_step (some UART_DATA) 5 5 [72, 101, 108, 108, 111],
          BridgeOp.send (some [79, 75, 10]) 3 3] ++
         [BridgeOp.task_step (some UART_FIFO_OVF) 0 0 [],
          BridgeOp.send (some [79, 75, 10]) 3 (-1)])).1.bridge_stats
      = { bridge_started.bridge_stats with
          rx_bytes := 5, tx_bytes := 3, rx_errors := 1, tx_errors := 1 } ∧
    (bridge_run bridge_started
        [BridgeOp.task_step (some UART_DATA) 5 5 [72, 101, 108, 108, 111],
          BridgeOp.send (some [79, 75, 10]) 3 3]).1.bridge_stats.rx_bytes
      ≤ (bridge_run bridge_started
        ([BridgeOp.task_step (some UART_DATA) 5 5 [72, 101, 108, 108, 111],
          BridgeOp.send (some [79, 75, 10]) 3 3] ++
         [BridgeOp.task_step (some UART_FIFO_OVF) 0 0 [],
          BridgeOp.send (some [79, 75, 10]) 3 (-1)])).1.bridge_stats.rx_bytes := by
  have h := bridge_counters_modular bridge_started
    [BridgeOp.task_step (some UART_DATA) 5 5 [72, 101, 108, 108, 111],
      BridgeOp.send (some [79, 75, 10]) 3 3]
    [BridgeOp.task_step (some UART_FIFO_OVF) 0 0 [],
      BridgeOp.send (some [79, 75, 10]) 3 (-1)]
    (by decide) (by decide)
  exact ⟨by decide, (h.2.1 (by decide)).1⟩

/-- C10, as stated, fails on a partial write: sending five bytes on an active
bridge when the transport writes only three returns the byte count 3, adds 3
to `tx_bytes` and leaves `tx_errors` at 0. -/
theorem send_short_write_counterexample :
    (uart_bridge_send bridge_started (some [104, 101, 108, 108, 111]) 5 3).1 = 3 ∧
    (uart_bridge_send bridge_started (some [104, 101, 108, 108, 111]) 5 3).2.1.bridge_stats.tx_errors
      = 0 ∧
    (uart_bridge_send bridge_started (some [104, 101, 108, 108, 111]) 5 3).2.1.bridge_stats.tx_bytes
      = 3 ∧
    bridge_started.bridge_stats.tx_errors = 0 ∧ bridge_started.bridge_active = true := by
  decide

/-- C10, amended.  For every `uart_bridge_send(data, length)` on an active
bridge with non-null data and `length > 0`: if the transport reports that
nothing was written (`n <= 0`), `tx_errors` is incremented by 1 (as a
`uint32_t`), `tx_bytes` is unchanged and the call returns that non-positive
`n`, which is not a success byte count; if the transport writes `n > 0` bytes,
also when `n < length`, the call adds `n` to `tx_bytes`, leaves `tx_errors`
unchanged and returns `n`. -/
theorem send_write_outcome (s : BridgeState) (bytes : List Nat) (length : Nat) (write_ret : Int)
    (hact : s.bridge_active = true) (hlen : length > 0) :
    (uart_bridge_send s (some bytes) length write_ret).1 = write_ret ∧
    (uart_bridge_send s (some bytes) length write_ret).2.2
      = [UartAct.uart_write_bytes length write_ret] ∧
    (write_ret ≤ 0 →
      (uart_bridge_send s (some bytes) length write_ret).1 ≤ 0 ∧
      (uart_bridge_send s (some bytes) length write_ret).2.1.bridge_stats.tx_errors
        = (s.bridge_stats.tx_errors + 1) % 4294967296 ∧
      (uart_bridge_send s (some bytes) length write_ret).2.1.bridge_stats.tx_bytes
        = s.bridge_stats.tx_bytes) ∧
    (0 < write_ret →
      (uart_bridge_send s (some bytes) length write_ret).2.1.bridge_stats.tx_errors
        = s.bridge_stats.tx_errors ∧
      (uart_bridge_send s (some bytes) length write_ret).2.1.bridge_stats.tx_bytes
        = (s.bridge_stats.tx_bytes + write_ret.toNat) % 4294967296) := by
  have hl : length ≠ 0 := by omega
  by_cases hpos : write_ret > 0
  · have hnp : ¬ write_ret ≤ 0 := by omega
    simp [uart_bridge_send, hact, hl, hpos, hnp, u32_add, UINT32_RANGE]
  · have hle : write_ret ≤ 0 := by omega
    have hnp : ¬ 0 < write_ret := by omega
    simp [uart_bridge_send, hact, hl, hle, hnp, u32_incr, UINT32_RANGE]

/-- A failed write (`-1`) and a zero write on a started bridge each count one
error and return a non-positive value. -/
theorem send_write_outcome_witness :
    (uart_bridge_send bridge_started (some [104, 101, 108, 108, 111]) 5 (-1)).1 = -1 ∧
    (uart_bridge_send bridge_started (some [104, 101, 108, 108, 111]) 5
        (-1)).2.1.bridge_stats.tx_errors = 1 ∧
    (uart_bridge_send bridge_started (some [104, 101, 108, 108, 111]) 5 0).1 = 0 ∧
    (uart_bridge_send bridge_started (some [104, 101, 108, 108, 111]) 5
        0).2.1.bridge_stats.tx_errors = 1 := by
  have h1 := send_write_outcome bridge_started [104, 101, 108, 108, 111] 5 (-1) rfl
    (by decide)
  have h0 := send_write_outcome bridge_started [104, 101, 108, 108, 111] 5 0 rfl (by decide)
  exact ⟨h1.1, (h1.2.2.1 (by decide)).2.1, h0.1, (h0.2.2.1 (by decide)).2.1⟩

/-! ### Serial bridge: lifecycle -/

theorem uptime_tick_flags (s : BridgeState) :
    (uptime_tick s).bridge_initialized = s.bridge_initialized ∧
    (uptime_tick s).bridge_active = s.bridge_active ∧
    (uptime_tick s).bridge_stats.bridge_active = s.bridge_stats.bridge_active := by
  unfold uptime_tick
  split <;> exact ⟨rfl, rfl, rfl⟩

theorem dispatch_flags (s : BridgeState) (type : uart_event_type_t) (buffered_size : Nat)
    (read_ret : Int) (rx_buffer : List Nat) :
    (uart_event_dispatch s type buffered_size read_ret rx_buffer).1.bridge_initialized
      = s.bridge_initialized ∧
    (uart_event_dispatch s type buffered_size read_ret rx_buffer).1.bridge_active
      = s.bridge_active ∧
    (uart_event_dispatch s type buffered_size read_ret rx_buffer).1.bridge_stats.bridge_active
      = s.bridge_stats.bridge_active := by
  cases type with
  | UART_DATA =>
    unfold uart_event_dispatch
    simp only
    split
    · split
      · split <;> exact ⟨rfl, rfl, rfl⟩
      · exact ⟨rfl, rfl, rfl⟩
    · exact ⟨rfl, rfl, rfl⟩
  | UART_FIFO_OVF => exact ⟨rfl, rfl, rfl⟩
  | UART_BUFFER_FULL => exact ⟨rfl, rfl, rfl⟩
  | UART_PARITY_ERR => exact ⟨rfl, rfl, rfl⟩
  | UART_FRAME_ERR => exact ⟨rfl, rfl, rfl⟩
  | UART_EVENT_OTHER n => exact ⟨rfl, rfl, rfl⟩

theorem inv_of_flags (s s1 : BridgeState) (h : bridge_inv s)
    (h1 : s1.bridge_initialized = s.bridge_initialized)
    (h2 : s1.bridge_active = s.bridge_active)
    (h3 : s1.bridge_stats.bridge_active = s.bridge_stats.bridge_active) : bridge_inv s1 := by
  unfold bridge_inv at h ⊢
  rw [h1, h2, h3]
  exact h

theorem start_inv (s : BridgeState) (task_created : Bool) (h : bridge_inv s) :
    bridge_inv (uart_bridge_start s task_created).2.1 := by
  obtain ⟨ha, hb⟩ := h
  unfold uart_bridge_start
  split
  · exact ⟨ha, hb⟩
  · rename_i hi
    split
    · exact ⟨ha, hb⟩
    · rename_i hact
      cases task_created <;> simp_all [bridge_inv]

theorem stop_inv (s : BridgeState) (h : bridge_inv s) :
    bridge_inv (uart_bridge_stop s).2 ∧
    (uart_bridge_stop s).2.bridge_active = false ∧
    (uart_bridge_stop s).2.bridge_initialized = s.bridge_initialized := by
  obtain ⟨ha, hb⟩ := h
  unfold uart_bridge_stop
  split
  · rename_i hact
    simp only [Bool.not_eq_true', ] at hact
    exact ⟨⟨ha, hb⟩, hact, rfl⟩
  · simp [bridge_inv]

theorem init_inv (s : BridgeState) (config : Option uart_bridge_config_t)
    (install_ret param_ret : esp_err_t) (h : bridge_inv s) :
    bridge_inv (uart_bridge_init s config install_ret param_ret).2 := by
  obtain ⟨ha, hb⟩ := h
  unfold uart_bridge_init
  split
  · exact ⟨ha, hb⟩
  · rename_i hi
    have hna : s.bridge_active = false := by
      cases hact : s.bridge_active with
      | false => rfl
      | true => exact absurd (ha hact) hi
    split
    · exact ⟨ha, hb⟩
    · split
      · exact ⟨ha, hb⟩
      · simp [bridge_inv, zero_stats, hna]

theorem update_config_inv (s : BridgeState) (config : Option uart_bridge_config_t)
    (param_ret : esp_err_t) (task_created : Bool) (h : bridge_inv s) :
    bridge_inv (uart_bridge_update_config s config param_ret task_created).2.1 := by
  cases config with
  | none => exact h
  | some cfg =>
    cases hact : s.bridge_active with
    | true =>
      have hs2 : bridge_inv
          { (uart_bridge_stop s).2 with
            current_config := cfg,
            bridge_stats :=
              { (uart_bridge_stop s).2.bridge_stats with current_baud := cfg.baud_rate } } :=
        inv_of_flags _ _ (stop_inv s h).1 rfl rfl rfl
      simp only [uart_bridge_update_config, hact, if_true]
      split
      · exact hs2
      · exact start_inv _ task_created hs2
    | false =>
      have hs2 : bridge_inv
          { s with
            bridge_active := false,
            current_config := cfg,
            bridge_stats := { s.bridge_stats with current_baud := cfg.baud_rate } } :=
        inv_of_flags _ _ h rfl hact.symm rfl
      simp only [uart_bridge_update_config, hact, Bool.false_eq_true, if_false]
      split
      · exact hs2
      · exact hs2

theorem exec_inv (s : BridgeState) (op : BridgeOp) (h : bridge_inv s) :
    bridge_inv (op.exec s).1 := by
  cases op with
  | init config install_ret param_ret => exact init_inv s config install_ret param_ret h
  | reset_stats => exact inv_of_flags _ _ h rfl rfl rfl
  | start task_created => exact start_inv s task_created h
  | stop => exact (stop_inv s h).1
  | deinit =>
    simp only [BridgeOp.exec, uart_bridge_deinit]
    split
    · exact h
    · obtain ⟨⟨_, hb⟩, hf, _⟩ := stop_inv s h
      exact ⟨fun hact => absurd hact (by simp [hf]), hb⟩
  | send data length write_ret =>
    simp only [BridgeOp.exec, uart_bridge_send]
    split
    · exact h
    · split <;> exact inv_of_flags _ _ h rfl rfl rfl
  | set_rx_callback callback => exact inv_of_flags _ _ h rfl rfl rfl
  | get_stats => exact h
  | update_config config param_ret task_created =>
    exact update_config_inv s config param_ret task_created h
  | gpio_control tx_enable rx_enable => exact h
  | task_entry => exact inv_of_flags _ _ h rfl rfl rfl
  | task_step event buffered_size read_ret rx_buffer =>
    simp only [BridgeOp.exec, uart_event_task_step]
    split
    · exact h
    · cases event with
      | none =>
        obtain ⟨u1, u2, u3⟩ := uptime_tick_flags s
        exact inv_of_flags _ _ h u1 u2 u3
      | some type =>
        obtain ⟨u1, u2, u3⟩ :=
          uptime_tick_flags (uart_event_dispatch s type buffered_size read_ret rx_buffer).1
        obtain ⟨d1, d2, d3⟩ := dispatch_flags s type buffered_size read_ret rx_buffer
        exact inv_of_flags _ _ h (u1.trans d1) (u2.trans d2) (u3.trans d3)

/-- Every state the bridge API and its loop can produce from program start
satisfies the lifecycle invariant. -/
theorem bridge_run_inv (ops : List BridgeOp) :
    ∀ s : BridgeState, bridge_inv s → bridge_inv (bridge_run s ops).1 := by
  induction ops with
  | nil =>
    intro s h
    exact h
  | cons op ops ih =>
    intro s h
    exact ih _ (exec_inv s op h)

theorem boot_inv : bridge_inv BridgeState.boot := by decide

/-- C11. Send in an invalid phase.  `uart_bridge_send` called while the bridge
is not active, or with null data, or with length 0, returns -1, makes no
transport write (its trace is empty) and leaves the whole bridge state, in
particular `tx_bytes`, `tx_errors`, `rx_bytes` and `rx_errors`, unchanged. -/
theorem send_invalid_phase (s : BridgeState) (data : Option (List Nat)) (length : Nat)
    (write_ret : Int) (h : s.bridge_active = false ∨ data = none ∨ length = 0) :
    uart_bridge_send s data length write_ret = (-1, s, []) := by
  unfold uart_bridge_send
  rcases h with h | h | h <;> simp [h]

/-- A send on the bridge before it is started, a send of a null buffer and a
send of length 0 on the started bridge. -/
theorem send_invalid_phase_witness :
    uart_bridge_send BridgeState.boot (some [79, 75]) 2 2 = (-1, BridgeState.boot, []) ∧
    uart_bridge_send bridge_started none 2 2 = (-1, bridge_started, []) ∧
    uart_bridge_send bridge_started (some [79, 75]) 0 0 = (-1, bridge_started, []) :=
  ⟨send_invalid_phase BridgeState.boot (some [79, 75]) 2 2 (Or.inl rfl),
   send_invalid_phase bridge_started none 2 2 (Or.inr (Or.inl rfl)),
   send_invalid_phase bridge_started (some [79, 75]) 0 0 (Or.inr (Or.inr rfl))⟩

/-- C12, as stated, fails: a second `uart_bridge_init` on the initialised and
started bridge, here with a 9600 baud configuration, returns `ESP_OK`. -/
theorem double_init_counterexample :
    bridge_started.bridge_initialized = true ∧
    (uart_bridge_init bridge_started (some config_9600) ESP_OK ESP_OK).1 = ESP_OK := by
  decide

/-- C12, amended.  Calling `uart_bridge_init` on a bridge that is already
initialised (no `uart_bridge_deinit` in between) does not fail: it returns
`ESP_OK` after logging a warning, whatever configuration is passed, and it
leaves the whole state, in particular the configuration and the statistics of
the first init, unchanged. -/
theorem double_init_is_noop (s : BridgeState) (config : Option uart_bridge_config_t)
    (install_ret param_ret : esp_err_t) (h : s.bridge_initialized = true) :
    uart_bridge_init s config install_ret param_ret = (ESP_OK, s) := by
  simp [uart_bridge_init, h]

/-- A second init with another baud rate keeps the 115200 baud of the first. -/
theorem double_init_is_noop_witness :
    uart_bridge_init bridge_started (some config_9600) ESP_OK ESP_OK = (ESP_OK, bridge_started) ∧
    bridge_started.current_config.baud_rate = 115200 :=
  ⟨double_init_is_noop bridge_started (some config_9600) ESP_OK ESP_OK rfl, rfl⟩

/-- C13. Start before init.  `uart_bridge_start` on a bridge that is not
initialised returns `ESP_ERR_INVALID_STATE`, creates no task (its trace is
empty) and leaves the state unchanged; in every state the bridge can be in
(any sequence of operations from program start) `bridge_active` and
`bridge_stats.bridge_active` are false before the call and so stay false. -/
theorem start_before_init (s : BridgeState) (task_created : Bool)
    (h : s.bridge_initialized = false) :
    uart_bridge_start s task_created = (ESP_ERR_INVALID_STATE, s, []) ∧
    (∀ ops, s = (bridge_run BridgeState.boot ops).1 →
      (uart_bridge_start s task_created).2.1.bridge_active = false ∧
      (uart_bridge_start s task_created).2.1.bridge_stats.bridge_active = false) := by
  have hrun : uart_bridge_start s task_created = (ESP_ERR_INVALID_STATE, s, []) := by
    simp [uart_bridge_start, h]
  refine ⟨hrun, ?_⟩
  intro ops hs
  have hinv : bridge_inv s := by
    rw [hs]
    exact bridge_run_inv ops _ boot_inv
  obtain ⟨ha, hb⟩ := hinv
  have hna : s.bridge_active = false := by
    cases hact : s.bridge_active with
    | false => rfl
    | true =>
      have := ha hact
      rw [h] at this
      exact absurd this (by decide)
  rw [hrun]
  exact ⟨hna, hb.trans hna⟩

/-- Start on a freshly booted device, and start after init, start, deinit. -/
theorem start_before_init_witness :
    uart_bridge_start BridgeState.boot true = (ESP_ERR_INVALID_STATE, BridgeState.boot, []) ∧
    (uart_bridge_start
        (bridge_run BridgeState.boot
          [BridgeOp.init none ESP_OK ESP_OK, BridgeOp.start true, BridgeOp.deinit]).1
        true).2.1.bridge_active = false :=
  ⟨(start_before_init BridgeState.boot true rfl).1,
   ((start_before_init
      (bridge_run BridgeState.boot
        [BridgeOp.init none ESP_OK ESP_OK, BridgeOp.start true, BridgeOp.deinit]).1
      true (by decide)).2
      [BridgeOp.init none ESP_OK ESP_OK, BridgeOp.start true, BridgeOp.deinit] rfl).1⟩

/-- C14, as stated, fails: `uart_bridge_start` on the initialised, already
active bridge returns `ESP_OK`, not `ESP_ERR_INVALID_STATE`. -/
theorem double_start_counterexample :
    bridge_started.bridge_initialized = true ∧ bridge_started.bridge_active = true ∧
    (uart_bridge_start bridge_started true).1 = ESP_OK := by
  decide

/-- C14, amended.  `uart_bridge_start` on a bridge that is initialised and
already active does not fail: it returns `ESP_OK` after logging a warning, does
not create a second loop task (no `xTaskCreate` in its trace) and leaves the
state unchanged. -/
theorem double_start_is_noop (s : BridgeState) (task_created : Bool)
    (hi : s.bridge_initialized = true) (ha : s.bridge_active = true) :
    uart_bridge_start s task_created = (ESP_OK, s, []) := by
  simp [uart_bridge_start, hi, ha]

/-- A second start of the started bridge. -/
theorem double_start_is_noop_witness :
    uart_bridge_start bridge_started true = (ESP_OK, bridge_started, []) :=
  double_start_is_noop bridge_started true rfl rfl

/-! ### Display task -/

/-- Draining a queue: as many iterations of the display task as there are
commands waiting receive and dispatch them all, oldest first. -/
theorem ui_task_run_all (items : List render_cmd_t) :
    ∀ (s : RenderState) (q : Queue render_cmd_t), s.render_queue = some q → q.items = items →
      (ui_task_run items.length s).1 = items.map (fun c => (c, ui_dispatch c)) := by
  induction items with
  | nil =>
    intro s q _ _
    rfl
  | cons c rest ih =>
    intro s q hq hitems
    have hstep : ui_task_step s
        = (some (c, ui_dispatch c), { s with render_queue := some { q with items := rest } }) := by
      simp [ui_task_step, hq, xQueueReceive, hitems]
    have hrest := ih { s with render_queue := some { q with items := rest } }
      { q with items := rest } rfl rfl
    simp only [List.length_cons, ui_task_run, hstep, List.map_cons]
    rw [hrest]

theorem text_line_accepted (s s1 : RenderState) (line : Nat) (text : Option (List Char))
    (clear_line : Bool)
    (hacc : oled_render_text_line s line text clear_line = (ESP_OK, s1)) :
    ∃ t q, text = some t ∧ line < 8 ∧ s.render_queue = some q ∧
      s1 = { s with render_queue := some { q with items := q.items ++
        [RENDER_CMD_TEXT_LINE { line := line, text := t.take 21, clear_line := clear_line }] } } := by
  cases hq : s.render_queue with
  | none => simp [oled_render_text_line, hq] at hacc
  | some q =>
    cases text with
    | none => simp [oled_render_text_line, hq] at hacc
    | some t =>
      by_cases hl : line ≥ RENDER_MAX_LINES
      · simp [oled_render_text_line, hq, hl] at hacc
      · by_cases hroom : q.items.length < q.uxLength
        · simp only [oled_render_text_line, hq, hl, if_false,
            render_post_room s q _ hroom] at hacc
          refine ⟨t, q, rfl, ?_, rfl, ?_⟩
          · simp only [RENDER_MAX_LINES] at hl
            omega
          · have h2 := (Prod.mk.inj hacc).2
            rw [← h2]
            simp [strncpy, RENDER_MAX_TEXT_LEN, hq]
        · simp only [oled_render_text_line, hq, hl, if_false,
            render_post_full s q _ hroom] at hacc
          exact absurd (Prod.mk.inj hacc).1 (by decide)

/-- C15. TextLine round trip.  Whenever `oled_render_text_line(line, text,
clear)` is accepted (returns `ESP_OK`), the text is non-null, the line is in
`0..7`, and the command is appended behind the commands already waiting; the
display task receives those first and then this command, which has type
`RENDER_CMD_TEXT_LINE`, the same line, the same clear flag and as text the
first `min(len(text), 21)` characters of the input, and hands exactly these to
`render_text_line_impl`.  The text is the input itself when that has at most 21
characters. -/
theorem text_line_round_trip (s s1 : RenderState) (line : Nat) (text : Option (List Char))
    (clear_line : Bool)
    (hacc : oled_render_text_line s line text clear_line = (ESP_OK, s1)) :
    ∃ t q, text = some t ∧ line < 8 ∧ s.render_queue = some q ∧
      (ui_task_run (q.items.length + 1) s1).1
        = q.items.map (fun c => (c, ui_dispatch c)) ++
          [(RENDER_CMD_TEXT_LINE { line := line, text := t.take 21, clear_line := clear_line },
            UiCall.render_text_line_impl line (t.take 21) clear_line)] ∧
      (t.take 21).length = min t.length 21 ∧
      (t.length ≤ 21 → t.take 21 = t) := by
  obtain ⟨t, q, ht, hl, hq, hs1⟩ := text_line_accepted s s1 line text clear_line hacc
  refine ⟨t, q, ht, hl, hq, ?_, ?_, ?_⟩
  · have hall := ui_task_run_all
      (q.items ++ [RENDER_CMD_TEXT_LINE { line := line, text := t.take 21, clear_line := clear_line }])
      s1 { q with items := q.items ++
        [RENDER_CMD_TEXT_LINE { line := line, text := t.take 21, clear_line := clear_line }] }
      (by rw [hs1]) rfl
    simp only [List.length_append, List.length_singleton, List.map_append, List.map_cons,
      List.map_nil] at hall
    rw [hall]
    rfl
  · rw [List.length_take, Nat.min_comm]
  · intro hlen
    exact List.take_of_length_le hlen

/-- The round trip of `TextLine{line = 2, text = "HELLO", clear = true}`
through a freshly created queue. -/
theorem text_line_round_trip_witness :
    (ui_task_run 1
        (oled_render_text_line (oled_render_init true true RenderState.boot).2 2
          (some ['H', 'E', 'L', 'L', 'O']) true).2).1
      = [(RENDER_CMD_TEXT_LINE { line := 2, text := ['H', 'E', 'L', 'L', 'O'], clear_line := true },
          UiCall.render_text_line_impl 2 ['H', 'E', 'L', 'L', 'O'] true)] := by
  obtain ⟨t, q, ht, _, hq, hrun, _, _⟩ :=
    text_line_round_trip (oled_render_init true true RenderState.boot).2
      (oled_render_text_line (oled_render_init true true RenderState.boot).2 2
        (some ['H', 'E', 'L', 'L', 'O']) true).2
      2 (some ['H', 'E', 'L', 'L', 'O']) true rfl
  have hq0 : q = xQueueCreate RENDER_QUEUE_SIZE := by
    have : (oled_render_init true true RenderState.boot).2.render_queue
        = some (xQueueCreate RENDER_QUEUE_SIZE) := rfl
    rw [this] at hq
    exact (Option.some.inj hq).symm
  have ht0 : t = ['H', 'E', 'L', 'L', 'O'] := (Option.some.inj ht).symm
  subst hq0
  subst ht0
  exact hrun

/-- C16. Disconnect from STAConnected.  Handling a
`WIFI_EVENT_STA_DISCONNECTED` in state `STA_CONNECTED` sets the state to
`STA_DISCONNECTED` and `ip_address` to the sentinel `"0.0.0.0"`, and leaves
`ssid`, `rssi`, `sta_count` and `provisioned` (and `wifi_initialized`)
unchanged. -/
theorem disconnect_frame (ap_info : Option Int) (s : WifiState) (reason : Nat)
    (h : s.current_status.state = LUCID_WIFI_STATE_STA_CONNECTED) :
    (wifi_event_handler ap_info s (WIFI_EVENT_STA_DISCONNECTED reason)).1
      = { current_status :=
            { state := LUCID_WIFI_STATE_STA_DISCONNECTED,
              ssid := s.current_status.ssid,
              ip_address := "0.0.0.0".toList,
              rssi := s.current_status.rssi,
              sta_count := s.current_status.sta_count,
              provisioned := s.current_status.provisioned },
          wifi_initialized := s.wifi_initialized } ∧
    (wifi_event_handler ap_info s (WIFI_EVENT_STA_DISCONNECTED reason)).1.current_status.state
      ≠ s.current_status.state := by
  refine ⟨rfl, ?_⟩
  rw [h]
  simp [wifi_event_handler]

/-- A station connected to `home` at `192.168.1.7` with -60 dBm is
disconnected. -/
theorem disconnect_frame_witness :
    (wifi_event_handler none
        { current_status :=
            { state := LUCID_WIFI_STATE_STA_CONNECTED, ssid := "home".toList,
              ip_address := "192.168.1.7".toList, rssi := -60, sta_count := 0,
              provisioned := true },
          wifi_initialized := true }
        (WIFI_EVENT_STA_DISCONNECTED 8)).1
      = { current_status :=
            { state := LUCID_WIFI_STATE_STA_DISCONNECTED, ssid := "home".toList,
              ip_address := "0.0.0.0".toList, rssi := -60, sta_count := 0,
              provisioned := true },
          wifi_initialized := true } :=
  (disconnect_frame none
    { current_status :=
        { state := LUCID_WIFI_STATE_STA_CONNECTED, ssid := "home".toList,
          ip_address := "192.168.1.7".toList, rssi := -60, sta_count := 0,
          provisioned := true },
      wifi_initialized := true }
    8 rfl).1

/-! ### Reset to AP and explicit connect -/

theorem hex_digit_upper (n : Nat) : hex_digit n ∈ "0123456789ABCDEF".toList := by
  have hlt : n % 16 < 16 := Nat.mod_lt _ (by decide)
  unfold hex_digit
  generalize n % 16 = d at hlt
  interval_cases d <;> decide

theorem mac4_digits (env : WifiEnv) (hmac : env.get_mac = ESP_OK) :
    wifi_manager_get_mac4 env
      = (ESP_OK,
          [hex_digit (env.mac.getD 4 0 / 16), hex_digit (env.mac.getD 4 0 % 16),
            hex_digit (env.mac.getD 5 0 / 16), hex_digit (env.mac.getD 5 0 % 16)]) := by
  have hmod : ∀ b, hex_digit (b % 16) = hex_digit b := by
    intro b
    simp [hex_digit]
  simp [wifi_manager_get_mac4, hmac, hex_byte, hmod]

/-- C17, as stated, fails: the MAC can be read but the driver refuses
`esp_wifi_start`; `ESP_ERROR_CHECK` aborts the firmware and
`wifi_manager_reset_to_ap` does not end in `AP_MODE`. -/
theorem reset_to_ap_counterexample :
    ({ env_unprovisioned with start := ESP_FAIL } : WifiEnv).get_mac = ESP_OK ∧
    wifi_manager_reset_to_ap { env_unprovisioned with start := ESP_FAIL } WifiState.boot
      = none := by
  decide

/-- C17, amended.  From every connectivity state, when the device MAC can be
read and the driver accepts the mode, configuration and start calls (otherwise
`ESP_ERROR_CHECK` aborts the firmware), `wifi_manager_reset_to_ap` returns
`ESP_OK` and ends with `state = AP_MODE`, `ssid = "LUCIDUART_"` followed by
exactly four upper-case hexadecimal digits, the two nibbles of `mac[4]` then
the two nibbles of `mac[5]` as produced by `wifi_manager_get_mac4`,
`ip_address = "10.10.10.1"` and `sta_count = 0`; `rssi` and `provisioned` are
untouched.  The result of the preceding `esp_wifi_stop` plays no part: the
statement holds for every value of `env.stop`.  Whenever the call ends at all
with the MAC readable, it ends this way. -/
theorem reset_to_ap_outcome (env : WifiEnv) (s : WifiState)
    (hmac : env.get_mac = ESP_OK) :
    (env.set_mode = ESP_OK ∧ env.set_config = ESP_OK ∧ env.start = ESP_OK →
      wifi_manager_reset_to_ap env s
        = some (ESP_OK,
            { current_status :=
                { state := LUCID_WIFI_STATE_AP_MODE,
                  ssid := "LUCIDUART_".toList ++
                    [hex_digit (env.mac.getD 4 0 / 16), hex_digit (env.mac.getD 4 0 % 16),
                      hex_digit (env.mac.getD 5 0 / 16), hex_digit (env.mac.getD 5 0 % 16)],
                  ip_address := "10.10.10.1".toList,
                  rssi := s.current_status.rssi,
                  sta_count := 0,
                  provisioned := s.current_status.provisioned },
              wifi_initialized := s.wifi_initialized })) ∧
    (∀ r, wifi_manager_reset_to_ap env s = some r →
      r.1 = ESP_OK ∧ r.2.current_status.state = LUCID_WIFI_STATE_AP_MODE ∧
      r.2.current_status.ssid = "LUCIDUART_".toList ++ (wifi_manager_get_mac4 env).2 ∧
      r.2.current_status.ip_address = "10.10.10.1".toList ∧
      r.2.current_status.sta_count = 0) ∧
    (wifi_manager_get_mac4 env).2.length = 4 ∧
    (∀ c ∈ (wifi_manager_get_mac4 env).2, c ∈ "0123456789ABCDEF".toList) := by
  have hm4 := mac4_digits env hmac
  refine ⟨?_, ?_, ?_, ?_⟩
  · intro hdrv
    rw [wifi_manager_reset_to_ap, start_ap_ok env s hmac hdrv, hm4]
    rfl
  · intro r hr
    by_cases hdrv : env.set_mode = ESP_OK ∧ env.set_config = ESP_OK ∧ env.start = ESP_OK
    · rw [wifi_manager_reset_to_ap, start_ap_ok env s hmac hdrv, hm4] at hr
      rw [← Option.some.inj hr, hm4]
      exact ⟨rfl, rfl, rfl, rfl, rfl⟩
    · exfalso
      have hnone : wifi_manager_start_ap env s = none := by
        simp only [wifi_manager_start_ap, hm4, ne_eq, not_true_eq_false, if_false]
        by_cases h1 : env.set_mode = ESP_OK
        · by_cases h2 : env.set_config = ESP_OK
          · by_cases h3 : env.start = ESP_OK
            · exact absurd ⟨h1, h2, h3⟩ hdrv
            · simp [h1, h2, h3]
          · simp [h1, h2]
        · simp [h1]
      rw [wifi_manager_reset_to_ap, hnone] at hr
      exact absurd hr (by simp)
  · rw [hm4]
    rfl
  · intro c hc
    rw [hm4] at hc
    simp only [List.mem_cons, List.mem_singleton, List.not_mem_nil, or_false] at hc
    rcases hc with h | h | h | h <;> rw [h] <;> exact hex_digit_upper _

/-- A station connected to `home` is reset to the access point on a device
with MAC `5C:CF:7F:12:AB:0D` whose `esp_wifi_stop` fails: the SSID becomes
`LUCIDUART_AB0D`. -/
theorem reset_to_ap_outcome_witness :
    wifi_manager_reset_to_ap { env_unprovisioned with stop := ESP_FAIL }
        { current_status :=
            { state := LUCID_WIFI_STATE_STA_CONNECTED, ssid := "home".toList,
              ip_address := "192.168.1.7".toList, rssi := -60, sta_count := 0,
              provisioned := true },
          wifi_initialized := true }
      = some (ESP_OK,
          { current_status :=
              { state := LUCID_WIFI_STATE_AP_MODE, ssid := "LUCIDUART_AB0D".toList,
                ip_address := "10.10.10.1".toList, rssi := -60, sta_count := 0,
                provisioned := true },
            wifi_initialized := true }) := by
  have h := (reset_to_ap_outcome { env_unprovisioned with stop := ESP_FAIL }
    { current_status :=
        { state := LUCID_WIFI_STATE_STA_CONNECTED, ssid := "home".toList,
          ip_address := "192.168.1.7".toList, rssi := -60, sta_count := 0,
          provisioned := true },
      wifi_initialized := true } rfl).1 ⟨rfl, rfl, rfl⟩
  rw [h]
  decide

theorem connect_sta_given (env : WifiEnv) (s : WifiState) (sv pv : List Char) :
    wifi_manager_connect_sta env s (some sv) (some pv)
      = if env.set_mode = ESP_OK ∧ env.set_config = ESP_OK ∧ env.start = ESP_OK then
          some (ESP_OK,
            { s with current_status :=
                { s.current_status with
                  state := LUCID_WIFI_STATE_STA_CONNECTING, ssid := sv.take 31,
                  ip_address := "0.0.0.0".toList } })
        else none := by
  have htake : (sv.take 31).take 32 = sv.take 31 := by
    rw [List.take_take]
    rfl
  have hip : IP_NONE = "0.0.0.0".toList := rfl
  by_cases h1 : env.set_mode = ESP_OK
  · by_cases h2 : env.set_config = ESP_OK
    · by_cases h3 : env.start = ESP_OK
      · simp [wifi_manager_connect_sta, strncpy, h1, h2, h3, htake, hip]
      · simp [wifi_manager_connect_sta, h1, h2, h3]
    · simp [wifi_manager_connect_sta, h1, h2]
  · simp [wifi_manager_connect_sta, h1]

theorem save_credentials_state (w : NvsWriteEnv) (s : WifiState) (store : CredentialStore)
    (sv pv : List Char) :
    (wifi_manager_save_credentials w s store (some sv) (some pv)).2.1.current_status.state
      = s.current_status.state ∧
    (wifi_manager_save_credentials w s store (some sv) (some pv)).2.1.current_status.ssid
      = s.current_status.ssid ∧
    (wifi_manager_save_credentials w s store (some sv) (some pv)).2.1.current_status.ip_address
      = s.current_status.ip_address := by
  simp only [wifi_manager_save_credentials]
  split
  · exact ⟨rfl, rfl, rfl⟩
  · split
    · exact ⟨rfl, rfl, rfl⟩
    · split <;> exact ⟨rfl, rfl, rfl⟩

/-- C18, as stated, fails: the credential store cannot be opened
(`nvs_open` fails), `wifi_manager_save_credentials` returns an error that the
handler does not look at, nothing is written, and the connection attempt is
made all the same: the state becomes `STA_CONNECTING` with the store still
empty. -/
theorem connect_request_counterexample :
    api_wifi_connect_handler env_unprovisioned { nvs_ok with nvs_open := ESP_FAIL }
        WifiState.boot store_empty connect_request_home
      = some
          { ret := ESP_OK, response := some "success".toList,
            wifi :=
              { current_status :=
                  { state := LUCID_WIFI_STATE_STA_CONNECTING, ssid := "home".toList,
                    ip_address := "0.0.0.0".toList, rssi := 0, sta_count := 0,
                    provisioned := false },
                wifi_initialized := false },
            store := { ssid := none, password := none },
            calls :=
              [ManagerCall.wifi_manager_save_credentials "home".toList "secret12".toList ESP_FAIL,
                ManagerCall.wifi_manager_connect_sta "home".toList "secret12".toList ESP_OK] } := by
  decide

/-- C18, amended.  For every connect request carrying an SSID `s` and a
password `p`, from any state, `api_wifi_connect_handler` first calls
`wifi_manager_save_credentials(s, p)` and then, whatever that call returned,
`wifi_manager_connect_sta(s, p)`.  The credentials are in the store before the
connection attempt whenever the store accepts the writes; when it cannot be
opened nothing is written and the attempt is made all the same.  When the
driver accepts the mode, configuration and start calls (otherwise
`ESP_ERROR_CHECK` aborts), the handler returns `ESP_OK` and afterwards the
state is `STA_CONNECTING`, the recorded ssid is `s` truncated to 31 characters
and `ip_address` is `"0.0.0.0"`. -/
theorem connect_request_outcome (env : WifiEnv) (w : NvsWriteEnv) (s : WifiState)
    (store : CredentialStore) (recv_ret : Int) (sv pv : List Char) (hrecv : 0 < recv_ret) :
    (env.set_mode = ESP_OK ∧ env.set_config = ESP_OK ∧ env.start = ESP_OK →
      ∃ out,
        api_wifi_connect_handler env w s store
            { recv_ret := recv_ret, json_ok := true, ssid := some sv, password := some pv }
          = some out ∧
        out.ret = ESP_OK ∧
        out.calls
          = [ManagerCall.wifi_manager_save_credentials sv pv
                (wifi_manager_save_credentials w s store (some sv) (some pv)).1,
              ManagerCall.wifi_manager_connect_sta sv pv ESP_OK] ∧
        out.store = (wifi_manager_save_credentials w s store (some sv) (some pv)).2.2 ∧
        out.wifi.current_status.state = LUCID_WIFI_STATE_STA_CONNECTING ∧
        out.wifi.current_status.ssid = sv.take 31 ∧
        out.wifi.current_status.ip_address = "0.0.0.0".toList) ∧
    (w.nvs_open = ESP_OK ∧ w.set_ssid = ESP_OK ∧ w.set_password = ESP_OK →
      (wifi_manager_save_credentials w s store (some sv) (some pv)).2.2
        = { ssid := some sv, password := some pv }) ∧
    (w.nvs_open ≠ ESP_OK →
      (wifi_manager_save_credentials w s store (some sv) (some pv)).2.2 = store ∧
      (wifi_manager_save_credentials w s store (some sv) (some pv)).1 ≠ ESP_OK) := by
  refine ⟨?_, ?_, ?_⟩
  · intro hdrv
    have hnr : ¬ recv_ret ≤ 0 := by omega
    have hconn := connect_sta_given env
      (wifi_manager_save_credentials w s store (some sv) (some pv)).2.1 sv pv
    rw [if_pos hdrv] at hconn
    have hrun : api_wifi_connect_handler env w s store
          { recv_ret := recv_ret, json_ok := true, ssid := some sv, password := some pv }
        = some
            { ret := ESP_OK, response := some "success".toList,
              wifi :=
                { (wifi_manager_save_credentials w s store (some sv) (some pv)).2.1 with
                  current_status :=
                    { (wifi_manager_save_credentials w s store (some sv)
                        (some pv)).2.1.current_status with
                      state := LUCID_WIFI_STATE_STA_CONNECTING, ssid := sv.take 31,
                      ip_address := "0.0.0.0".toList } },
              store := (wifi_manager_save_credentials w s store (some sv) (some pv)).2.2,
              calls :=
                [ManagerCall.wifi_manager_save_credentials sv pv
                    (wifi_manager_save_credentials w s store (some sv) (some pv)).1,
                  ManagerCall.wifi_manager_connect_sta sv pv ESP_OK] } := by
      simp only [api_wifi_connect_handler, hnr, if_false, Bool.not_true, Bool.false_eq_true,
        Option.getD_some, hconn, if_true]
    exact ⟨_, hrun, rfl, rfl, rfl, rfl, rfl, rfl⟩
  · intro h
    obtain ⟨h1, h2, h3⟩ := h
    simp [wifi_manager_save_credentials, h1, h2, h3]
  · intro h
    simp [wifi_manager_save_credentials, h]

/-- The request for `home` / `secret12` on a device in AP mode whose store and
driver work: the credentials are stored and the state is `STA_CONNECTING`. -/
theorem connect_request_outcome_witness :
    ∃ out,
      api_wifi_connect_handler env_unprovisioned nvs_ok WifiState.boot store_empty
          connect_request_home = some out ∧
      out.store = { ssid := some "home".toList, password := some "secret12".toList } ∧
      out.wifi.current_status.state = LUCID_WIFI_STATE_STA_CONNECTING ∧
      out.wifi.current_status.ssid = "home".toList := by
  have h := connect_request_outcome env_unprovisioned nvs_ok WifiState.boot store_empty 41
    "home".toList "secret12".toList (by decide)
  obtain ⟨out, h1, _, _, h4, h5, h6, _⟩ := h.1 ⟨rfl, rfl, rfl⟩
  refine ⟨out, h1, ?_, h5, ?_⟩
  · rw [h4]
    exact h.2.1 ⟨rfl, rfl, rfl⟩
  · rw [h6]
    decide

/-- C19. `wifi_manager_save_credentials` with non-null arguments: when the
store opens and both `nvs_set_str` succeed, the function sets `provisioned` to
true and returns the result of `nvs_commit`, so when the commit fails it
returns an error and has set `provisioned` all the same; when the open or a
`nvs_set_str` fails it returns that error and leaves the manager state
unchanged. -/
theorem save_credentials_provisioned (w : NvsWriteEnv) (s : WifiState) (store : CredentialStore)
    (sv pv : List Char) :
    (w.nvs_open = ESP_OK ∧ w.set_ssid = ESP_OK ∧ w.set_password = ESP_OK →
      (wifi_manager_save_credentials w s store (some sv) (some pv)).1 = w.commit ∧
      (wifi_manager_save_credentials w s store (some sv)
        (some pv)).2.1.current_status.provisioned = true) ∧
    (w.nvs_open ≠ ESP_OK ∨ w.set_ssid ≠ ESP_OK ∨ w.set_password ≠ ESP_OK →
      (wifi_manager_save_credentials w s store (some sv) (some pv)).1 ≠ ESP_OK ∧
      (wifi_manager_save_credentials w s store (some sv) (some pv)).2.1 = s) := by
  refine ⟨?_, ?_⟩
  · intro h
    obtain ⟨h1, h2, h3⟩ := h
    simp [wifi_manager_save_credentials, h1, h2, h3]
  · intro h
    by_cases h1 : w.nvs_open = ESP_OK
    · by_cases h2 : w.set_ssid = ESP_OK
      · by_cases h3 : w.set_password = ESP_OK
        · rcases h with h | h | h <;> contradiction
        · simp [wifi_manager_save_credentials, h1, h2, h3]
      · simp [wifi_manager_save_credentials, h1, h2]
    · simp [wifi_manager_save_credentials, h1]

/-- Saving `home` / `secret12` on an unprovisioned device when `nvs_commit`
fails: the call returns `ESP_FAIL` and `provisioned` has become true. -/
theorem save_credentials_provisioned_witness :
    WifiState.boot.current_status.provisioned = false ∧
    (wifi_manager_save_credentials { nvs_ok with commit := ESP_FAIL } WifiState.boot store_empty
        (some "home".toList) (some "secret12".toList)).1 = ESP_FAIL ∧
    (wifi_manager_save_credentials { nvs_ok with commit := ESP_FAIL } WifiState.boot store_empty
        (some "home".toList) (some "secret12".toList)).2.1.current_status.provisioned = true :=
  have h := (save_credentials_provisioned { nvs_ok with commit := ESP_FAIL } WifiState.boot
    store_empty "home".toList "secret12".toList).1 ⟨rfl, rfl, rfl⟩
  ⟨rfl, h.1, h.2⟩

/-- C20. `web_server_get_system_status` does not read the baud rate or the
active flag of the bridge: whatever the bridge state, it reports
`uart_baud_rate = 115200` and `uart_bridge_active = true`.  The byte counts are
those of the bridge when the counter functions are registered as `app_main`
does, and 0 when none is registered.  For a bridge initialised at 9600 baud
and not started the report therefore differs from the bridge in both fields. -/
theorem status_bridge_fields (wifi : WifiState) (bridge : BridgeState)
    (rx_cb tx_cb : Option (BridgeState → Nat)) (ticks tick_period_ms free_heap : Nat) :
    (web_server_get_system_status wifi bridge rx_cb tx_cb ticks tick_period_ms
        free_heap).2.uart_baud_rate = 115200 ∧
    (web_server_get_system_status wifi bridge rx_cb tx_cb ticks tick_period_ms
        free_heap).2.uart_bridge_active = true ∧
    (web_server_get_system_status wifi bridge (some uart_bridge_get_rx_count)
        (some uart_bridge_get_tx_count) ticks tick_period_ms free_heap).2.uart_rx_count
      = bridge.bridge_stats.rx_bytes ∧
    (web_server_get_system_status wifi bridge (some uart_bridge_get_rx_count)
        (some uart_bridge_get_tx_count) ticks tick_period_ms free_heap).2.uart_tx_count
      = bridge.bridge_stats.tx_bytes ∧
    (web_server_get_system_status wifi bridge none none ticks tick_period_ms
        free_heap).2.uart_rx_count = 0 ∧
    (web_server_get_system_status wifi bridge none none ticks tick_period_ms
        free_heap).2.uart_tx_count = 0 ∧
    bridge_9600_idle.bridge_stats.current_baud = 9600 ∧
    bridge_9600_idle.current_config.baud_rate = 9600 ∧
    uart_bridge_is_active bridge_9600_idle = false ∧
    (web_server_get_system_status wifi bridge_9600_idle (some uart_bridge_get_rx_count)
        (some uart_bridge_get_tx_count) ticks tick_period_ms free_heap).2.uart_baud_rate
      ≠ bridge_9600_idle.bridge_stats.current_baud ∧
    (web_server_get_system_status wifi bridge_9600_idle (some uart_bridge_get_rx_count)
        (some uart_bridge_get_tx_count) ticks tick_period_ms free_heap).2.uart_bridge_active
      ≠ uart_bridge_is_active bridge_9600_idle := by
  refine ⟨rfl, rfl, rfl, rfl, rfl, rfl, rfl, rfl, rfl, ?_, ?_⟩
  · show (115200 : Nat) ≠ 9600
    decide
  · show true ≠ false
    decide

/-! ### Serial bridge: reconfiguration -/

/-- C21 (counterexample).  The bridge of `bridge_started` is active.  It is
reconfigured to 9600 baud, the driver accepts the parameters, but the loop
task cannot be created again: the call returns `ESP_FAIL` and the bridge is
inactive when it returns, although the statistics report 9600 baud. -/
theorem update_config_restart_counterexample :
    bridge_started.bridge_active = true ∧
    (uart_bridge_update_config bridge_started (some config_9600) ESP_OK false).1 = ESP_FAIL ∧
    (uart_bridge_update_config bridge_started (some config_9600) ESP_OK
      false).2.1.bridge_active = false ∧
    (uart_bridge_update_config bridge_started (some config_9600) ESP_OK
      false).2.1.bridge_stats.current_baud = 9600 := by
  decide

/-- C21 (amended).  For every non-null configuration, `uart_bridge_update_config`
stores the configuration and reports its baud rate in the statistics.  A
bridge that was inactive stays inactive.  A bridge that was active is stopped
first; when the driver accepts the parameters the bridge is started again: it
is active when the call returns `ESP_OK` provided the loop task could be
created, and it is inactive with result `ESP_FAIL` when the task could not be
created.  The state is any state the API can produce (`bridge_inv`). -/
theorem update_config_restart (s : BridgeState) (cfg : uart_bridge_config_t)
    (param_ret : esp_err_t) (task_created : Bool) (hinv : bridge_inv s) :
    (uart_bridge_update_config s (some cfg) param_ret task_created).2.1.current_config = cfg ∧
    (uart_bridge_get_stats
      (uart_bridge_update_config s (some cfg) param_ret task_created).2.1).2.current_baud
        = cfg.baud_rate ∧
    (s.bridge_active = false →
      (uart_bridge_update_config s (some cfg) param_ret task_created).2.1.bridge_active
        = false) ∧
    (s.bridge_active = true → param_ret = ESP_OK → task_created = true →
      (uart_bridge_update_config s (some cfg) param_ret task_created).1 = ESP_OK ∧
      (uart_bridge_update_config s (some cfg) param_ret task_created).2.1.bridge_active
        = true ∧
      (uart_bridge_update_config s (some cfg) param_ret
        task_created).2.1.bridge_stats.bridge_active = true ∧
      (uart_bridge_update_config s (some cfg) param_ret task_created).2.2
        = [UartAct.xTaskCreate true]) ∧
    (s.bridge_active = true → param_ret = ESP_OK → task_created = false →
      (uart_bridge_update_config s (some cfg) param_ret task_created).1 = ESP_FAIL ∧
      (uart_bridge_update_config s (some cfg) param_ret task_created).2.1.bridge_active
        = false) := by
  obtain ⟨hi, _⟩ := hinv
  cases hact : s.bridge_active
  · by_cases hp : param_ret = ESP_OK
    · simp [uart_bridge_update_config, uart_bridge_get_stats, hact, hp]
    · simp [uart_bridge_update_config, uart_bridge_get_stats, hact, hp]
  · have hinit := hi hact
    by_cases hp : param_ret = ESP_OK
    · cases task_created <;>
        simp [uart_bridge_update_config, uart_bridge_get_stats, uart_bridge_stop,
          uart_bridge_start, hact, hp, hinit]
    · simp [uart_bridge_update_config, uart_bridge_get_stats, uart_bridge_stop, hact, hp]

theorem update_config_restart_witness :
    bridge_inv bridge_started ∧ bridge_started.bridge_active = true ∧
    (uart_bridge_update_config bridge_started (some config_9600) ESP_OK true).1 = ESP_OK ∧
    (uart_bridge_update_config bridge_started (some config_9600) ESP_OK
      true).2.1.bridge_active = true ∧
    (uart_bridge_update_config bridge_started (some config_9600) ESP_OK
      true).2.1.bridge_stats.current_baud = 9600 :=
  have h := update_config_restart bridge_started config_9600 ESP_OK true (by decide)
  have h4 := h.2.2.2.1 (by decide) rfl rfl
  ⟨by decide, by decide, h4.1, h4.2.1, h.2.1⟩
/-! ### Serial bridge: loop events -/

theorem error_dispatch_state (s : BridgeState) (type : uart_event_type_t)
    (buffered_size : Nat) (read_ret : Int) (rx_buffer : List Nat)
    (herr : type = UART_FIFO_OVF ∨ type = UART_BUFFER_FULL ∨ type = UART_PARITY_ERR ∨
      type = UART_FRAME_ERR) :
    (uart_event_dispatch s type buffered_size read_ret rx_buffer).1
      = { s with bridge_stats :=
            { s.bridge_stats with rx_errors := u32_incr s.bridge_stats.rx_errors } } := by
  rcases herr with h | h | h | h <;> subst h <;> rfl

theorem error_dispatch_trace (s : BridgeState) (type : uart_event_type_t)
    (buffered_size : Nat) (read_ret : Int) (rx_buffer : List Nat)
    (herr : type = UART_FIFO_OVF ∨ type = UART_BUFFER_FULL ∨ type = UART_PARITY_ERR ∨
      type = UART_FRAME_ERR) :
    (uart_event_dispatch s type buffered_size read_ret rx_buffer).2
      = if type = UART_FIFO_OVF ∨ type = UART_BUFFER_FULL then
          [UartAct.uart_flush_input, UartAct.xQueueReset]
        else [] := by
  rcases herr with h | h | h | h <;> subst h <;> rfl

theorem task_step_active (s : BridgeState) (type : uart_event_type_t)
    (buffered_size : Nat) (read_ret : Int) (rx_buffer : List Nat)
    (hact : s.bridge_active = true) :
    uart_event_task_step s (some type) buffered_size read_ret rx_buffer
      = (uptime_tick (uart_event_dispatch s type buffered_size read_ret rx_buffer).1,
          UartAct.event type ::
            (uart_event_dispatch s type buffered_size read_ret rx_buffer).2) := by
  simp [uart_event_task_step, hact]

theorem data_dispatch_trace (s : BridgeState) (buffered_size : Nat) (read_ret : Int)
    (rx_buffer : List Nat) (hb : buffered_size > 0) (hr : read_ret > 0) :
    (uart_event_dispatch s UART_DATA buffered_size read_ret rx_buffer).2
      = UartAct.uart_read_bytes (min buffered_size 1024) read_ret ::
          (match s.rx_data_callback with
            | some fn => [UartAct.rx_data_callback fn (rx_buffer.take read_ret.toNat)]
            | none => []) := by
  have hmin : (if buffered_size < LUCIDUART_RX_BUF_SIZE then buffered_size
      else LUCIDUART_RX_BUF_SIZE) = min buffered_size 1024 := by
    unfold LUCIDUART_RX_BUF_SIZE
    split <;> omega
  cases hcb : s.rx_data_callback <;> simp [uart_event_dispatch, hcb, hb, hr, hmin]

/-- C22.  One iteration of the running bridge loop that receives one of the
four error events (FIFO overflow, ring buffer full, parity error, frame
error) increments `rx_errors` once (a `uint32_t` increment: by exactly 1 below
4294967295), leaves `rx_bytes`, `tx_bytes` and `tx_errors` unchanged, does not
invoke the sink, and leaves the active flag and the registered sink unchanged;
a data event handled by the next iteration is read as usual: the read of
`min(b, 1024)` bytes is requested, `rx_bytes` grows by the bytes read and the
sink receives them. -/
theorem error_event_recoverable (s : BridgeState) (type : uart_event_type_t)
    (buffered_size : Nat) (read_ret : Int) (rx_buffer : List Nat)
    (hact : s.bridge_active = true)
    (herr : type = UART_FIFO_OVF ∨ type = UART_BUFFER_FULL ∨ type = UART_PARITY_ERR ∨
      type = UART_FRAME_ERR) :
    (uart_event_task_step s (some type) buffered_size read_ret rx_buffer).1.bridge_stats.rx_errors
      = (s.bridge_stats.rx_errors + 1) % 4294967296 ∧
    (s.bridge_stats.rx_errors < 4294967295 →
      (uart_event_task_step s (some type) buffered_size read_ret
        rx_buffer).1.bridge_stats.rx_errors = s.bridge_stats.rx_errors + 1) ∧
    (uart_event_task_step s (some type) buffered_size read_ret rx_buffer).1.bridge_stats.rx_bytes
      = s.bridge_stats.rx_bytes ∧
    (uart_event_task_step s (some type) buffered_size read_ret rx_buffer).1.bridge_stats.tx_bytes
      = s.bridge_stats.tx_bytes ∧
    (uart_event_task_step s (some type) buffered_size read_ret rx_buffer).1.bridge_stats.tx_errors
      = s.bridge_stats.tx_errors ∧
    (∀ fn data, UartAct.rx_data_callback fn data ∉
      (uart_event_task_step s (some type) buffered_size read_ret rx_buffer).2) ∧
    (uart_event_task_step s (some type) buffered_size read_ret rx_buffer).1.bridge_active
      = true ∧
    (uart_event_task_step s (some type) buffered_size read_ret rx_buffer).1.rx_data_callback
      = s.rx_data_callback ∧
    (∀ (b : Nat) (r : Int) (buf : List Nat), b > 0 → r > 0 →
      (uart_event_task_step
        (uart_event_task_step s (some type) buffered_size read_ret rx_buffer).1
        (some UART_DATA) b r buf).2
        = UartAct.event UART_DATA :: UartAct.uart_read_bytes (min b 1024) r ::
            (match s.rx_data_callback with
              | some fn => [UartAct.rx_data_callback fn (buf.take r.toNat)]
              | none => []) ∧
      (uart_event_task_step
        (uart_event_task_step s (some type) buffered_size read_ret rx_buffer).1
        (some UART_DATA) b r buf).1.bridge_stats.rx_bytes
        = (s.bridge_stats.rx_bytes + r.toNat) % 4294967296) := by
  have hstep := task_step_active s type buffered_size read_ret rx_buffer hact
  have hd := error_dispatch_state s type buffered_size read_ret rx_buffer herr
  have htr := error_dispatch_trace s type buffered_size read_ret rx_buffer herr
  obtain ⟨u1, u2, u3, u4, u5, u6⟩ :=
    uptime_tick_stats (uart_event_dispatch s type buffered_size read_ret rx_buffer).1
  rw [hstep]
  simp only
  rw [u1, u2, u3, u4, u5, u6, hd]
  simp only
  refine ⟨rfl, ?_, trivial, trivial, trivial, ?_, hact, trivial, ?_⟩
  · intro hlt
    show (s.bridge_stats.rx_errors + 1) % 4294967296 = s.bridge_stats.rx_errors + 1
    exact Nat.mod_eq_of_lt (by omega)
  · intro fn data hmem
    rw [htr] at hmem
    split at hmem <;> simp at hmem
  · intro b r buf hb hr
    have hact1 : (uptime_tick { s with bridge_stats :=
        { s.bridge_stats with rx_errors := u32_incr s.bridge_stats.rx_errors } }).bridge_active
        = true := by
      rw [(uptime_tick_stats _).2.2.2.2.1]
      exact hact
    rw [task_step_active _ UART_DATA b r buf hact1]
    simp only
    rw [data_dispatch_trace _ b r buf hb hr, (uptime_tick_stats _).1,
      data_dispatch_state _ b r buf hb hr, (uptime_tick_stats _).2.2.2.2.2,
      (uptime_tick_stats _).1]
    exact ⟨rfl, rfl⟩

theorem error_event_recoverable_witness :
    bridge_started.bridge_active = true ∧
    (uart_event_task_step bridge_started (some UART_PARITY_ERR) 0 0 []).1.bridge_stats.rx_errors
      = bridge_started.bridge_stats.rx_errors + 1 ∧
    (uart_event_task_step bridge_started (some UART_PARITY_ERR) 0 0 []).1.bridge_stats.rx_bytes
      = bridge_started.bridge_stats.rx_bytes :=
  have h := error_event_recoverable bridge_started UART_PARITY_ERR 0 0 [] (by decide)
    (Or.inr (Or.inr (Or.inl rfl)))
  ⟨by decide, h.2.1 (by decide), h.2.2.1⟩
/-- C24 (counterexample).  The running bridge of `bridge_started` receives a
parity error and then a frame error: each iteration increments `rx_errors`,
but neither flushes the serial input nor resets the event queue. -/
theorem error_recovery_counterexample :
    bridge_started.bridge_active = true ∧
    (uart_event_task_step bridge_started (some UART_PARITY_ERR) 0 0 []).2
      = [UartAct.event UART_PARITY_ERR] ∧
    (uart_event_task_step bridge_started (some UART_FRAME_ERR) 0 0 []).2
      = [UartAct.event UART_FRAME_ERR] ∧
    UartAct.uart_flush_input ∉
      (uart_event_task_step bridge_started (some UART_PARITY_ERR) 0 0 []).2 ∧
    UartAct.xQueueReset ∉
      (uart_event_task_step bridge_started (some UART_PARITY_ERR) 0 0 []).2 ∧
    (uart_event_task_step bridge_started (some UART_PARITY_ERR) 0 0 []).1.bridge_stats.rx_errors
      = bridge_started.bridge_stats.rx_errors + 1 := by
  decide

/-- C24 (amended).  In the running bridge loop each of the four error events
increments `rx_errors`.  For a FIFO overflow and for a full ring buffer the
loop then flushes the pending serial input and resets the event queue, in
this order, and nothing else; for a parity error and for a frame error it
does nothing besides the increment. -/
theorem error_recovery_actions (s : BridgeState) (type : uart_event_type_t)
    (buffered_size : Nat) (read_ret : Int) (rx_buffer : List Nat)
    (hact : s.bridge_active = true) :
    (type = UART_FIFO_OVF ∨ type = UART_BUFFER_FULL →
      (uart_event_task_step s (some type) buffered_size read_ret rx_buffer).2
        = [UartAct.event type, UartAct.uart_flush_input, UartAct.xQueueReset] ∧
      (uart_event_task_step s (some type) buffered_size read_ret
        rx_buffer).1.bridge_stats.rx_errors = u32_incr s.bridge_stats.rx_errors) ∧
    (type = UART_PARITY_ERR ∨ type = UART_FRAME_ERR →
      (uart_event_task_step s (some type) buffered_size read_ret rx_buffer).2
        = [UartAct.event type] ∧
      (uart_event_task_step s (some type) buffered_size read_ret
        rx_buffer).1.bridge_stats.rx_errors = u32_incr s.bridge_stats.rx_errors) := by
  have hstep := task_step_active s type buffered_size read_ret rx_buffer hact
  have u3 :=
    (uptime_tick_stats (uart_event_dispatch s type buffered_size read_ret rx_buffer).1).2.2.1
  rw [hstep]
  simp only
  rw [u3]
  constructor
  · intro h
    have herr : type = UART_FIFO_OVF ∨ type = UART_BUFFER_FULL ∨ type = UART_PARITY_ERR ∨
        type = UART_FRAME_ERR := by
      rcases h with h | h
      · exact Or.inl h
      · exact Or.inr (Or.inl h)
    rw [error_dispatch_state s type buffered_size read_ret rx_buffer herr,
      error_dispatch_trace s type buffered_size read_ret rx_buffer herr, if_pos h]
    exact ⟨rfl, rfl⟩
  · intro h
    have herr : type = UART_FIFO_OVF ∨ type = UART_BUFFER_FULL ∨ type = UART_PARITY_ERR ∨
        type = UART_FRAME_ERR := by
      rcases h with h | h
      · exact Or.inr (Or.inr (Or.inl h))
      · exact Or.inr (Or.inr (Or.inr h))
    have hn : ¬ (type = UART_FIFO_OVF ∨ type = UART_BUFFER_FULL) := by
      rcases h with h | h <;> subst h <;> decide
    rw [error_dispatch_state s type buffered_size read_ret rx_buffer herr,
      error_dispatch_trace s type buffered_size read_ret rx_buffer herr, if_neg hn]
    exact ⟨rfl, rfl⟩

theorem error_recovery_actions_witness :
    bridge_started.bridge_active = true ∧
    (uart_event_task_step bridge_started (some UART_FIFO_OVF) 0 0 []).2
      = [UartAct.event UART_FIFO_OVF, UartAct.uart_flush_input, UartAct.xQueueReset] :=
  ⟨by decide,
    ((error_recovery_actions bridge_started UART_FIFO_OVF 0 0 [] (by decide)).1
      (Or.inl rfl)).1⟩

/-- C25.  One iteration of the running bridge loop that receives a data event
with `b` buffered bytes: when `b > 0` it requests a read of `min(b, 1024)`
bytes; when the read returns `r > 0`, `rx_bytes` grows by `r` (a `uint32_t`
addition: by exactly `r` when the sum stays below 4294967296), the other
counters are unchanged, and the registered sink is invoked exactly once, after
the read, with the first `r` bytes of the receive buffer (no sink call when
none is registered); when `b = 0` no read is requested, and when `b = 0` or
`r <= 0` the four counters are unchanged and the sink is not invoked. -/
theorem data_event_handling (s : BridgeState) (b : Nat) (r : Int) (rx_buffer : List Nat)
    (hact : s.bridge_active = true) :
    (b > 0 → ∃ rest,
      (uart_event_task_step s (some UART_DATA) b r rx_buffer).2
        = UartAct.event UART_DATA :: UartAct.uart_read_bytes (min b 1024) r :: rest) ∧
    (b > 0 → r > 0 →
      (uart_event_task_step s (some UART_DATA) b r rx_buffer).1.bridge_stats.rx_bytes
        = (s.bridge_stats.rx_bytes + r.toNat) % 4294967296 ∧
      (s.bridge_stats.rx_bytes + r.toNat < 4294967296 →
        ((uart_event_task_step s (some UART_DATA) b r rx_buffer).1.bridge_stats.rx_bytes : Int)
          = s.bridge_stats.rx_bytes + r) ∧
      (uart_event_task_step s (some UART_DATA) b r rx_buffer).1.bridge_stats.tx_bytes
        = s.bridge_stats.tx_bytes ∧
      (uart_event_task_step s (some UART_DATA) b r rx_buffer).1.bridge_stats.rx_errors
        = s.bridge_stats.rx_errors ∧
      (uart_event_task_step s (some UART_DATA) b r rx_buffer).1.bridge_stats.tx_errors
        = s.bridge_stats.tx_errors ∧
      (∀ fn, s.rx_data_callback = some fn →
        (uart_event_task_step s (some UART_DATA) b r rx_buffer).2
          = [UartAct.event UART_DATA, UartAct.uart_read_bytes (min b 1024) r,
              UartAct.rx_data_callback fn (rx_buffer.take r.toNat)]) ∧
      (s.rx_data_callback = none →
        (uart_event_task_step s (some UART_DATA) b r rx_buffer).2
          = [UartAct.event UART_DATA, UartAct.uart_read_bytes (min b 1024) r])) ∧
    (b = 0 →
      (uart_event_task_step s (some UART_DATA) b r rx_buffer).2 = [UartAct.event UART_DATA]) ∧
    (b = 0 ∨ r ≤ 0 →
      (uart_event_task_step s (some UART_DATA) b r rx_buffer).1.bridge_stats.rx_bytes
        = s.bridge_stats.rx_bytes ∧
      (uart_event_task_step s (some UART_DATA) b r rx_buffer).1.bridge_stats.tx_bytes
        = s.bridge_stats.tx_bytes ∧
      (uart_event_task_step s (some UART_DATA) b r rx_buffer).1.bridge_stats.rx_errors
        = s.bridge_stats.rx_errors ∧
      (uart_event_task_step s (some UART_DATA) b r rx_buffer).1.bridge_stats.tx_errors
        = s.bridge_stats.tx_errors ∧
      ∀ fn data, UartAct.rx_data_callback fn data ∉
        (uart_event_task_step s (some UART_DATA) b r rx_buffer).2) := by
  have hstep := task_step_active s UART_DATA b r rx_buffer hact
  obtain ⟨u1, u2, u3, u4, _, _⟩ :=
    uptime_tick_stats (uart_event_dispatch s UART_DATA b r rx_buffer).1
  rw [hstep]
  simp only
  rw [u1, u2, u3, u4]
  have hmin : (if b < LUCIDUART_RX_BUF_SIZE then b else LUCIDUART_RX_BUF_SIZE) = min b 1024 := by
    unfold LUCIDUART_RX_BUF_SIZE
    split <;> omega
  refine ⟨?_, ?_, ?_, ?_⟩
  · intro hb
    by_cases hr : r > 0
    · rw [data_dispatch_trace s b r rx_buffer hb hr]
      exact ⟨_, rfl⟩
    · refine ⟨[], ?_⟩
      simp [uart_event_dispatch, hb, hr, hmin]
  · intro hb hr
    rw [data_dispatch_state s b r rx_buffer hb hr, data_dispatch_trace s b r rx_buffer hb hr]
    refine ⟨rfl, ?_, rfl, rfl, rfl, ?_, ?_⟩
    · intro hlt
      show (((s.bridge_stats.rx_bytes + r.toNat) % 4294967296 : Nat) : Int) = _
      rw [Nat.mod_eq_of_lt hlt]
      have := Int.toNat_of_nonneg (le_of_lt hr)
      omega
    · intro fn hfn
      rw [hfn]
    · intro hfn
      rw [hfn]
  · intro hb
    subst hb
    simp [uart_event_dispatch]
  · intro h
    have hd : uart_event_dispatch s UART_DATA b r rx_buffer
        = (s, if b > 0 then [UartAct.uart_read_bytes (min b 1024) r] else []) := by
      rcases h with h | h
      · subst h
        simp [uart_event_dispatch]
      · have hr : ¬ r > 0 := not_lt.mpr h
        by_cases hb : b > 0
        · simp [uart_event_dispatch, hb, hr, hmin]
        · simp [uart_event_dispatch, hb]
    rw [hd]
    refine ⟨rfl, rfl, rfl, rfl, ?_⟩
    intro fn data hmem
    simp only [List.mem_cons] at hmem
    rcases hmem with hmem | hmem
    · cases hmem
    · split at hmem <;> simp at hmem

theorem data_event_handling_witness :
    (uart_bridge_set_rx_callback bridge_started (some 7)).2.bridge_active = true ∧
    (uart_event_task_step (uart_bridge_set_rx_callback bridge_started (some 7)).2
      (some UART_DATA) 3 3 [72, 105, 10]).1.bridge_stats.rx_bytes
      = ((uart_bridge_set_rx_callback bridge_started (some 7)).2.bridge_stats.rx_bytes + 3)
          % 4294967296 ∧
    (uart_event_task_step (uart_bridge_set_rx_callback bridge_started (some 7)).2
      (some UART_DATA) 3 3 [72, 105, 10]).2
      = [UartAct.event UART_DATA, UartAct.uart_read_bytes (min 3 1024) 3,
          UartAct.rx_data_callback 7 [72, 105, 10]] :=
  have h := (data_event_handling (uart_bridge_set_rx_callback bridge_started (some 7)).2 3 3
    [72, 105, 10] (by decide)).2.1 (by decide) (by decide)
  ⟨by decide, h.1, h.2.2.2.2.2.1 7 rfl⟩

/-! ### Subscriber table: subscribe -/

/-- The stream handler is registered only by a `web_server_init` that sets the
server handle, and then `sse_mutex` exists. -/
theorem web_server_init_mutex (st : WebState) (mutex_created : Bool) (start_ret : esp_err_t)
    (h : (web_server_init false st mutex_created start_ret).2.1 = true) :
    (web_server_init false st mutex_created start_ret).2.2.sse_mutex = true ∧
    (web_server_init false st mutex_created start_ret).2.2.sse_clients = st.sse_clients := by
  obtain ⟨mutex, clients⟩ := st
  cases mutex <;> cases mutex_created <;> by_cases hs : start_ret = ESP_OK <;>
    simp_all [web_server_init]

theorem sse_slot_scan_first (req : Nat) (clients : List (Option Nat)) (n : Nat) :
    ∀ i k, i ≤ k → k < i + n → slot clients k = none →
      (∀ j, i ≤ j → j < k → slot clients j ≠ none) →
      sse_slot_scan req clients n i = ((k : Int), clients.set k (some req)) := by
  induction n with
  | zero =>
    intro i k h1 h2
    omega
  | succ n ih =>
    intro i k h1 h2 hk hlow
    by_cases hik : i = k
    · subst hik
      simp only [sse_slot_scan, hk, if_true]
    · have hi : slot clients i ≠ none := hlow i (Nat.le_refl _) (by omega)
      simp only [sse_slot_scan, hi, if_false]
      exact ih (i + 1) k (by omega) (by omega) hk (fun j h3 h4 => hlow j (by omega) h4)

theorem slot_set_self (clients : List (Option Nat)) (i : Nat) (v : Option Nat)
    (h : i < clients.length) : slot (clients.set i v) i = v := by
  simp [slot, List.getD_eq_getElem?_getD, List.getElem?_set, h]

theorem countP_set_none (clients : List (Option Nat)) (v : Nat) :
    ∀ k, k < clients.length → slot clients k = none →
      (clients.set k (some v)).countP Option.isSome = clients.countP Option.isSome + 1 := by
  induction clients with
  | nil =>
    intro k h
    simp at h
  | cons a rest ih =>
    intro k h hk
    cases k with
    | zero =>
      have ha : a = none := by simpa [slot] using hk
      subst ha
      simp [List.countP_cons]
    | succ k =>
      have hk1 : slot rest k = none := by simpa [slot] using hk
      have h1 : k < rest.length := by simpa using h
      simp only [List.set_cons_succ, List.countP_cons, ih k h1 hk1]
      omega

/-- C26.  Subscribe success.  In a state in which the stream handler can run
(`sse_mutex` exists, as after `web_server_init`) and the table has its 4
entries, whenever some slot is empty the subscribe step of
`api_uart_stream_handler` takes the lowest-index empty slot `k`: it returns
`k` as the slot id, stores the new handle in slot `k`, leaves every other slot
unchanged, so the number of occupied slots grows by exactly one and stays at
most 4, and the handler goes on to serve the connection instead of returning
`ESP_FAIL`. -/
theorem subscribe_success (st : WebState) (req : Nat)
    (hmutex : st.sse_mutex = true)
    (hlen : st.sse_clients.length = MAX_SSE_CLIENTS)
    (hempty : ∃ i, i < MAX_SSE_CLIENTS ∧ slot st.sse_clients i = none) :
    ∃ k, k < MAX_SSE_CLIENTS ∧ slot st.sse_clients k = none ∧
      (∀ j, j < k → slot st.sse_clients j ≠ none) ∧
      (sse_subscribe st req).1 = (k : Int) ∧
      slot (sse_subscribe st req).2.sse_clients k = some req ∧
      (∀ j, j ≠ k → slot (sse_subscribe st req).2.sse_clients j = slot st.sse_clients j) ∧
      (sse_subscribe st req).2.sse_clients.length = MAX_SSE_CLIENTS ∧
      (sse_subscribe st req).2.sse_mutex = true ∧
      (sse_subscribe st req).2.sse_clients.countP Option.isSome
        = st.sse_clients.countP Option.isSome + 1 ∧
      (sse_subscribe st req).2.sse_clients.countP Option.isSome ≤ MAX_SSE_CLIENTS ∧
      (api_uart_stream_handler st req).1 = none := by
  classical
  have hex : ∃ i, i < MAX_SSE_CLIENTS ∧ slot st.sse_clients i = none := hempty
  let k := Nat.find hex
  have hk : k < MAX_SSE_CLIENTS ∧ slot st.sse_clients k = none := Nat.find_spec hex
  have hlow : ∀ j, j < k → slot st.sse_clients j ≠ none := by
    intro j hj hnone
    exact Nat.find_min hex hj ⟨by omega, hnone⟩
  have hscan := sse_slot_scan_first req st.sse_clients MAX_SSE_CLIENTS 0 k (Nat.zero_le _)
    (by omega) hk.2 (fun j _ h => hlow j h)
  have hsub : sse_subscribe st req
      = ((k : Int), { st with sse_clients := st.sse_clients.set k (some req) }) := by
    simp only [sse_subscribe, hmutex, if_true, hscan]
  have hcount := countP_set_none st.sse_clients req k (by omega) hk.2
  refine ⟨k, hk.1, hk.2, hlow, ?_, ?_, ?_, ?_, ?_, ?_, ?_, ?_⟩
  · rw [hsub]
  · rw [hsub]
    exact slot_set_self _ _ _ (by omega)
  · intro j hj
    rw [hsub]
    exact slot_set_ne _ _ _ _ (Ne.symm hj)
  · rw [hsub]
    simp [hlen]
  · rw [hsub]
    exact hmutex
  · rw [hsub]
    exact hcount
  · rw [hsub]
    have hle := List.countP_le_length Option.isSome
      (l := st.sse_clients.set k (some req))
    simp only [List.length_set, hlen] at hle
    exact hle
  · simp only [api_uart_stream_handler, hsub]
    have : ¬ ((k : Int) = -1) := by omega
    simp [this]

/-- A started server has its mutex; in a table whose slots 0 and 2 are
occupied the new subscriber gets slot 1 and three slots are occupied
afterwards. -/
theorem subscribe_success_witness :
    web_started.sse_mutex = true ∧
    sse_subscribe { sse_mutex := true, sse_clients := [some 11, none, some 13, none] } 15
      = (1, { sse_mutex := true, sse_clients := [some 11, some 15, some 13, none] }) ∧
    ∃ k, k < MAX_SSE_CLIENTS ∧
      (sse_subscribe { sse_mutex := true, sse_clients := [some 11, none, some 13, none] } 15).1
        = (k : Int) ∧
      (sse_subscribe { sse_mutex := true, sse_clients := [some 11, none, some 13, none] }
        15).2.sse_clients.countP Option.isSome = 3 :=
  have h := subscribe_success
    { sse_mutex := true, sse_clients := [some 11, none, some 13, none] } 15 rfl rfl
    ⟨1, by decide, by decide⟩
  ⟨by decide, by decide, h.choose, h.choose_spec.1, h.choose_spec.2.2.2.1,
    h.choose_spec.2.2.2.2.2.2.2.2.1⟩
/-! ### Broadcast message length -/

theorem base64_encode_chars_length (bytes : List Nat) :
    (base64_encode_chars bytes).length = 4 * ((bytes.length + 2) / 3) := by
  induction bytes using base64_encode_chars.induct with
  | case1 c1 c2 c3 rest ih =>
    simp only [base64_encode_chars, List.length_cons, ih]
    omega
  | case2 c1 c2 => simp [base64_encode_chars]
  | case3 c1 => simp [base64_encode_chars]
  | case4 => rfl

theorem toDigits_length_small (n : Nat) (h : n < 1000) :
    (Nat.toDigits 10 n).length = if n < 10 then 1 else if n < 100 then 2 else 3 := by
  by_cases h1 : n < 10
  · rw [if_pos h1]
    unfold Nat.toDigits
    rw [Nat.toDigitsCore]
    simp [Nat.div_eq_of_lt h1]
  · rw [if_neg h1]
    obtain ⟨m, rfl⟩ : ∃ m, n = m + 10 := ⟨n - 10, by omega⟩
    by_cases h2 : m + 10 < 100
    · rw [if_pos h2]
      unfold Nat.toDigits
      have e1 : (m + 10) / 10 ≠ 0 := by omega
      have e2 : (m + 10) / 10 / 10 = 0 := by omega
      rw [Nat.toDigitsCore]
      simp only [e1, if_false]
      rw [Nat.toDigitsCore]
      simp only [e2, if_true, List.length_cons, List.length_nil]
    · rw [if_neg h2]
      unfold Nat.toDigits
      have e1 : (m + 10) / 10 ≠ 0 := by omega
      have e2 : (m + 10) / 10 / 10 ≠ 0 := by omega
      have e3 : (m + 10) / 10 / 10 / 10 = 0 := by omega
      rw [Nat.toDigitsCore]
      simp only [e1, if_false]
      rw [Nat.toDigitsCore]
      simp only [e2, if_false]
      rw [Nat.toDigitsCore]
      simp only [e3, if_true, List.length_cons, List.length_nil]

theorem base64_fits (bytes : List Nat) (h : bytes.length ≤ 381) :
    mbedtls_base64_encode B64_BUF_SIZE bytes = some (base64_encode_chars bytes) := by
  by_cases h0 : bytes.length = 0
  · have hnil : bytes = [] := List.length_eq_zero.mp h0
    subst hnil
    rfl
  · have h1 : ¬ (bytes.length / 3 + (if bytes.length % 3 ≠ 0 then 1 else 0)
        > (BASE64_SIZE_T_MAX - 1) / 4) := by
      unfold BASE64_SIZE_T_MAX
      split <;> omega
    have h2 : ¬ (B64_BUF_SIZE < base64_required bytes.length) := by
      simp only [B64_BUF_SIZE, base64_required]
      split <;> omega
    simp only [mbedtls_base64_encode, h0, if_false, h1, h2]

theorem sse_format_length (b64 : List Char) (len : Nat) :
    (sse_format b64 len).length = 30 + b64.length + (Nat.toDigits 10 len).length := by
  have e1 : "data: \x7b\"uart_b64\":\"".toList.length = 19 := by decide
  have e2 : "\",\"len\":".toList.length = 8 := by decide
  have e3 : "\x7d\n\n".toList.length = 3 := by decide
  simp only [sse_format, List.length_append, e1, e2, e3]
  omega

/-- C27.  The SSE message is never truncated.  For every payload of `n` bytes
with `1 <= n <= 381`, which are exactly the non-empty payloads whose Base64
text fits the 512-byte `b64_buf`, the encoding succeeds with `4 * ceil(n / 3)`
characters (at most 508), the formatted message has
`30 + 4 * ceil(n / 3) + digits(n)` characters with `digits(n)` the 1, 2 or 3
decimal digits of `n`, which is at most 541 and less than the 600 bytes of
`sse_msg`; so the string left by `snprintf` is the whole formatted message and
it ends with the blank line that terminates an event. -/
theorem sse_message_not_truncated (bytes : List Nat) (h1 : 1 ≤ bytes.length)
    (h2 : bytes.length ≤ 381) :
    base64_required bytes.length ≤ B64_BUF_SIZE ∧
    (∀ m, base64_required m ≤ B64_BUF_SIZE ↔ m ≤ 381) ∧
    mbedtls_base64_encode B64_BUF_SIZE bytes = some (base64_encode_chars bytes) ∧
    (base64_encode_chars bytes).length = 4 * ((bytes.length + 2) / 3) ∧
    (base64_encode_chars bytes).length ≤ 511 ∧
    (Nat.toDigits 10 bytes.length).length
      = (if bytes.length < 10 then 1 else if bytes.length < 100 then 2 else 3) ∧
    (sse_format (base64_encode_chars bytes) bytes.length).length
      = 30 + 4 * ((bytes.length + 2) / 3) + (Nat.toDigits 10 bytes.length).length ∧
    (sse_format (base64_encode_chars bytes) bytes.length).length ≤ 541 ∧
    541 < SSE_MSG_SIZE ∧
    sse_message (base64_encode_chars bytes) bytes.length
      = sse_format (base64_encode_chars bytes) bytes.length ∧
    "\x7d\n\n".toList <:+ sse_message (base64_encode_chars bytes) bytes.length ∧
    ∀ (send : Nat → Nat → List Char → esp_err_t) (st : WebState) (c : SendCall),
      c ∈ (web_server_broadcast_uart_data send st (some bytes)).1 →
        c.msg = sse_format (base64_encode_chars bytes) bytes.length := by
  have hreq : ∀ m, base64_required m ≤ B64_BUF_SIZE ↔ m ≤ 381 := by
    intro m
    simp only [B64_BUF_SIZE, base64_required]
    split <;> omega
  have hb := base64_encode_chars_length bytes
  have hd := toDigits_length_small bytes.length (by omega)
  have hf := sse_format_length (base64_encode_chars bytes) bytes.length
  have hdle : (Nat.toDigits 10 bytes.length).length ≤ 3 := by
    rw [hd]
    split
    · omega
    · split <;> omega
  have hle : (sse_format (base64_encode_chars bytes) bytes.length).length ≤ 541 := by
    rw [hf, hb]
    omega
  have hmsg : sse_message (base64_encode_chars bytes) bytes.length
      = sse_format (base64_encode_chars bytes) bytes.length := by
    unfold sse_message
    apply List.take_of_length_le
    unfold SSE_MSG_SIZE
    omega
  refine ⟨(hreq _).mpr h2, hreq, base64_fits bytes h2, hb, by omega, hd, by rw [hf, hb], hle,
    by decide, hmsg, ?_, ?_⟩
  · rw [hmsg]
    unfold sse_format
    exact List.suffix_append _ _
  · intro send st c hc
    have hne : bytes.length ≠ 0 := by omega
    cases hm : st.sse_mutex with
    | false =>
      simp [web_server_broadcast_uart_data, hm] at hc
    | true =>
      have hrun : (web_server_broadcast_uart_data send st (some bytes)).1
          = (sse_broadcast_loop send (sse_message (base64_encode_chars bytes) bytes.length)
              MAX_SSE_CLIENTS 0 st.sse_clients).1 := by
        simp [web_server_broadcast_uart_data, hm, hne, base64_fits bytes h2]
      rw [hrun, (sse_broadcast_loop_spec send _ MAX_SSE_CLIENTS 0 st.sse_clients).1] at hc
      simp only [List.mem_filterMap] at hc
      obtain ⟨i, _, hi⟩ := hc
      cases hs : slot st.sse_clients i with
      | none => simp [hs] at hi
      | some req =>
        simp only [hs, Option.map_some', Option.some.injEq] at hi
        rw [← hi, hmsg]

/-- A three-byte payload: the message has 30 + 4 + 1 characters and is sent
whole. -/
theorem sse_message_not_truncated_witness :
    (sse_format (base64_encode_chars [72, 105, 10]) 3).length = 35 ∧
    sse_message (base64_encode_chars [72, 105, 10]) 3
      = "data: \x7b\"uart_b64\":\"SGkK\",\"len\":3\x7d\n\n".toList :=
  have h := sse_message_not_truncated [72, 105, 10] (by decide) (by decide)
  ⟨h.2.2.2.2.2.2.1, h.2.2.2.2.2.2.2.2.2.1.trans (by decide)⟩
/-! ### Connectivity state machine: client count -/

theorem font_rows :
    ∀ r, r < 95 → (font_6x8.getD r []).length = 6 ∧ ∀ v ∈ font_6x8.getD r [], v < 256 := by
  decide

theorem font_at_lt (row i : Nat) : font_at row i < 256 := by
  unfold font_at
  by_cases hr : row < 95
  · have h := (font_rows row hr).2
    by_cases hi : i < (font_6x8.getD row []).length
    · have hm : (font_6x8.getD row []).getD i 0 ∈ font_6x8.getD row [] := by
        rw [List.getD_eq_getElem _ _ hi]
        exact List.getElem_mem _
      exact h _ hm
    · rw [List.getD_eq_default _ _ (by omega)]
      decide
  · have hl : font_6x8.length = 95 := by decide
    rw [List.getD_eq_default font_6x8 _ (by omega)]
    simp

theorem char_index_lt (c : Int) : char_index c < 95 := by
  unfold char_index
  split
  · decide
  · omega

theorem send_if_ok_fail (r : esp_err_t × OledBus) (b : OledByte) (h : r.1 ≠ ESP_OK) :
    send_if_ok r b = r := by
  simp [send_if_ok, h]

theorem send_if_ok_ret_of (r : esp_err_t × OledBus) (b : OledByte) :
    (send_if_ok r b).2.ret_of = r.2.ret_of := by
  unfold send_if_ok
  split <;> rfl

theorem oled_send_seq_fail (bytes : List OledByte) :
    ∀ r : esp_err_t × OledBus, r.1 ≠ ESP_OK → oled_send_seq r bytes = r := by
  induction bytes with
  | nil =>
    intro r _
    rfl
  | cons b rest ih =>
    intro r h
    simp only [oled_send_seq, List.foldl_cons, send_if_ok_fail r b h]
    exact ih r h

theorem oled_send_seq_ret_of (bytes : List OledByte) :
    ∀ r : esp_err_t × OledBus, (oled_send_seq r bytes).2.ret_of = r.2.ret_of := by
  induction bytes with
  | nil =>
    intro r
    rfl
  | cons b rest ih =>
    intro r
    simp only [oled_send_seq, List.foldl_cons]
    exact (ih (send_if_ok r b)).trans (send_if_ok_ret_of r b)

theorem oled_send_seq_append (r : esp_err_t × OledBus) (a b : List OledByte) :
    oled_send_seq r (a ++ b) = oled_send_seq (oled_send_seq r a) b := by
  simp [oled_send_seq, List.foldl_append]

theorem oled_send_seq_prefix (bytes : List OledByte) :
    ∀ r : esp_err_t × OledBus, ∃ k, k ≤ bytes.length ∧
      (oled_send_seq r bytes).2.calls = r.2.calls ++ bytes.take k := by
  induction bytes with
  | nil =>
    intro r
    exact ⟨0, Nat.le_refl _, by simp [oled_send_seq]⟩
  | cons b rest ih =>
    intro r
    by_cases h : r.1 = ESP_OK
    · obtain ⟨k, hk, hc⟩ := ih (send_if_ok r b)
      refine ⟨k + 1, by simpa using hk, ?_⟩
      simp only [oled_send_seq, List.foldl_cons] at hc ⊢
      rw [hc]
      simp [send_if_ok, h]
    · refine ⟨0, Nat.zero_le _, ?_⟩
      rw [oled_send_seq_fail _ r h]
      simp

theorem oled_send_seq_ok (bytes : List OledByte) :
    ∀ r : esp_err_t × OledBus, (∀ k, r.2.ret_of k = ESP_OK) → r.1 = ESP_OK →
      (oled_send_seq r bytes).1 = ESP_OK ∧
      (oled_send_seq r bytes).2.calls = r.2.calls ++ bytes := by
  induction bytes with
  | nil =>
    intro r _ h
    exact ⟨h, by simp [oled_send_seq]⟩
  | cons b rest ih =>
    intro r hsend h
    have h1 : (send_if_ok r b).1 = ESP_OK := by
      simp [send_if_ok, h, hsend]
    have h2 : ∀ k, (send_if_ok r b).2.ret_of k = ESP_OK := by
      intro k
      rw [send_if_ok_ret_of]
      exact hsend k
    obtain ⟨e1, e2⟩ := ih (send_if_ok r b) h2 h1
    simp only [oled_send_seq, List.foldl_cons] at e1 e2 ⊢
    refine ⟨e1, ?_⟩
    rw [e2]
    simp [send_if_ok, h]

theorem command_if_ok_eq (r : esp_err_t × OledBus) (v : Nat) (h : v < 256) :
    command_if_ok r v = send_if_ok r (OledByte.command v) := by
  simp only [command_if_ok, send_if_ok, oled_send_command, UINT8_RANGE, Nat.mod_eq_of_lt h]

theorem oled_send_command_eq (bus : OledBus) (v : Nat) (h : v < 256) :
    oled_send_command bus v = send_if_ok (ESP_OK, bus) (OledByte.command v) := by
  simp only [send_if_ok, oled_send_command, UINT8_RANGE, Nat.mod_eq_of_lt h, if_true]

theorem draw_char_data_eq (index : Nat) (n : Nat) :
    ∀ (i : Nat) (r : esp_err_t × OledBus),
      draw_char_data index n i r
        = oled_send_seq r ((List.range' i n).map fun j => OledByte.data (font_at index j)) := by
  induction n with
  | zero =>
    intro i r
    rfl
  | succ n ih =>
    intro i r
    by_cases h : r.1 = ESP_OK
    · simp only [draw_char_data, h, if_true, List.range'_succ, List.map_cons, oled_send_seq,
        List.foldl_cons]
      rw [ih]
      simp only [oled_send_seq, send_if_ok, h, if_true, oled_send_data, UINT8_RANGE,
        Nat.mod_eq_of_lt (font_at_lt index i)]
    · rw [oled_send_seq_fail _ r h]
      simp [draw_char_data, h]

theorem draw_char_eq (bus : OledBus) (x y : Nat) (c : Int) (hx : x < OLED_WIDTH)
    (hy : y < OLED_PAGES) :
    draw_char bus x y c = oled_send_seq (ESP_OK, bus) (char_bytes x y c) := by
  unfold OLED_WIDTH at hx
  unfold OLED_PAGES at hy
  have hn : ¬ (x ≥ OLED_WIDTH ∨ y ≥ OLED_PAGES) := by
    unfold OLED_WIDTH OLED_PAGES
    omega
  simp only [draw_char, hn, if_false]
  rw [oled_send_command_eq bus 0x20 (by decide), command_if_ok_eq _ 0x00 (by decide),
    command_if_ok_eq _ 0x21 (by decide), command_if_ok_eq _ x (by omega),
    command_if_ok_eq _ (x + 5) (by omega), command_if_ok_eq _ 0x22 (by decide),
    command_if_ok_eq _ y (by omega), command_if_ok_eq _ y (by omega), draw_char_data_eq]
  rfl

theorem clear_line_data_eq (n : Nat) :
    ∀ r : esp_err_t × OledBus,
      clear_line_data n r = oled_send_seq r (List.replicate n (OledByte.data 0)) := by
  induction n with
  | zero =>
    intro r
    rfl
  | succ n ih =>
    intro r
    by_cases h : r.1 = ESP_OK
    · simp only [clear_line_data, h, if_true, List.replicate_succ, oled_send_seq,
        List.foldl_cons]
      rw [ih]
      simp only [oled_send_seq, send_if_ok, h, if_true, oled_send_data, UINT8_RANGE,
        Nat.zero_mod]
    · rw [oled_send_seq_fail _ r h]
      simp [clear_line_data, h]

/-- C28.  The font lookup of `draw_char` is always in bounds.  For every value
of the character `c`, negative and non-printable ones included, the computed
index is `c - 32` when `32 <= c <= 126` and 0, the space glyph, otherwise; it
is less than 95, the number of rows of `font_6x8`, every row has its six
bytes, and these six bytes of row `char_index c` are the data `draw_char`
sends after the eight addressing commands. -/
theorem font_lookup_in_bounds (c : Int) :
    (32 ≤ c ∧ c ≤ 126 → (char_index c : Int) = c - 32) ∧
    (¬ (32 ≤ c ∧ c ≤ 126) → char_index c = 0) ∧
    char_index c < 95 ∧
    font_6x8.length = 95 ∧
    char_index c < font_6x8.length ∧
    (font_6x8.getD (char_index c) []).length = 6 ∧
    font_6x8.getD 0 [] = [0, 0, 0, 0, 0, 0] ∧
    (∀ (bus : OledBus) (x y : Nat), x < OLED_WIDTH → y < OLED_PAGES →
      (∀ k, bus.ret_of k = ESP_OK) →
        (draw_char bus x y c).1 = ESP_OK ∧
        (draw_char bus x y c).2.calls
          = bus.calls ++
            [OledByte.command 0x20, OledByte.command 0x00, OledByte.command 0x21,
              OledByte.command x, OledByte.command (x + 5), OledByte.command 0x22,
              OledByte.command y, OledByte.command y] ++
            (font_6x8.getD (char_index c) []).map OledByte.data) := by
  have hlt := char_index_lt c
  have hlen : font_6x8.length = 95 := by decide
  have hrow := (font_rows (char_index c) hlt).1
  refine ⟨?_, ?_, hlt, hlen, by omega, hrow, by decide, ?_⟩
  · intro h
    have hn : ¬ (c < 32 ∨ c > 126) := by omega
    simp only [char_index, hn, if_false]
    omega
  · intro h
    have hp : c < 32 ∨ c > 126 := by omega
    simp only [char_index, hp, if_true]
  · intro bus x y hx hy hsend
    rw [draw_char_eq bus x y c hx hy]
    obtain ⟨e1, e2⟩ := oled_send_seq_ok (char_bytes x y c) (ESP_OK, bus) hsend rfl
    refine ⟨e1, ?_⟩
    rw [e2, List.append_assoc]
    congr 1
    have hmap : (font_6x8.getD (char_index c) []).map OledByte.data
        = [OledByte.data (font_at (char_index c) 0), OledByte.data (font_at (char_index c) 1),
            OledByte.data (font_at (char_index c) 2), OledByte.data (font_at (char_index c) 3),
            OledByte.data (font_at (char_index c) 4),
            OledByte.data (font_at (char_index c) 5)] := by
      unfold font_at
      generalize font_6x8.getD (char_index c) [] = row at hrow
      match row, hrow with
      | [a0, a1, a2, a3, a4, a5], _ => rfl
    rw [hmap]
    rfl

/-- The letter `A` uses row 33; a negative value, a control character and a
value above 126 use row 0. -/
theorem font_lookup_in_bounds_witness :
    char_index 65 = 33 ∧ char_index (-5) = 0 ∧ char_index 10 = 0 ∧ char_index 200 = 0 ∧
    char_index 126 = 94 :=
  ⟨Int.ofNat.inj ((font_lookup_in_bounds 65).1 (by decide)),
    (font_lookup_in_bounds (-5)).2.1 (by decide),
    (font_lookup_in_bounds 10).2.1 (by decide),
    (font_lookup_in_bounds 200).2.1 (by decide),
    Int.ofNat.inj ((font_lookup_in_bounds 126).1 (by decide))⟩

theorem render_text_chars_spec (line : Nat) (text : List Int) (hline : line < OLED_PAGES)
    (n : Nat) :
    ∀ (i : Nat) (r : esp_err_t × OledBus × List DrawCharCall), i + n ≤ RENDER_MAX_TEXT_LEN →
      ((render_text_chars line text n i r).1, (render_text_chars line text n i r).2.1)
        = oled_send_seq (r.1, r.2.1)
            ((List.range' i n).flatMap fun j => char_bytes (6 * j) line (text.getD j 0)) ∧
      ∃ k, k ≤ n ∧
        (render_text_chars line text n i r).2.2
          = r.2.2 ++ (List.range' i k).map
              (fun j => ({ x := 6 * j, y := line, c := text.getD j 0 } : DrawCharCall)) ∧
        ((∀ m, r.2.1.ret_of m = ESP_OK) → r.1 = ESP_OK → k = n) := by
  induction n with
  | zero =>
    intro i r _
    exact ⟨rfl, 0, Nat.le_refl _, by simp [render_text_chars], fun _ _ => rfl⟩
  | succ n ih =>
    intro i r hi
    unfold RENDER_MAX_TEXT_LEN at hi
    by_cases h : r.1 = ESP_OK
    · have hx : (i * 6) % UINT8_RANGE = 6 * i := by
        unfold UINT8_RANGE
        omega
      have hxw : 6 * i < OLED_WIDTH := by
        unfold OLED_WIDTH
        omega
      have hd := draw_char_eq r.2.1 (6 * i) line (text.getD i 0) hxw hline
      obtain ⟨ih1, k, hk, ih2, ih3⟩ := ih (i + 1)
        ((draw_char r.2.1 (6 * i) line (text.getD i 0)).1,
          (draw_char r.2.1 (6 * i) line (text.getD i 0)).2,
          r.2.2 ++ [{ x := 6 * i, y := line, c := text.getD i 0 }])
        (by unfold RENDER_MAX_TEXT_LEN; omega)
      have hstep : render_text_chars line text (n + 1) i r
          = render_text_chars line text n (i + 1)
              ((draw_char r.2.1 (6 * i) line (text.getD i 0)).1,
                (draw_char r.2.1 (6 * i) line (text.getD i 0)).2,
                r.2.2 ++ [{ x := 6 * i, y := line, c := text.getD i 0 }]) := by
        simp only [render_text_chars, h, if_true, hx]
      rw [hstep]
      refine ⟨?_, k + 1, by omega, ?_, ?_⟩
      · rw [ih1, List.range'_succ, List.flatMap_cons, oled_send_seq_append, hd, h]
      · rw [ih2, List.range'_succ, List.map_cons, List.append_assoc]
        rfl
      · intro hsend hok
        have hsend1 : ∀ m, (draw_char r.2.1 (6 * i) line (text.getD i 0)).2.ret_of m = ESP_OK := by
          intro m
          rw [hd, oled_send_seq_ret_of]
          exact hsend m
        have hok1 : (draw_char r.2.1 (6 * i) line (text.getD i 0)).1 = ESP_OK := by
          rw [hd]
          exact (oled_send_seq_ok _ (ESP_OK, r.2.1) hsend rfl).1
        rw [ih3 hsend1 hok1]
    · have hstop : render_text_chars line text (n + 1) i r = r := by
        simp [render_text_chars, h]
      rw [hstop, oled_send_seq_fail _ (r.1, r.2.1) h]
      exact ⟨rfl, 0, Nat.zero_le _, by simp, fun _ hok => absurd hok h⟩

theorem text_len_min (text : List Int) :
    (if text.length > RENDER_MAX_TEXT_LEN then RENDER_MAX_TEXT_LEN else text.length)
      = min text.length RENDER_MAX_TEXT_LEN := by
  split <;> omega

theorem clear_part_eq (bus : OledBus) (line : Nat) (hline : line < OLED_PAGES) :
    clear_line_data OLED_WIDTH
        (command_if_ok (command_if_ok (command_if_ok (command_if_ok (command_if_ok
          (oled_send_command bus 0x21) 0) 127) 0x22) line) line)
      = oled_send_seq (ESP_OK, bus) (clear_bytes line) := by
  unfold OLED_PAGES at hline
  rw [oled_send_command_eq bus 0x21 (by decide), command_if_ok_eq _ 0 (by decide),
    command_if_ok_eq _ 127 (by decide), command_if_ok_eq _ 0x22 (by decide),
    command_if_ok_eq _ line (by omega), command_if_ok_eq _ line (by omega), clear_line_data_eq,
    clear_bytes, oled_send_seq_append]
  rfl

theorem text_bytes_eq (line : Nat) (text : List Int) :
    ((text_draws line text).flatMap fun d => char_bytes d.x d.y d.c)
      = (List.range' 0 (min text.length RENDER_MAX_TEXT_LEN)).flatMap
          fun j => char_bytes (6 * j) line (text.getD j 0) := by
  simp only [text_draws, List.range_eq_range', List.flatMap_def, List.map_map]
  rfl

theorem render_text_line_impl_spec (bus : OledBus) (line : Nat) (text : List Int)
    (clear_line : Bool) (hline : line < RENDER_MAX_LINES) :
    ((render_text_line_impl bus line (some text) clear_line).1,
        (render_text_line_impl bus line (some text) clear_line).2.1)
      = oled_send_seq (ESP_OK, bus) (line_bytes line text clear_line) ∧
    ∃ k, k ≤ min text.length RENDER_MAX_TEXT_LEN ∧
      (render_text_line_impl bus line (some text) clear_line).2.2
        = (List.range' 0 k).map
            (fun j => ({ x := 6 * j, y := line, c := text.getD j 0 } : DrawCharCall)) ∧
      ((∀ m, bus.ret_of m = ESP_OK) → k = min text.length RENDER_MAX_TEXT_LEN) := by
  have hp : line < OLED_PAGES := hline
  have hn : ¬ (line ≥ RENDER_MAX_LINES) := Nat.not_le.mpr hline
  have hclear : (if clear_line = true then
        clear_line_data OLED_WIDTH
          (command_if_ok (command_if_ok (command_if_ok (command_if_ok (command_if_ok
            (oled_send_command bus 0x21) 0) 127) 0x22) line) line)
      else (ESP_OK, bus))
      = oled_send_seq (ESP_OK, bus) (if clear_line = true then clear_bytes line else []) := by
    cases clear_line
    · rfl
    · simp only [if_true]
      exact clear_part_eq bus line hp
  have hrun : render_text_line_impl bus line (some text) clear_line
      = render_text_chars line text (min text.length RENDER_MAX_TEXT_LEN) 0
          ((oled_send_seq (ESP_OK, bus) (if clear_line = true then clear_bytes line else [])).1,
            (oled_send_seq (ESP_OK, bus) (if clear_line = true then clear_bytes line else [])).2,
            []) := by
    simp only [render_text_line_impl, hn, if_false, text_len_min, hclear]
  obtain ⟨h1, k, hk, h2, h3⟩ := render_text_chars_spec line text hp
    (min text.length RENDER_MAX_TEXT_LEN) 0
    ((oled_send_seq (ESP_OK, bus) (if clear_line = true then clear_bytes line else [])).1,
      (oled_send_seq (ESP_OK, bus) (if clear_line = true then clear_bytes line else [])).2, [])
    (by omega)
  rw [hrun]
  refine ⟨?_, k, hk, ?_, ?_⟩
  · rw [h1, line_bytes, oled_send_seq_append, text_bytes_eq]
  · rw [h2]
    rfl
  · intro hsend
    have hok := oled_send_seq_ok (if clear_line = true then clear_bytes line else [])
      (ESP_OK, bus) hsend rfl
    apply h3
    · intro m
      show (oled_send_seq (ESP_OK, bus) _).2.ret_of m = ESP_OK
      rw [oled_send_seq_ret_of]
      exact hsend m
    · exact hok.1

theorem char_bytes_commands (x y : Nat) (c : Int) (v : Nat)
    (h : OledByte.command v ∈ char_bytes x y c) :
    v = 0x20 ∨ v = 0x00 ∨ v = 0x21 ∨ v = x ∨ v = x + 5 ∨ v = 0x22 ∨ v = y := by
  simp only [char_bytes, List.mem_cons, OledByte.command.injEq, reduceCtorEq, false_or,
    List.not_mem_nil, or_false] at h
  omega

/-- C29 (counterexample).  Rendering `"Hi"` on line 0 with `clear_line` set
sends the column end address 127, which is more than 125, before any
character; and on a display transport whose calls fail the same call draws
none of the `min(2, 21) = 2` characters, and without `clear_line` it draws
only the first. -/
theorem render_line_counterexample :
    (render_text_line_impl bus_ok 0 (some [72, 105]) true).2.1.calls.take 3
      = [OledByte.command 0x21, OledByte.command 0, OledByte.command 127] ∧
    (render_text_line_impl bus_failing 0 (some [72, 105]) true).2.2 = [] ∧
    (render_text_line_impl bus_failing 0 (some [72, 105]) false).2.2
      = [{ x := 0, y := 0, c := 72 }] ∧
    (render_text_line_impl bus_failing 0 (some [72, 105]) false).1 = ESP_FAIL := by
  refine ⟨?_, ?_, ?_, ?_⟩
  · set_option maxRecDepth 100000 in rfl
  · rfl
  · rfl
  · rfl

/-- C29 (amended).  For every line below 8, every text and either value of
`clear_line`, `render_text_line_impl` calls `draw_char` for the first `k` of
the first `min(len(text), 21)` characters, character `i` at column `6 * i` of
page `line`, where `k` is all of them when no display call fails (the loop
ends at the first failed call).  Every such call passes the bounds check of
`draw_char` (`x < 128`, `y < 8`) and its column window `[6 * i, 6 * i + 5]`
ends at 125 or below.  The display calls made are an initial part of the
complete sequence `line_bytes`, and are the complete sequence, with result
`ESP_OK`, when no call fails; every command byte of a character is at most
125, and the only larger command byte is the column end 127 of the clear
window, so every column address sent is at most 127. -/
theorem render_line_on_screen (bus : OledBus) (line : Nat) (text : List Int)
    (clear_line : Bool) (hline : line < RENDER_MAX_LINES) :
    (∃ k, k ≤ min text.length 21 ∧
      (render_text_line_impl bus line (some text) clear_line).2.2
        = (List.range k).map
            (fun i => ({ x := 6 * i, y := line, c := text.getD i 0 } : DrawCharCall)) ∧
      ((∀ m, bus.ret_of m = ESP_OK) → k = min text.length 21)) ∧
    (∀ d ∈ (render_text_line_impl bus line (some text) clear_line).2.2,
      d.x < OLED_WIDTH ∧ d.y < OLED_PAGES ∧ d.x + 5 ≤ 125 ∧
      ∀ b : OledBus, draw_char b d.x d.y d.c = oled_send_seq (ESP_OK, b) (char_bytes d.x d.y d.c)) ∧
    (∃ n, (render_text_line_impl bus line (some text) clear_line).2.1.calls
      = bus.calls ++ (line_bytes line text clear_line).take n) ∧
    ((∀ m, bus.ret_of m = ESP_OK) →
      (render_text_line_impl bus line (some text) clear_line).1 = ESP_OK ∧
      (render_text_line_impl bus line (some text) clear_line).2.2 = text_draws line text ∧
      (render_text_line_impl bus line (some text) clear_line).2.1.calls
        = bus.calls ++ line_bytes line text clear_line) ∧
    (∀ d ∈ text_draws line text, ∀ v, OledByte.command v ∈ char_bytes d.x d.y d.c → v ≤ 125) ∧
    (∀ v, OledByte.command v ∈ line_bytes line text clear_line → v ≤ 127) := by
  obtain ⟨hseq, k, hk, hdraws, hall⟩ := render_text_line_impl_spec bus line text clear_line hline
  have hl8 : line < 8 := hline
  have hk21 : k ≤ 21 := by
    unfold RENDER_MAX_TEXT_LEN at hk
    omega
  have hcalls : (render_text_line_impl bus line (some text) clear_line).2.1
      = (oled_send_seq (ESP_OK, bus) (line_bytes line text clear_line)).2 :=
    congrArg Prod.snd hseq
  have hret : (render_text_line_impl bus line (some text) clear_line).1
      = (oled_send_seq (ESP_OK, bus) (line_bytes line text clear_line)).1 :=
    congrArg Prod.fst hseq
  have hmem : ∀ d ∈ text_draws line text, d.x + 5 ≤ 125 ∧ d.y = line := by
    intro d hd
    simp only [text_draws, List.mem_map, List.mem_range, RENDER_MAX_TEXT_LEN] at hd
    obtain ⟨i, hi, rfl⟩ := hd
    exact ⟨by show 6 * i + 5 ≤ 125; omega, rfl⟩
  have hchar : ∀ d ∈ text_draws line text, ∀ v,
      OledByte.command v ∈ char_bytes d.x d.y d.c → v ≤ 125 := by
    intro d hd v hv
    obtain ⟨h5, hy⟩ := hmem d hd
    have := char_bytes_commands d.x d.y d.c v hv
    omega
  refine ⟨⟨k, hk, ?_, hall⟩, ?_, ?_, ?_, hchar, ?_⟩
  · rw [hdraws, List.range_eq_range']
  · intro d hd
    rw [hdraws] at hd
    simp only [List.mem_map, List.mem_range'_1] at hd
    obtain ⟨i, hi, rfl⟩ := hd
    have hx : 6 * i < OLED_WIDTH := by
      unfold OLED_WIDTH
      omega
    refine ⟨hx, hline, by show 6 * i + 5 ≤ 125; omega, ?_⟩
    intro b
    exact draw_char_eq b (6 * i) line (text.getD i 0) hx hline
  · obtain ⟨n, _, hn⟩ := oled_send_seq_prefix (line_bytes line text clear_line) (ESP_OK, bus)
    exact ⟨n, by rw [hcalls, hn]⟩
  · intro hsend
    obtain ⟨e1, e2⟩ := oled_send_seq_ok (line_bytes line text clear_line) (ESP_OK, bus) hsend rfl
    refine ⟨by rw [hret, e1], ?_, by rw [hcalls, e2]⟩
    rw [hdraws, hall hsend, text_draws, List.range_eq_range']
  · intro v hv
    simp only [line_bytes, List.mem_append, List.mem_flatMap] at hv
    rcases hv with hv | ⟨d, hd, hv⟩
    · cases clear_line
      · simp at hv
      · simp only [if_true, clear_bytes, List.mem_append, List.mem_cons, OledByte.command.injEq,
          List.mem_singleton, List.mem_replicate, reduceCtorEq, and_false, or_false,
          List.not_mem_nil] at hv
        omega
    · have := hchar d hd v hv
      omega

/-- The text `"Hi"` on line 3 of a working display, without clearing: two
characters are drawn, at columns 0 and 6, and the call returns `ESP_OK`. -/
theorem render_line_on_screen_witness :
    (3 : Nat) < RENDER_MAX_LINES ∧
    (render_text_line_impl bus_ok 3 (some [72, 105]) false).1 = ESP_OK ∧
    (render_text_line_impl bus_ok 3 (some [72, 105]) false).2.2
      = [{ x := 0, y := 3, c := 72 }, { x := 6, y := 3, c := 105 }] :=
  have h := (render_line_on_screen bus_ok 3 [72, 105] false (by decide)).2.2.2.1 (fun _ => rfl)
  ⟨by decide, h.1, h.2.1⟩

end LucidConsole
